import Mathlib

set_option maxRecDepth 4000

/-
Verification of the dual-priority scheduling test program (dualpriotest.c).

The first part embeds the C program faithfully: struct task_t and struct
taskset_t become Lean structures with mathematical-integer fields (the C
values involved stay far below any machine-integer bound), the simulator
functions become pure functions on those structures, and the nested
combinatorial search loops become folds over explicitly enumerated lists.
Task indices are the C array indices 0..3, modelled as plain naturals.
-/

structure task_t where
  wcet : Int
  period : Int
  phase_1_prio : Int
  phase_2_prio : Int
  phase_change_point : Int
  last_release_time : Int
  remaining_wcet : Int
deriving DecidableEq

structure taskset_t where
  task0 : task_t
  task1 : task_t
  task2 : task_t
  task3 : task_t
  hyper_period : Int
deriving DecidableEq

/-- comment: `ts.task i` is `ts->tasks[i]` of the C code; the C program only
ever uses indices 0..3, and we map every other natural to the last task. -/
def taskset_t.task (ts : taskset_t) : Nat → task_t
  | 0 => ts.task0
  | 1 => ts.task1
  | 2 => ts.task2
  | _ => ts.task3

def gcd_c (a b : Int) : Int :=
  Int.gcd a b

def lcm_c (a b : Int) : Int :=
  a / gcd_c a b * b

def hyper_period (ts : taskset_t) : Int :=
  lcm_c (lcm_c (lcm_c (lcm_c 1 ts.task0.period) ts.task1.period) ts.task2.period) ts.task3.period

def reset_simulation_state (ts : taskset_t) : taskset_t :=
  { ts with
    task0 := { ts.task0 with last_release_time := -1, remaining_wcet := -1 }
    task1 := { ts.task1 with last_release_time := -1, remaining_wcet := -1 }
    task2 := { ts.task2 with last_release_time := -1, remaining_wcet := -1 }
    task3 := { ts.task3 with last_release_time := -1, remaining_wcet := -1 } }

def is_active (task : task_t) : Bool :=
  task.remaining_wcet > 0

def can_release (task : task_t) (t : Int) : Bool :=
  if task.last_release_time < 0 then true
  else t - task.last_release_time ≥ task.period

def release (task : task_t) (t : Int) : task_t :=
  { task with last_release_time := t, remaining_wcet := task.wcet }

def has_missed_deadline (task : task_t) (t : Int) : Bool :=
  is_active task && can_release task t

def get_priority (task : task_t) (t : Int) : Int :=
  if t - task.last_release_time < task.phase_change_point then task.phase_1_prio
  else task.phase_2_prio

/-- comment: the first deadline-missing task found by the scan in index
order at time `t`, as in the miss-checking loop of `simulate_sas`. -/
def first_miss (ts : taskset_t) (t : Int) : Option Nat :=
  if has_missed_deadline ts.task0 t then some 0
  else if has_missed_deadline ts.task1 t then some 1
  else if has_missed_deadline ts.task2 t then some 2
  else if has_missed_deadline ts.task3 t then some 3
  else none

def release_all (ts : taskset_t) (t : Int) : taskset_t :=
  { ts with
    task0 := if can_release ts.task0 t then release ts.task0 t else ts.task0
    task1 := if can_release ts.task1 t then release ts.task1 t else ts.task1
    task2 := if can_release ts.task2 t then release ts.task2 t else ts.task2
    task3 := if can_release ts.task3 t then release ts.task3 t else ts.task3 }

/-- comment: one iteration of the selection loop of
`get_highest_prio_active_task`, acting on the accumulator
`(highest_prio, hp_task)`; `hp_task` is an index instead of a pointer. -/
def ghpat_step (ts : taskset_t) (t : Int) (i : Nat) (acc : Int × Option Nat) :
    Int × Option Nat :=
  if is_active (ts.task i) then
    if get_priority (ts.task i) t < acc.1 ∨ acc.1 < 0 then
      (get_priority (ts.task i) t, some i)
    else acc
  else acc

def get_highest_prio_active_task (ts : taskset_t) (t : Int) : Option Nat :=
  (ghpat_step ts t 3 (ghpat_step ts t 2 (ghpat_step ts t 1
    (ghpat_step ts t 0 ((-1 : Int), none))))).2

def dec_remaining (ts : taskset_t) : Nat → taskset_t
  | 0 => { ts with task0 := { ts.task0 with remaining_wcet := ts.task0.remaining_wcet - 1 } }
  | 1 => { ts with task1 := { ts.task1 with remaining_wcet := ts.task1.remaining_wcet - 1 } }
  | 2 => { ts with task2 := { ts.task2 with remaining_wcet := ts.task2.remaining_wcet - 1 } }
  | _ => { ts with task3 := { ts.task3 with remaining_wcet := ts.task3.remaining_wcet - 1 } }

def execute_step (ts : taskset_t) (t : Int) : taskset_t :=
  match get_highest_prio_active_task ts t with
  | none => ts
  | some k => dec_remaining ts k

/-- comment: the release-and-execute part of one loop iteration of
`simulate_sas` at time `t` (run after the miss check passed). -/
def sim_tick (ts : taskset_t) (t : Int) : taskset_t :=
  execute_step (release_all ts t) t

/-- comment: the while loop of `simulate_sas`; `fuel` bounds the number of
remaining iterations and `simulate_sas` supplies exactly the number the
loop condition `t <= hyper_period` allows, so the fuel never runs out. -/
def sim_loop (hp : Int) : Nat → taskset_t → Int → Option Nat
  | 0, _, _ => none
  | fuel + 1, ts, t =>
    if t ≤ hp then
      match first_miss ts t with
      | some k => some k
      | none => sim_loop hp fuel (sim_tick ts t) (t + 1)
    else none

def simulate_sas (ts : taskset_t) : Option Nat :=
  sim_loop ts.hyper_period (ts.hyper_period + 1).toNat (reset_simulation_state ts) 0

/-- comment: the simulation states of `simulate_sas` at the start of each
loop iteration, continued past a deadline miss by keeping on releasing and
executing; `traj ts n` is the state at the start of the iteration with
`t = n`, and it agrees with the real run up to the first miss. -/
def traj (ts : taskset_t) : Nat → taskset_t
  | 0 => reset_simulation_state ts
  | n + 1 => sim_tick (traj ts n) n

/-- comment: `miss_task->phase_change_point--` of the FDMS loop, with the
missing task given by index. -/
def dec_pcp (ts : taskset_t) : Nat → taskset_t
  | 0 => { ts with task0 := { ts.task0 with phase_change_point := ts.task0.phase_change_point - 1 } }
  | 1 => { ts with task1 := { ts.task1 with phase_change_point := ts.task1.phase_change_point - 1 } }
  | 2 => { ts with task2 := { ts.task2 with phase_change_point := ts.task2.phase_change_point - 1 } }
  | _ => { ts with task3 := { ts.task3 with phase_change_point := ts.task3.phase_change_point - 1 } }

/-- comment: the four initial assignments of `test_fdms_phase_change_points`,
setting every phase change point to the task's period. -/
def fdms_init (ts : taskset_t) : taskset_t :=
  { ts with
    task0 := { ts.task0 with phase_change_point := ts.task0.period }
    task1 := { ts.task1 with phase_change_point := ts.task1.period }
    task2 := { ts.task2 with phase_change_point := ts.task2.period }
    task3 := { ts.task3 with phase_change_point := ts.task3.period } }

/-- comment: the while loop of `test_fdms_phase_change_points`; `none` would
mean the fuel ran out, and the termination theorem for claim C5 shows the
fuel chosen by `test_fdms_phase_change_points` never does. -/
def fdms_loop : Nat → taskset_t → Option Bool
  | 0, _ => none
  | fuel + 1, ts =>
    match simulate_sas ts with
    | none => some true
    | some k =>
      if (ts.task k).phase_change_point > 0 then fdms_loop fuel (dec_pcp ts k)
      else some false

def test_fdms_phase_change_points (ts : taskset_t) : Option Bool :=
  fdms_loop
    (1 + (ts.task0.period.toNat + ts.task1.period.toNat +
          ts.task2.period.toNat + ts.task3.period.toNat))
    (fdms_init ts)

/-- comment: the value list `0, 1, ..., n` of a C loop `for (x = 0; x <= n; x++)`
over an int bound `n` (empty when `n < 0`), as integers. -/
def int_range (n : Int) : List Int :=
  (List.range (n + 1).toNat).map (fun (k : Nat) => (k : Int))

def set_pcps (ts : taskset_t) (a b c d : Int) : taskset_t :=
  { ts with
    task0 := { ts.task0 with phase_change_point := a }
    task1 := { ts.task1 with phase_change_point := b }
    task2 := { ts.task2 with phase_change_point := c }
    task3 := { ts.task3 with phase_change_point := d } }

/-- comment: the phase-change-point combinations enumerated by the four
nested loops of `test_all_phase_change_points`, in the same nesting order. -/
def pcp_combos (ts : taskset_t) : List (Int × Int × Int × Int) :=
  (int_range ts.task0.period).flatMap fun a =>
  (int_range ts.task1.period).flatMap fun b =>
  (int_range ts.task2.period).flatMap fun c =>
  (int_range ts.task3.period).map fun d => (a, b, c, d)

def test_all_phase_change_points (ts : taskset_t) : Bool :=
  (pcp_combos ts).any fun x =>
    (simulate_sas (set_pcps ts x.1 x.2.1 x.2.2.1 x.2.2.2)).isNone

/-- comment: a priority assignment for the eight priority slots; for the
unrestricted search the component order is the generation order
`(T1p2, T2p2, T3p2, T4p2, T1p1, T2p1, T3p1, T4p1)`, for the RM-restricted
search it is `(T1p1, T2p1, T3p1, T4p1, T1p2, T2p2, T3p2, T4p2)`. -/
abbrev prio_tuple := Nat × Nat × Nat × Nat × Nat × Nat × Nat × Nat

/-- comment: the priority permutations generated by the eight nested loops of
`test_all_configurations_exhaustively`: phase 2 priorities first, each loop
skipping the values already taken (the `continue` statements). -/
def prio_perms_all : List prio_tuple :=
  (List.range 8).flatMap fun a =>
  ((List.range 8).filter fun x => x != a).flatMap fun b =>
  ((List.range 8).filter fun x => x != a && x != b).flatMap fun c =>
  ((List.range 8).filter fun x => x != a && x != b && x != c).flatMap fun d =>
  ((List.range 8).filter fun x => x != a && x != b && x != c && x != d).flatMap fun e =>
  ((List.range 8).filter fun x => x != a && x != b && x != c && x != d && x != e).flatMap fun f =>
  ((List.range 8).filter fun x => x != a && x != b && x != c && x != d && x != e && x != f).flatMap fun g =>
  ((List.range 8).filter fun x => x != a && x != b && x != c && x != d && x != e && x != f && x != g).map fun h =>
  (a, b, c, d, e, f, g, h)

/-- comment: the priority permutations generated by the eight nested loops of
`test_rm_configurations_exhaustively`: strictly increasing phase 1
priorities (each inner loop starts one above the previous loop variable),
then phase 2 priorities skipping all taken values. -/
def prio_perms_rm : List prio_tuple :=
  (List.range 8).flatMap fun a =>
  ((List.range 8).filter fun x => a < x).flatMap fun b =>
  ((List.range 8).filter fun x => b < x).flatMap fun c =>
  ((List.range 8).filter fun x => c < x).flatMap fun d =>
  ((List.range 8).filter fun x => x != a && x != b && x != c && x != d).flatMap fun e =>
  ((List.range 8).filter fun x => x != a && x != b && x != c && x != d && x != e).flatMap fun f =>
  ((List.range 8).filter fun x => x != a && x != b && x != c && x != d && x != e && x != f).flatMap fun g =>
  ((List.range 8).filter fun x => x != a && x != b && x != c && x != d && x != e && x != f && x != g).map fun h =>
  (a, b, c, d, e, f, g, h)

/-- comment: writing a permutation of `test_all_configurations_exhaustively`
into the task set: the first four components are the phase 2 priorities. -/
def set_prios_all (ts : taskset_t) (u : prio_tuple) : taskset_t :=
  { ts with
    task0 := { ts.task0 with phase_2_prio := u.1, phase_1_prio := u.2.2.2.2.1 }
    task1 := { ts.task1 with phase_2_prio := u.2.1, phase_1_prio := u.2.2.2.2.2.1 }
    task2 := { ts.task2 with phase_2_prio := u.2.2.1, phase_1_prio := u.2.2.2.2.2.2.1 }
    task3 := { ts.task3 with phase_2_prio := u.2.2.2.1, phase_1_prio := u.2.2.2.2.2.2.2 } }

/-- comment: writing a permutation of `test_rm_configurations_exhaustively`
into the task set: the first four components are the phase 1 priorities. -/
def set_prios_rm (ts : taskset_t) (u : prio_tuple) : taskset_t :=
  { ts with
    task0 := { ts.task0 with phase_1_prio := u.1, phase_2_prio := u.2.2.2.2.1 }
    task1 := { ts.task1 with phase_1_prio := u.2.1, phase_2_prio := u.2.2.2.2.2.1 }
    task2 := { ts.task2 with phase_1_prio := u.2.2.1, phase_2_prio := u.2.2.2.2.2.2.1 }
    task3 := { ts.task3 with phase_1_prio := u.2.2.2.1, phase_2_prio := u.2.2.2.2.2.2.2 } }

def test_all_configurations_exhaustively (ts : taskset_t) : Bool :=
  prio_perms_all.any fun u => test_all_phase_change_points (set_prios_all ts u)

def test_rm_configurations_exhaustively (ts : taskset_t) : Bool :=
  prio_perms_rm.any fun u => test_all_phase_change_points (set_prios_rm ts u)

/-
Characterisation of the miss-checking scan.
-/

lemma first_miss_some_iff (ts : taskset_t) (t : Int) (k : Nat) :
    first_miss ts t = some k ↔
      k < 4 ∧ has_missed_deadline (ts.task k) t = true ∧
        ∀ j, j < k → has_missed_deadline (ts.task j) t = false := by
  unfold first_miss
  have e0 : ts.task 0 = ts.task0 := rfl
  have e1 : ts.task 1 = ts.task1 := rfl
  have e2 : ts.task 2 = ts.task2 := rfl
  have e3 : ts.task 3 = ts.task3 := rfl
  split_ifs with h0 h1 h2 h3 <;>
    constructor <;> intro h
  · rcases Option.some.injEq .. ▸ h with rfl
    exact ⟨by omega, by rwa [e0], by omega⟩
  · obtain ⟨hk4, hk, hlt⟩ := h
    rcases Nat.lt_or_ge k 1 with hk1 | hk1
    · interval_cases k
      rfl
    · exact absurd (e0 ▸ h0) (by simpa using hlt 0 (by omega))
  · rcases Option.some.injEq .. ▸ h with rfl
    refine ⟨by omega, by rwa [e1], ?_⟩
    intro j hj
    interval_cases j
    rw [e0]
    exact Bool.eq_false_iff.mpr h0
  · obtain ⟨hk4, hk, hlt⟩ := h
    rcases Nat.lt_or_ge k 2 with hk2 | hk2
    · interval_cases k
      · rw [e0] at hk
        exact absurd hk h0
      · rfl
    · exact absurd (e1 ▸ h1) (by simpa using hlt 1 (by omega))
  · rcases Option.some.injEq .. ▸ h with rfl
    refine ⟨by omega, by rwa [e2], ?_⟩
    intro j hj
    interval_cases j
    · rw [e0]
      exact Bool.eq_false_iff.mpr h0
    · rw [e1]
      exact Bool.eq_false_iff.mpr h1
  · obtain ⟨hk4, hk, hlt⟩ := h
    rcases Nat.lt_or_ge k 3 with hk3 | hk3
    · interval_cases k
      · rw [e0] at hk
        exact absurd hk h0
      · rw [e1] at hk
        exact absurd hk h1
      · rfl
    · exact absurd (e2 ▸ h2) (by simpa using hlt 2 (by omega))
  · rcases Option.some.injEq .. ▸ h with rfl
    refine ⟨by omega, by rwa [e3], ?_⟩
    intro j hj
    interval_cases j
    · rw [e0]
      exact Bool.eq_false_iff.mpr h0
    · rw [e1]
      exact Bool.eq_false_iff.mpr h1
    · rw [e2]
      exact Bool.eq_false_iff.mpr h2
  · obtain ⟨hk4, hk, hlt⟩ := h
    interval_cases k
    · rw [e0] at hk
      exact absurd hk h0
    · rw [e1] at hk
      exact absurd hk h1
    · rw [e2] at hk
      exact absurd hk h2
    · rfl
  · exact absurd h (by simp)
  · obtain ⟨hk4, hk, hlt⟩ := h
    interval_cases k
    · rw [e0] at hk
      exact absurd hk h0
    · rw [e1] at hk
      exact absurd hk h1
    · rw [e2] at hk
      exact absurd hk h2
    · rw [e3] at hk
      exact absurd hk h3

lemma first_miss_none_iff (ts : taskset_t) (t : Int) :
    first_miss ts t = none ↔
      ∀ j, j < 4 → has_missed_deadline (ts.task j) t = false := by
  unfold first_miss
  have e0 : ts.task 0 = ts.task0 := rfl
  have e1 : ts.task 1 = ts.task1 := rfl
  have e2 : ts.task 2 = ts.task2 := rfl
  have e3 : ts.task 3 = ts.task3 := rfl
  split_ifs with h0 h1 h2 h3 <;> constructor <;> intro h
  · exact absurd h (by simp)
  · exact absurd (e0 ▸ h0) (by simpa using h 0 (by omega))
  · exact absurd h (by simp)
  · exact absurd (e1 ▸ h1) (by simpa using h 1 (by omega))
  · exact absurd h (by simp)
  · exact absurd (e2 ▸ h2) (by simpa using h 2 (by omega))
  · exact absurd h (by simp)
  · exact absurd (e3 ▸ h3) (by simpa using h 3 (by omega))
  · intro j hj
    interval_cases j
    · rw [e0]; exact Bool.eq_false_iff.mpr h0
    · rw [e1]; exact Bool.eq_false_iff.mpr h1
    · rw [e2]; exact Bool.eq_false_iff.mpr h2
    · rw [e3]; exact Bool.eq_false_iff.mpr h3
  · rfl

/-
The simulation loop against the trajectory of per-tick states.
-/

lemma traj_succ (ts : taskset_t) (n : Nat) :
    traj ts (n + 1) = sim_tick (traj ts n) n := rfl

lemma sim_loop_traj_none (ts : taskset_t) (hp : Int) :
    ∀ (fuel t : Nat),
      (sim_loop hp fuel (traj ts t) t = none ↔
        ∀ u : Nat, t ≤ u → u < t + fuel → (u : Int) ≤ hp →
          first_miss (traj ts u) u = none) := by
  intro fuel
  induction fuel with
  | zero =>
    intro t
    constructor
    · intro _ u _ hu _
      omega
    · intro _
      rfl
  | succ fuel ih =>
    intro t
    simp only [sim_loop]
    split_ifs with hhp
    · cases hfm : first_miss (traj ts t) t with
      | some k =>
        simp only []
        constructor
        · intro h
          exact absurd h (by simp)
        · intro h
          have := h t (le_refl t) (by omega) hhp
          rw [hfm] at this
          exact absurd this (by simp)
      | none =>
        simp only []
        have harg : sim_tick (traj ts t) (t : Int) = traj ts (t + 1) := rfl
        have hcast : ((t : Int) + 1) = ((t + 1 : Nat) : Int) := by push_cast; ring
        rw [harg, hcast, ih (t + 1)]
        constructor
        · intro h u htu hub uhp
          rcases Nat.eq_or_lt_of_le htu with rfl | hlt
          · exact hfm
          · exact h u hlt (by omega) uhp
        · intro h u htu hub uhp
          exact h u (by omega) (by omega) uhp
    · constructor
      · intro _ u htu _ uhp
        exfalso
        have : (t : Int) ≤ (u : Int) := by exact_mod_cast htu
        omega
      · intro _
        rfl

lemma sim_loop_traj_some (ts : taskset_t) (hp : Int) (k : Nat) :
    ∀ (fuel t : Nat),
      (sim_loop hp fuel (traj ts t) t = some k ↔
        ∃ u : Nat, t ≤ u ∧ u < t + fuel ∧ (u : Int) ≤ hp ∧
          first_miss (traj ts u) u = some k ∧
          ∀ v : Nat, t ≤ v → v < u → first_miss (traj ts v) v = none) := by
  intro fuel
  induction fuel with
  | zero =>
    intro t
    constructor
    · intro h
      rw [show sim_loop hp 0 (traj ts t) (t : Int) = none from rfl] at h
      exact absurd h (by simp)
    · rintro ⟨u, h1, h2, -⟩
      omega
  | succ fuel ih =>
    intro t
    simp only [sim_loop]
    split_ifs with hhp
    · cases hfm : first_miss (traj ts t) t with
      | some j =>
        simp only [Option.some.injEq]
        constructor
        · rintro rfl
          exact ⟨t, le_refl t, by omega, hhp, hfm, fun v h1 h2 => by omega⟩
        · rintro ⟨u, htu, hub, uhp, hfmu, hvnone⟩
          rcases Nat.eq_or_lt_of_le htu with rfl | hlt
          · rw [hfm] at hfmu
            exact (Option.some.injEq .. ▸ hfmu)
          · have := hvnone t (le_refl t) hlt
            rw [hfm] at this
            exact absurd this (by simp)
      | none =>
        simp only []
        have harg : sim_tick (traj ts t) (t : Int) = traj ts (t + 1) := rfl
        have hcast : ((t : Int) + 1) = ((t + 1 : Nat) : Int) := by push_cast; ring
        rw [harg, hcast, ih (t + 1)]
        constructor
        · rintro ⟨u, htu, hub, uhp, hfmu, hvnone⟩
          refine ⟨u, by omega, by omega, uhp, hfmu, ?_⟩
          intro v h1 h2
          rcases Nat.eq_or_lt_of_le h1 with rfl | hlt
          · exact hfm
          · exact hvnone v hlt h2
        · rintro ⟨u, htu, hub, uhp, hfmu, hvnone⟩
          rcases Nat.eq_or_lt_of_le htu with rfl | hlt
          · rw [hfm] at hfmu
            exact absurd hfmu (by simp)
          · exact ⟨u, hlt, by omega, uhp, hfmu,
              fun v h1 h2 => hvnone v (by omega) h2⟩
    · constructor
      · intro h
        exact absurd h (by simp)
      · rintro ⟨u, htu, hub, uhp, -⟩
        exfalso
        have : (t : Int) ≤ (u : Int) := by exact_mod_cast htu
        omega

lemma simulate_sas_eq_loop (ts : taskset_t) :
    simulate_sas ts =
      sim_loop ts.hyper_period (ts.hyper_period + 1).toNat (traj ts 0) 0 := rfl

lemma simulate_sas_none_iff (ts : taskset_t) :
    simulate_sas ts = none ↔
      ∀ u : Nat, (u : Int) ≤ ts.hyper_period → first_miss (traj ts u) u = none := by
  rw [simulate_sas_eq_loop]
  have h := sim_loop_traj_none ts ts.hyper_period (ts.hyper_period + 1).toNat 0
  simp only [Nat.cast_zero] at h
  rw [h]
  constructor
  · intro h u uhp
    exact h u (by omega) (by omega) uhp
  · intro h u _ _ uhp
    exact h u uhp

lemma simulate_sas_some_iff (ts : taskset_t) (k : Nat) :
    simulate_sas ts = some k ↔
      ∃ u : Nat, (u : Int) ≤ ts.hyper_period ∧
        first_miss (traj ts u) u = some k ∧
        ∀ v : Nat, v < u → first_miss (traj ts v) v = none := by
  rw [simulate_sas_eq_loop]
  have h := sim_loop_traj_some ts ts.hyper_period k (ts.hyper_period + 1).toNat 0
  simp only [Nat.cast_zero] at h
  rw [h]
  constructor
  · rintro ⟨u, -, -, uhp, hu, hv⟩
    exact ⟨u, uhp, hu, fun v hv2 => hv v (by omega) hv2⟩
  · rintro ⟨u, uhp, hu, hv⟩
    exact ⟨u, by omega, by omega, uhp, hu, fun v _ hv2 => hv v hv2⟩

/-
Characterisation of the priority-selection loop.
-/

lemma get_priority_nonneg (task : task_t) (t : Int)
    (h1 : 0 ≤ task.phase_1_prio) (h2 : 0 ≤ task.phase_2_prio) :
    0 ≤ get_priority task t := by
  unfold get_priority
  split_ifs <;> assumption

/-- comment: invariant of the selection loop of
`get_highest_prio_active_task` after the first `m` iterations: either no
task among `0..m-1` is active and the accumulator still holds the sentinel,
or the accumulator holds the lowest-indexed active task of minimal
effective priority among `0..m-1`. -/
def sel_inv (ts : taskset_t) (t : Int) (m : Nat) (acc : Int × Option Nat) : Prop :=
  (acc = ((-1 : Int), none) ∧ ∀ j, j < m → is_active (ts.task j) = false) ∨
  (∃ j, j < m ∧ acc = (get_priority (ts.task j) t, some j) ∧
    is_active (ts.task j) = true ∧
    (∀ i, i < m → is_active (ts.task i) = true →
      get_priority (ts.task j) t ≤ get_priority (ts.task i) t) ∧
    (∀ i, i < j → is_active (ts.task i) = true →
      get_priority (ts.task j) t < get_priority (ts.task i) t))

lemma sel_inv_step (ts : taskset_t) (t : Int) (m : Nat) (acc : Int × Option Nat)
    (hnn : ∀ i, i < 4 → 0 ≤ (ts.task i).phase_1_prio ∧ 0 ≤ (ts.task i).phase_2_prio)
    (hm : m < 4) (h : sel_inv ts t m acc) :
    sel_inv ts t (m + 1) (ghpat_step ts t m acc) := by
  unfold ghpat_step
  rcases h with ⟨rfl, hinact⟩ | ⟨j, hj, rfl, hact, hmin, hstrict⟩
  · split_ifs with ha hc
    · right
      refine ⟨m, by omega, rfl, ha, ?_, ?_⟩
      · intro i hi hia
        rcases Nat.lt_or_ge i m with him | him
        · exact absurd hia (by simp [hinact i him])
        · have : i = m := by omega
          subst this
          exact le_refl _
      · intro i hi hia
        exact absurd hia (by simp [hinact i hi])
    · exfalso
      exact hc (Or.inr (by norm_num))
    · left
      refine ⟨rfl, ?_⟩
      intro j hj
      rcases Nat.lt_or_ge j m with hjm | hjm
      · exact hinact j hjm
      · have : j = m := by omega
        subst this
        exact Bool.eq_false_iff.mpr ha
  · have hjnn : 0 ≤ get_priority (ts.task j) t :=
      get_priority_nonneg _ t (hnn j (by omega)).1 (hnn j (by omega)).2
    split_ifs with ha hc
    · rcases hc with hc | hc
      · right
        refine ⟨m, by omega, rfl, ha, ?_, ?_⟩
        · intro i hi hia
          rcases Nat.lt_or_ge i m with him | him
          · exact le_of_lt (lt_of_lt_of_le hc (hmin i him hia))
          · have : i = m := by omega
            subst this
            exact le_refl _
        · intro i hi hia
          exact lt_of_lt_of_le hc (hmin i hi hia)
      · exfalso
        simp only [] at hc
        omega
    · right
      push_neg at hc
      refine ⟨j, by omega, rfl, hact, ?_, hstrict⟩
      intro i hi hia
      rcases Nat.lt_or_ge i m with him | him
      · exact hmin i him hia
      · have : i = m := by omega
        subst this
        exact hc.1
    · right
      refine ⟨j, by omega, rfl, hact, ?_, hstrict⟩
      intro i hi hia
      rcases Nat.lt_or_ge i m with him | him
      · exact hmin i him hia
      · have : i = m := by omega
        subst this
        exact absurd hia (by simp [ha])

lemma sel_inv_final (ts : taskset_t) (t : Int)
    (hnn : ∀ i, i < 4 → 0 ≤ (ts.task i).phase_1_prio ∧ 0 ≤ (ts.task i).phase_2_prio) :
    sel_inv ts t 4 (ghpat_step ts t 3 (ghpat_step ts t 2 (ghpat_step ts t 1
      (ghpat_step ts t 0 ((-1 : Int), none))))) := by
  have h0 : sel_inv ts t 0 ((-1 : Int), none) := Or.inl ⟨rfl, by omega⟩
  have h1 := sel_inv_step ts t 0 _ hnn (by omega) h0
  have h2 := sel_inv_step ts t 1 _ hnn (by omega) h1
  have h3 := sel_inv_step ts t 2 _ hnn (by omega) h2
  exact sel_inv_step ts t 3 _ hnn (by omega) h3

lemma ghpat_none_iff (ts : taskset_t) (t : Int)
    (hnn : ∀ i, i < 4 → 0 ≤ (ts.task i).phase_1_prio ∧ 0 ≤ (ts.task i).phase_2_prio) :
    get_highest_prio_active_task ts t = none ↔
      ∀ i, i < 4 → is_active (ts.task i) = false := by
  unfold get_highest_prio_active_task
  rcases sel_inv_final ts t hnn with ⟨heq, hinact⟩ | ⟨j, hj, heq, hact, -, -⟩
  · rw [heq]
    simpa using hinact
  · rw [heq]
    simp only [Option.some_ne_none, false_iff]
    intro h
    exact absurd hact (by simp [h j hj])

lemma ghpat_some_iff (ts : taskset_t) (t : Int) (k : Nat)
    (hnn : ∀ i, i < 4 → 0 ≤ (ts.task i).phase_1_prio ∧ 0 ≤ (ts.task i).phase_2_prio) :
    get_highest_prio_active_task ts t = some k ↔
      k < 4 ∧ is_active (ts.task k) = true ∧
        (∀ i, i < 4 → is_active (ts.task i) = true →
          get_priority (ts.task k) t ≤ get_priority (ts.task i) t) ∧
        (∀ i, i < k → is_active (ts.task i) = true →
          get_priority (ts.task k) t < get_priority (ts.task i) t) := by
  unfold get_highest_prio_active_task
  rcases sel_inv_final ts t hnn with ⟨heq, hinact⟩ | ⟨j, hj, heq, hact, hmin, hstrict⟩
  · rw [heq]
    constructor
    · intro h
      exact absurd h (by simp)
    · rintro ⟨hk4, hk, -, -⟩
      exact absurd hk (by simp [hinact k hk4])
  · rw [heq]
    simp only [Option.some.injEq]
    constructor
    · rintro rfl
      exact ⟨hj, hact, hmin, hstrict⟩
    · rintro ⟨hk4, hkact, hkmin, hkstrict⟩
      by_contra hne
      rcases Nat.lt_or_ge j k with hlt | hge
      · have h1 := hkstrict j hlt hact
        have h2 := hmin k hk4 hkact
        omega
      · have hlt : k < j := by omega
        have h1 := hstrict k hlt hkact
        have h2 := hkmin j hj hact
        omega

/-- C3: `simulate_sas` returns a miss for task `k` exactly when, at the
earliest tick `u` in `[0, hyperPeriod]` at which some task is both still
active and due to release (`has_missed_deadline`), `k` is the lowest such
task index; if no such tick exists up to and including the hyper-period it
returns schedulable (`none`). The per-tick states are given by `traj`. -/
theorem claim_C3 (ts : taskset_t) :
    (∀ k : Nat, simulate_sas ts = some k ↔
      ∃ u : Nat, (u : Int) ≤ ts.hyper_period ∧ k < 4 ∧
        has_missed_deadline ((traj ts u).task k) u = true ∧
        (∀ j, j < k → has_missed_deadline ((traj ts u).task j) u = false) ∧
        (∀ v : Nat, v < u → ∀ j, j < 4 →
          has_missed_deadline ((traj ts v).task j) v = false)) ∧
    (simulate_sas ts = none ↔
      ∀ u : Nat, (u : Int) ≤ ts.hyper_period → ∀ j, j < 4 →
        has_missed_deadline ((traj ts u).task j) u = false) := by
  constructor
  · intro k
    rw [simulate_sas_some_iff]
    constructor
    · rintro ⟨u, uhp, hfm, hv⟩
      obtain ⟨hk4, hk, hlt⟩ := (first_miss_some_iff _ _ _).mp hfm
      exact ⟨u, uhp, hk4, hk, hlt,
        fun v hvu j hj => ((first_miss_none_iff _ _).mp (hv v hvu)) j hj⟩
    · rintro ⟨u, uhp, hk4, hk, hlt, hv⟩
      exact ⟨u, uhp, (first_miss_some_iff _ _ _).mpr ⟨hk4, hk, hlt⟩,
        fun v hvu => (first_miss_none_iff _ _).mpr (hv v hvu)⟩
  · rw [simulate_sas_none_iff]
    constructor
    · intro h u uhp j hj
      exact (first_miss_none_iff _ _).mp (h u uhp) j hj
    · intro h u uhp
      exact (first_miss_none_iff _ _).mpr (h u uhp)

/-- C4: with all phase-1 and phase-2 priorities non-negative, the task
selected by `get_highest_prio_active_task` is the active task whose
effective priority (`get_priority`, phase 1 before the phase change point,
phase 2 after) is numerically lowest, the lowest index winning ties, and it
returns no task exactly when no task is active. -/
theorem claim_C4 (ts : taskset_t) (t : Int)
    (hnn : ∀ i, i < 4 → 0 ≤ (ts.task i).phase_1_prio ∧ 0 ≤ (ts.task i).phase_2_prio) :
    (get_highest_prio_active_task ts t = none ↔
      ∀ i, i < 4 → is_active (ts.task i) = false) ∧
    (∀ k, get_highest_prio_active_task ts t = some k ↔
      k < 4 ∧ is_active (ts.task k) = true ∧
        (∀ i, i < 4 → is_active (ts.task i) = true →
          get_priority (ts.task k) t ≤ get_priority (ts.task i) t) ∧
        (∀ i, i < k → is_active (ts.task i) = true →
          get_priority (ts.task k) t < get_priority (ts.task i) t)) :=
  ⟨ghpat_none_iff ts t hnn, fun k => ghpat_some_iff ts t k hnn⟩

/-
Field-preservation facts along the simulation.
-/

lemma reset_task (ts : taskset_t) (i : Nat) :
    (reset_simulation_state ts).task i =
      { ts.task i with last_release_time := -1, remaining_wcet := -1 } := by
  rcases i with _ | _ | _ | j <;> rfl

lemma release_all_task (ts : taskset_t) (t : Int) (i : Nat) :
    (release_all ts t).task i =
      if can_release (ts.task i) t then release (ts.task i) t else ts.task i := by
  rcases i with _ | _ | _ | j <;> rfl

lemma dec_remaining_task (ts : taskset_t) (k i : Nat) :
    (dec_remaining ts k).task i =
      if min i 3 = min k 3 then
        { ts.task i with remaining_wcet := (ts.task i).remaining_wcet - 1 }
      else ts.task i := by
  rcases k with _ | _ | _ | k <;> rcases i with _ | _ | _ | i <;> simp [dec_remaining, taskset_t.task]

lemma task_eq_of_min_eq (ts : taskset_t) {i k : Nat} (h : min i 3 = min k 3) :
    ts.task i = ts.task k := by
  rcases i with _ | _ | _ | i <;> rcases k with _ | _ | _ | k <;> simp_all +arith [taskset_t.task]

lemma ghpat_step_some (ts : taskset_t) (t : Int) (i : Nat) (acc : Int × Option Nat)
    (j : Nat) (h : (ghpat_step ts t i acc).2 = some j) :
    acc.2 = some j ∨ (j = i ∧ is_active (ts.task i) = true) := by
  unfold ghpat_step at h
  split_ifs at h with ha hc
  · right
    simp only [] at h
    exact ⟨(Option.some.injEq .. ▸ h).symm, ha⟩
  · exact Or.inl h
  · exact Or.inl h

lemma ghpat_some_active (ts : taskset_t) (t : Int) (j : Nat)
    (h : get_highest_prio_active_task ts t = some j) :
    j < 4 ∧ is_active (ts.task j) = true := by
  unfold get_highest_prio_active_task at h
  rcases ghpat_step_some ts t 3 _ j h with h3 | ⟨rfl, ha⟩
  · rcases ghpat_step_some ts t 2 _ j h3 with h2 | ⟨rfl, ha⟩
    · rcases ghpat_step_some ts t 1 _ j h2 with h1 | ⟨rfl, ha⟩
      · rcases ghpat_step_some ts t 0 _ j h1 with h0 | ⟨rfl, ha⟩
        · exact absurd h0 (by simp)
        · exact ⟨by omega, ha⟩
      · exact ⟨by omega, ha⟩
    · exact ⟨by omega, ha⟩
  · exact ⟨by omega, ha⟩

lemma sim_tick_wcet (ts : taskset_t) (t : Int) (i : Nat) :
    ((sim_tick ts t).task i).wcet = (ts.task i).wcet := by
  unfold sim_tick execute_step
  cases hg : get_highest_prio_active_task (release_all ts t) t with
  | none =>
    rw [release_all_task]
    split_ifs <;> rfl
  | some k =>
    rw [dec_remaining_task]
    split_ifs with h
    · show ((release_all ts t).task i).wcet = _
      rw [release_all_task]
      split_ifs <;> rfl
    · rw [release_all_task]
      split_ifs <;> rfl

lemma traj_wcet (ts : taskset_t) (n : Nat) (i : Nat) :
    ((traj ts n).task i).wcet = (ts.task i).wcet := by
  induction n with
  | zero =>
    rw [show traj ts 0 = reset_simulation_state ts from rfl, reset_task]
  | succ n ih =>
    rw [traj_succ, sim_tick_wcet, ih]

lemma is_active_iff (task : task_t) :
    is_active task = true ↔ 0 < task.remaining_wcet := by
  simp [is_active]

lemma sim_tick_rem_nonpos (ts : taskset_t) (t : Int) (k : Nat)
    (hw : (ts.task k).wcet = 0) (h : (ts.task k).remaining_wcet ≤ 0) :
    ((sim_tick ts t).task k).remaining_wcet ≤ 0 := by
  unfold sim_tick execute_step
  have hrel : ((release_all ts t).task k).remaining_wcet ≤ 0 := by
    rw [release_all_task]
    split_ifs with hc
    · simpa [release, hw] using le_of_eq hw
    · exact h
  cases hg : get_highest_prio_active_task (release_all ts t) t with
  | none => exact hrel
  | some j =>
    rw [dec_remaining_task]
    split_ifs with hmin
    · exfalso
      obtain ⟨hj4, hact⟩ := ghpat_some_active _ _ _ hg
      rw [task_eq_of_min_eq _ hmin] at hrel
      rw [is_active_iff] at hact
      omega
    · exact hrel

lemma traj_rem_nonpos (ts : taskset_t) (k : Nat) (hk : k < 4)
    (hw : (ts.task k).wcet = 0) (n : Nat) :
    ((traj ts n).task k).remaining_wcet ≤ 0 := by
  induction n with
  | zero =>
    rw [show traj ts 0 = reset_simulation_state ts from rfl, reset_task]
    norm_num
  | succ n ih =>
    rw [traj_succ]
    exact sim_tick_rem_nonpos _ _ k (by rw [traj_wcet]; exact hw) ih

/-- C9: a task constructed with `wcet = 0` is accepted as is; in every
simulation it is never active at any tick, and `simulate_sas` never reports
a deadline miss for it. -/
theorem claim_C9 (ts : taskset_t) (k : Nat) (hk : k < 4)
    (hw : (ts.task k).wcet = 0) :
    (∀ n : Nat, is_active ((traj ts n).task k) = false) ∧
      simulate_sas ts ≠ some k := by
  have hnact : ∀ n : Nat, is_active ((traj ts n).task k) = false := by
    intro n
    have := traj_rem_nonpos ts k hk hw n
    simp only [is_active, decide_eq_false_iff_not, not_lt]
    omega
  refine ⟨hnact, ?_⟩
  intro h
  obtain ⟨u, -, hfm, -⟩ := (simulate_sas_some_iff ts k).mp h
  obtain ⟨-, hmiss, -⟩ := (first_miss_some_iff _ _ _).mp hfm
  unfold has_missed_deadline at hmiss
  rw [hnact u] at hmiss
  simp at hmiss

lemma sim_tick_rem_nonneg (ts : taskset_t) (t : Int) (i : Nat) (hi : i < 4)
    (hw : 0 ≤ (ts.task i).wcet)
    (h : 0 ≤ (ts.task i).remaining_wcet ∨ can_release (ts.task i) t = true) :
    0 ≤ ((sim_tick ts t).task i).remaining_wcet := by
  unfold sim_tick execute_step
  have hrel : 0 ≤ ((release_all ts t).task i).remaining_wcet := by
    rw [release_all_task]
    split_ifs with hc
    · simpa [release] using hw
    · rcases h with h | h
      · exact h
      · exact absurd h (by simp [hc])
  cases hg : get_highest_prio_active_task (release_all ts t) t with
  | none => exact hrel
  | some j =>
    rw [dec_remaining_task]
    split_ifs with hmin
    · obtain ⟨hj4, hact⟩ := ghpat_some_active _ _ _ hg
      have heq : (release_all ts t).task i = (release_all ts t).task j :=
        task_eq_of_min_eq _ hmin
      have hpos := (is_active_iff _).mp hact
      rw [← heq] at hpos
      simp only []
      omega
    · exact hrel

/-- counterexample input for claim C10: any syntactically valid task set;
right after `reset_simulation_state` (the state at the start of tick 0 of
every run of `simulate_sas`) the remaining execution is `-1 < 0`. -/
def c10_ts : taskset_t :=
  { task0 := ⟨1, 4, 0, 4, 4, -1, -1⟩
    task1 := ⟨1, 4, 1, 5, 4, -1, -1⟩
    task2 := ⟨1, 4, 2, 6, 4, -1, -1⟩
    task3 := ⟨1, 4, 3, 7, 4, -1, -1⟩
    hyper_period := 4 }

/-- counterexample for C10 as stated: at tick 0 (which is part of every run,
`0 ≤ hyperPeriod`) the state produced inside `simulate_sas` by
`reset_simulation_state` has `remainingExecution = -1 < 0`. -/
theorem claim_C10_counterexample :
    (0 : Int) ≤ c10_ts.hyper_period ∧
      ((traj c10_ts 0).task 0).remaining_wcet < 0 := by
  constructor
  · norm_num [c10_ts]
  · rw [show traj c10_ts 0 = reset_simulation_state c10_ts from rfl, reset_task]
    norm_num

/-- C10 (amended): for task sets with non-negative worst-case execution
times, from tick 1 on (after the first release phase at tick 0; at the
start of tick 0 the reset state holds `-1`) every task's remaining
execution is non-negative, and at every tick a task is active exactly when
its remaining execution is strictly positive. -/
theorem claim_C10 (ts : taskset_t)
    (hw : ∀ i, i < 4 → 0 ≤ (ts.task i).wcet) :
    (∀ n : Nat, 1 ≤ n → ∀ i, i < 4 → 0 ≤ ((traj ts n).task i).remaining_wcet) ∧
    (∀ n : Nat, ∀ i : Nat,
      (is_active ((traj ts n).task i) = true ↔
        0 < ((traj ts n).task i).remaining_wcet)) := by
  constructor
  · intro n hn i hi
    induction n with
    | zero => omega
    | succ n ih =>
      rw [traj_succ]
      rcases Nat.eq_or_lt_of_le hn with h1 | h1
      · have h0 : traj ts n = reset_simulation_state ts := by
          have : n = 0 := by omega
          rw [this]
          rfl
        refine sim_tick_rem_nonneg _ _ i hi (by rw [traj_wcet]; exact hw i hi) (Or.inr ?_)
        rw [h0, reset_task]
        simp [can_release]
      · exact sim_tick_rem_nonneg _ _ i hi (by rw [traj_wcet]; exact hw i hi)
          (Or.inl (ih (by omega)))
  · intro n i
    exact is_active_iff _

/-- witness for C9 at a concrete input: a task set whose first task has
`wcet = 0`. -/
def c9_ts : taskset_t :=
  { task0 := ⟨0, 4, 0, 4, 4, -1, -1⟩
    task1 := ⟨1, 4, 1, 5, 4, -1, -1⟩
    task2 := ⟨1, 4, 2, 6, 4, -1, -1⟩
    task3 := ⟨1, 4, 3, 7, 4, -1, -1⟩
    hyper_period := 4 }

theorem claim_C9_witness :
    ((0 : Nat) < 4 ∧ (c9_ts.task 0).wcet = 0) ∧
      ((∀ n : Nat, is_active ((traj c9_ts n).task 0) = false) ∧
        simulate_sas c9_ts ≠ some 0) :=
  ⟨⟨by norm_num, by rfl⟩, claim_C9 c9_ts 0 (by norm_num) (by rfl)⟩

theorem claim_C10_witness :
    (∀ i, i < 4 → 0 ≤ (c10_ts.task i).wcet) ∧
      ((∀ n : Nat, 1 ≤ n → ∀ i, i < 4 → 0 ≤ ((traj c10_ts n).task i).remaining_wcet) ∧
       (∀ n : Nat, ∀ i : Nat,
         (is_active ((traj c10_ts n).task i) = true ↔
           0 < ((traj c10_ts n).task i).remaining_wcet))) :=
  ⟨by decide, claim_C10 c10_ts (by decide)⟩

theorem claim_C4_witness :
    (∀ i, i < 4 → 0 ≤ (c10_ts.task i).phase_1_prio ∧ 0 ≤ (c10_ts.task i).phase_2_prio) ∧
      ((get_highest_prio_active_task c10_ts 0 = none ↔
        ∀ i, i < 4 → is_active (c10_ts.task i) = false) ∧
      (∀ k, get_highest_prio_active_task c10_ts 0 = some k ↔
        k < 4 ∧ is_active (c10_ts.task k) = true ∧
          (∀ i, i < 4 → is_active (c10_ts.task i) = true →
            get_priority (c10_ts.task k) 0 ≤ get_priority (c10_ts.task i) 0) ∧
          (∀ i, i < k → is_active (c10_ts.task i) = true →
            get_priority (c10_ts.task k) 0 < get_priority (c10_ts.task i) 0))) :=
  ⟨by decide, claim_C4 c10_ts 0 (by decide)⟩

/-
The phase-change-point search.
-/

lemma mem_int_range (n x : Int) : x ∈ int_range n ↔ 0 ≤ x ∧ x ≤ n := by
  unfold int_range
  simp only [List.mem_map, List.mem_range]
  constructor
  · rintro ⟨a, ha, rfl⟩
    omega
  · rintro ⟨h0, h1⟩
    exact ⟨x.toNat, by omega, by omega⟩

lemma mem_pcp_combos (ts : taskset_t) (a b c d : Int) :
    (a, b, c, d) ∈ pcp_combos ts ↔
      (0 ≤ a ∧ a ≤ ts.task0.period) ∧ (0 ≤ b ∧ b ≤ ts.task1.period) ∧
      (0 ≤ c ∧ c ≤ ts.task2.period) ∧ (0 ≤ d ∧ d ≤ ts.task3.period) := by
  unfold pcp_combos
  simp only [List.mem_flatMap, List.mem_map, Prod.mk.injEq]
  constructor
  · rintro ⟨x, hx, y, hy, z, hz, w, hw, rfl, rfl, rfl, rfl⟩
    exact ⟨(mem_int_range _ _).mp hx, (mem_int_range _ _).mp hy,
      (mem_int_range _ _).mp hz, (mem_int_range _ _).mp hw⟩
  · rintro ⟨ha, hb, hc, hd⟩
    exact ⟨a, (mem_int_range _ _).mpr ha, b, (mem_int_range _ _).mpr hb,
      c, (mem_int_range _ _).mpr hc, d, (mem_int_range _ _).mpr hd,
      rfl, rfl, rfl, rfl⟩

lemma test_all_iff (ts : taskset_t) :
    test_all_phase_change_points ts = true ↔
      ∃ a b c d : Int,
        (0 ≤ a ∧ a ≤ ts.task0.period) ∧ (0 ≤ b ∧ b ≤ ts.task1.period) ∧
        (0 ≤ c ∧ c ≤ ts.task2.period) ∧ (0 ≤ d ∧ d ≤ ts.task3.period) ∧
        simulate_sas (set_pcps ts a b c d) = none := by
  unfold test_all_phase_change_points
  rw [List.any_eq_true]
  constructor
  · rintro ⟨⟨a, b, c, d⟩, hmem, hsim⟩
    obtain ⟨ha, hb, hc, hd⟩ := (mem_pcp_combos ts a b c d).mp hmem
    exact ⟨a, b, c, d, ha, hb, hc, hd, Option.isNone_iff_eq_none.mp hsim⟩
  · rintro ⟨a, b, c, d, ha, hb, hc, hd, hsim⟩
    exact ⟨(a, b, c, d), (mem_pcp_combos ts a b c d).mpr ⟨ha, hb, hc, hd⟩,
      Option.isNone_iff_eq_none.mpr hsim⟩

/-- C1: for task sets with positive periods and fixed priorities,
`test_all_phase_change_points` returns 1 exactly when some assignment of
phase change points with `0 ≤ pcp_i ≤ period_i` makes `simulate_sas` report
no deadline miss. -/
theorem claim_C1 (ts : taskset_t)
    (hpos : ∀ i, i < 4 → 0 < (ts.task i).period) :
    test_all_phase_change_points ts = true ↔
      ∃ a b c d : Int,
        (0 ≤ a ∧ a ≤ ts.task0.period) ∧ (0 ≤ b ∧ b ≤ ts.task1.period) ∧
        (0 ≤ c ∧ c ≤ ts.task2.period) ∧ (0 ≤ d ∧ d ≤ ts.task3.period) ∧
        simulate_sas (set_pcps ts a b c d) = none :=
  test_all_iff ts

theorem claim_C1_witness :
    (∀ i, i < 4 → 0 < (c10_ts.task i).period) ∧
      (test_all_phase_change_points c10_ts = true ↔
        ∃ a b c d : Int,
          (0 ≤ a ∧ a ≤ c10_ts.task0.period) ∧ (0 ≤ b ∧ b ≤ c10_ts.task1.period) ∧
          (0 ≤ c ∧ c ≤ c10_ts.task2.period) ∧ (0 ≤ d ∧ d ≤ c10_ts.task3.period) ∧
          simulate_sas (set_pcps c10_ts a b c d) = none) :=
  ⟨by decide, claim_C1 c10_ts (by decide)⟩

/-
Counting the phase-change-point combinations for C7.
-/

lemma length_flatMap_const {α β : Type} (l : List α) (f : α → List β) (n : Nat)
    (h : ∀ a ∈ l, (f a).length = n) : (l.flatMap f).length = l.length * n := by
  induction l with
  | nil => simp
  | cons a l ih =>
    simp only [List.flatMap_cons, List.length_append, List.length_cons,
      h a (List.mem_cons_self a l), ih fun x hx => h x (List.mem_cons_of_mem a hx)]
    ring

lemma int_range_length (n : Int) : (int_range n).length = (n + 1).toNat := by
  simp [int_range]

lemma pcp_combos_length (ts : taskset_t) :
    (pcp_combos ts).length =
      (ts.task0.period + 1).toNat * ((ts.task1.period + 1).toNat *
        ((ts.task2.period + 1).toNat * (ts.task3.period + 1).toNat)) := by
  unfold pcp_combos
  rw [length_flatMap_const _ _
    ((ts.task1.period + 1).toNat * ((ts.task2.period + 1).toNat * (ts.task3.period + 1).toNat)),
    int_range_length]
  intro a _
  rw [length_flatMap_const _ _
    ((ts.task2.period + 1).toNat * (ts.task3.period + 1).toNat), int_range_length]
  intro b _
  rw [length_flatMap_const _ _ (ts.task3.period + 1).toNat, int_range_length]
  intro c _
  rw [List.length_map, int_range_length]

lemma int_range_nodup (n : Int) : (int_range n).Nodup := by
  unfold int_range
  exact List.Nodup.map Nat.cast_injective (List.nodup_range _)

lemma nodup_flatMap_key {α β : Type} (l : List α) (f : α → List β) (key : β → α)
    (hl : l.Nodup) (hf : ∀ a ∈ l, (f a).Nodup)
    (hk : ∀ a ∈ l, ∀ b ∈ f a, key b = a) :
    (l.flatMap f).Nodup := by
  induction l with
  | nil => simp
  | cons a l ih =>
    rw [List.flatMap_cons, List.nodup_append]
    refine ⟨hf a (List.mem_cons_self a l), ?_, ?_⟩
    · exact ih (List.Nodup.of_cons hl)
        (fun x hx => hf x (List.mem_cons_of_mem a hx))
        (fun x hx => hk x (List.mem_cons_of_mem a hx))
    · intro x hx hx2
      obtain ⟨a2, ha2, hxa2⟩ := List.mem_flatMap.mp hx2
      have h1 : key x = a := hk a (List.mem_cons_self a l) x hx
      have h2 : key x = a2 := hk a2 (List.mem_cons_of_mem a ha2) x hxa2
      rw [h1] at h2
      rw [← h2] at ha2
      exact (List.nodup_cons.mp hl).1 ha2

lemma pcp_combos_nodup (ts : taskset_t) : (pcp_combos ts).Nodup := by
  unfold pcp_combos
  refine nodup_flatMap_key _ _ (fun x => x.1) (int_range_nodup _) ?_ ?_
  · intro a _
    refine nodup_flatMap_key _ _ (fun x => x.2.1) (int_range_nodup _) ?_ ?_
    · intro b _
      refine nodup_flatMap_key _ _ (fun x => x.2.2.1) (int_range_nodup _) ?_ ?_
      · intro c _
        exact (int_range_nodup _).map fun x y h => by
          simpa using congrArg (fun p : Int × Int × Int × Int => p.2.2.2) h
      · intro c _ x hx
        obtain ⟨d, -, rfl⟩ := List.mem_map.mp hx
        rfl
    · intro b _ x hx
      obtain ⟨c, -, hx2⟩ := List.mem_flatMap.mp hx
      obtain ⟨d, -, rfl⟩ := List.mem_map.mp hx2
      rfl
  · intro a _ x hx
    obtain ⟨b, -, hx2⟩ := List.mem_flatMap.mp hx
    obtain ⟨c, -, hx3⟩ := List.mem_flatMap.mp hx2
    obtain ⟨d, -, rfl⟩ := List.mem_map.mp hx3
    rfl

/-- C7: for positive periods, the phase-change-point enumeration of
`test_all_phase_change_points` consists of exactly
`(p0+1)*(p1+1)*(p2+1)*(p3+1)` combinations (the closed-form product checked
by the C `assert` before returning 0), visited exactly once each (the list
of combinations has no duplicates), and it covers precisely the
combinations with `0 ≤ pcp_i ≤ period_i`. -/
theorem claim_C7 (ts : taskset_t)
    (hpos : ∀ i, i < 4 → 0 < (ts.task i).period) :
    (((pcp_combos ts).length : Int) =
      (ts.task0.period + 1) * ((ts.task1.period + 1) *
        ((ts.task2.period + 1) * (ts.task3.period + 1)))) ∧
    (pcp_combos ts).Nodup ∧
    (∀ a b c d : Int, (a, b, c, d) ∈ pcp_combos ts ↔
      (0 ≤ a ∧ a ≤ ts.task0.period) ∧ (0 ≤ b ∧ b ≤ ts.task1.period) ∧
      (0 ≤ c ∧ c ≤ ts.task2.period) ∧ (0 ≤ d ∧ d ≤ ts.task3.period)) := by
  refine ⟨?_, pcp_combos_nodup ts, fun a b c d => mem_pcp_combos ts a b c d⟩
  have h0 := hpos 0 (by omega)
  have h1 := hpos 1 (by omega)
  have h2 := hpos 2 (by omega)
  have h3 := hpos 3 (by omega)
  have e0 : ts.task 0 = ts.task0 := rfl
  have e1 : ts.task 1 = ts.task1 := rfl
  have e2 : ts.task 2 = ts.task2 := rfl
  have e3 : ts.task 3 = ts.task3 := rfl
  rw [e0] at h0
  rw [e1] at h1
  rw [e2] at h2
  rw [e3] at h3
  rw [pcp_combos_length]
  push_cast
  rw [Int.toNat_of_nonneg (by omega), Int.toNat_of_nonneg (by omega),
    Int.toNat_of_nonneg (by omega), Int.toNat_of_nonneg (by omega)]

theorem claim_C7_witness :
    (∀ i, i < 4 → 0 < (c10_ts.task i).period) ∧
      ((((pcp_combos c10_ts).length : Int) =
        (c10_ts.task0.period + 1) * ((c10_ts.task1.period + 1) *
          ((c10_ts.task2.period + 1) * (c10_ts.task3.period + 1)))) ∧
      (pcp_combos c10_ts).Nodup ∧
      (∀ a b c d : Int, (a, b, c, d) ∈ pcp_combos c10_ts ↔
        (0 ≤ a ∧ a ≤ c10_ts.task0.period) ∧ (0 ≤ b ∧ b ≤ c10_ts.task1.period) ∧
        (0 ≤ c ∧ c ≤ c10_ts.task2.period) ∧ (0 ≤ d ∧ d ≤ c10_ts.task3.period))) :=
  ⟨by decide, claim_C7 c10_ts (by decide)⟩

/-
Termination and soundness of the FDMS loop.
-/

lemma simulate_sas_some_lt (ts : taskset_t) (k : Nat)
    (h : simulate_sas ts = some k) : k < 4 := by
  obtain ⟨u, -, hfm, -⟩ := (simulate_sas_some_iff ts k).mp h
  exact ((first_miss_some_iff _ _ _).mp hfm).1

lemma dec_pcp_task (ts : taskset_t) (k i : Nat) :
    (dec_pcp ts k).task i =
      if min i 3 = min k 3 then
        { ts.task i with phase_change_point := (ts.task i).phase_change_point - 1 }
      else ts.task i := by
  rcases k with _ | _ | _ | k <;> rcases i with _ | _ | _ | i <;>
    simp [dec_pcp, taskset_t.task]

lemma fdms_loop_isSome :
    ∀ (fuel : Nat) (ts : taskset_t),
      ts.task0.phase_change_point.toNat + ts.task1.phase_change_point.toNat +
        ts.task2.phase_change_point.toNat + ts.task3.phase_change_point.toNat < fuel →
      (fdms_loop fuel ts).isSome = true := by
  intro fuel
  induction fuel with
  | zero =>
    intro ts h
    omega
  | succ fuel ih =>
    intro ts h
    rw [show fdms_loop (fuel + 1) ts =
      (match simulate_sas ts with
       | none => some true
       | some k =>
         if (ts.task k).phase_change_point > 0 then fdms_loop fuel (dec_pcp ts k)
         else some false) from rfl]
    cases hs : simulate_sas ts with
    | none => rfl
    | some k =>
      simp only []
      split_ifs with hpcp
      · have hk4 : k < 4 := simulate_sas_some_lt ts k hs
        refine ih (dec_pcp ts k) ?_
        interval_cases k
        · have h0 : ts.task0.phase_change_point > 0 := hpcp
          show (ts.task0.phase_change_point - 1).toNat + ts.task1.phase_change_point.toNat +
            ts.task2.phase_change_point.toNat + ts.task3.phase_change_point.toNat < fuel
          omega
        · have h1 : ts.task1.phase_change_point > 0 := hpcp
          show ts.task0.phase_change_point.toNat + (ts.task1.phase_change_point - 1).toNat +
            ts.task2.phase_change_point.toNat + ts.task3.phase_change_point.toNat < fuel
          omega
        · have h2 : ts.task2.phase_change_point > 0 := hpcp
          show ts.task0.phase_change_point.toNat + ts.task1.phase_change_point.toNat +
            (ts.task2.phase_change_point - 1).toNat + ts.task3.phase_change_point.toNat < fuel
          omega
        · have h3 : ts.task3.phase_change_point > 0 := hpcp
          show ts.task0.phase_change_point.toNat + ts.task1.phase_change_point.toNat +
            ts.task2.phase_change_point.toNat + (ts.task3.phase_change_point - 1).toNat < fuel
          omega
      · rfl

/-- C5: for positive periods, `test_fdms_phase_change_points` terminates:
every simulate-and-adjust iteration either returns or strictly decreases
one phase change point, so the fuel `1 + (period sum)` it passes to
`fdms_loop` is never exhausted and a result is always produced. -/
theorem claim_C5 (ts : taskset_t)
    (hpos : ∀ i, i < 4 → 0 < (ts.task i).period) :
    (test_fdms_phase_change_points ts).isSome = true := by
  unfold test_fdms_phase_change_points
  apply fdms_loop_isSome
  simp only [fdms_init, taskset_t.task]
  omega

theorem claim_C5_witness :
    (∀ i, i < 4 → 0 < (c10_ts.task i).period) ∧
      (test_fdms_phase_change_points c10_ts).isSome = true :=
  ⟨by decide, claim_C5 c10_ts (by decide)⟩

lemma set_pcps_self (ts : taskset_t) :
    set_pcps ts ts.task0.phase_change_point ts.task1.phase_change_point
      ts.task2.phase_change_point ts.task3.phase_change_point = ts := rfl

lemma set_pcps_dec_pcp (ts : taskset_t) (k : Nat) (a b c d : Int) :
    set_pcps (dec_pcp ts k) a b c d = set_pcps ts a b c d := by
  rcases k with _ | _ | _ | k <;> rfl

lemma dec_pcp_period (ts : taskset_t) (k i : Nat) :
    ((dec_pcp ts k).task i).period = (ts.task i).period := by
  rw [dec_pcp_task]
  split_ifs <;> rfl

lemma fdms_loop_true_schedulable :
    ∀ (fuel : Nat) (ts : taskset_t),
      (∀ i, i < 4 → 0 ≤ (ts.task i).phase_change_point ∧
        (ts.task i).phase_change_point ≤ (ts.task i).period) →
      fdms_loop fuel ts = some true →
      ∃ a b c d : Int,
        (0 ≤ a ∧ a ≤ ts.task0.period) ∧ (0 ≤ b ∧ b ≤ ts.task1.period) ∧
        (0 ≤ c ∧ c ≤ ts.task2.period) ∧ (0 ≤ d ∧ d ≤ ts.task3.period) ∧
        simulate_sas (set_pcps ts a b c d) = none := by
  intro fuel
  induction fuel with
  | zero =>
    intro ts _ h
    exact absurd h (by simp [fdms_loop])
  | succ fuel ih =>
    intro ts hbnd h
    rw [show fdms_loop (fuel + 1) ts =
      (match simulate_sas ts with
       | none => some true
       | some k =>
         if (ts.task k).phase_change_point > 0 then fdms_loop fuel (dec_pcp ts k)
         else some false) from rfl] at h
    cases hs : simulate_sas ts with
    | none =>
      refine ⟨ts.task0.phase_change_point, ts.task1.phase_change_point,
        ts.task2.phase_change_point, ts.task3.phase_change_point,
        ⟨(hbnd 0 (by omega)).1, (hbnd 0 (by omega)).2⟩,
        ⟨(hbnd 1 (by omega)).1, (hbnd 1 (by omega)).2⟩,
        ⟨(hbnd 2 (by omega)).1, (hbnd 2 (by omega)).2⟩,
        ⟨(hbnd 3 (by omega)).1, (hbnd 3 (by omega)).2⟩, ?_⟩
      rw [set_pcps_self]
      exact hs
    | some k =>
      rw [hs] at h
      simp only [] at h
      split_ifs at h with hpcp
      · have hk4 : k < 4 := simulate_sas_some_lt ts k hs
        have hbnd2 : ∀ i, i < 4 → 0 ≤ ((dec_pcp ts k).task i).phase_change_point ∧
            ((dec_pcp ts k).task i).phase_change_point ≤ ((dec_pcp ts k).task i).period := by
          intro i hi
          rw [dec_pcp_task]
          split_ifs with hm
          · have heq : ts.task i = ts.task k := task_eq_of_min_eq ts hm
            have h1 := (hbnd i hi).2
            refine ⟨?_, ?_⟩ <;> simp only [] <;> rw [heq] at * <;> omega
          · exact hbnd i hi
        obtain ⟨a, b, c, d, ha, hb, hc, hd, hsim⟩ := ih (dec_pcp ts k) hbnd2 h
        rw [set_pcps_dec_pcp] at hsim
        rw [show (dec_pcp ts k).task0 = (dec_pcp ts k).task 0 from rfl,
          dec_pcp_period] at ha
        rw [show (dec_pcp ts k).task1 = (dec_pcp ts k).task 1 from rfl,
          dec_pcp_period] at hb
        rw [show (dec_pcp ts k).task2 = (dec_pcp ts k).task 2 from rfl,
          dec_pcp_period] at hc
        rw [show (dec_pcp ts k).task3 = (dec_pcp ts k).task 3 from rfl,
          dec_pcp_period] at hd
        exact ⟨a, b, c, d, ha, hb, hc, hd, hsim⟩
      · exact absurd h (by simp)

lemma set_pcps_fdms_init (ts : taskset_t) (a b c d : Int) :
    set_pcps (fdms_init ts) a b c d = set_pcps ts a b c d := rfl

/-- C2: for positive periods and fixed priorities, if the FDMS policy
succeeds then the exhaustive phase-change-point search also succeeds:
FDMS success exhibits a schedulable assignment with each point in
`[0, period]`, which the exhaustive search enumerates. -/
theorem claim_C2 (ts : taskset_t)
    (hpos : ∀ i, i < 4 → 0 < (ts.task i).period)
    (h : test_fdms_phase_change_points ts = some true) :
    test_all_phase_change_points ts = true := by
  unfold test_fdms_phase_change_points at h
  have hbnd : ∀ i, i < 4 → 0 ≤ ((fdms_init ts).task i).phase_change_point ∧
      ((fdms_init ts).task i).phase_change_point ≤ ((fdms_init ts).task i).period := by
    intro i hi
    have := hpos i hi
    interval_cases i <;> simp only [fdms_init, taskset_t.task] at * <;> omega
  obtain ⟨a, b, c, d, ha, hb, hc, hd, hsim⟩ :=
    fdms_loop_true_schedulable _ (fdms_init ts) hbnd h
  rw [set_pcps_fdms_init] at hsim
  refine (test_all_iff ts).mpr ⟨a, b, c, d, ?_, ?_, ?_, ?_, hsim⟩
  · exact ha
  · exact hb
  · exact hc
  · exact hd

/-- witness task set for C2: four unit-wcet tasks with period 4 are
schedulable, so FDMS succeeds on them at once. -/
def c2_ts : taskset_t :=
  { task0 := ⟨1, 4, 0, 4, 4, -1, -1⟩
    task1 := ⟨1, 4, 1, 5, 4, -1, -1⟩
    task2 := ⟨1, 4, 2, 6, 4, -1, -1⟩
    task3 := ⟨1, 4, 3, 7, 4, -1, -1⟩
    hyper_period := 4 }

theorem claim_C2_witness :
    ((∀ i, i < 4 → 0 < (c2_ts.task i).period) ∧
      test_fdms_phase_change_points c2_ts = some true) ∧
      test_all_phase_change_points c2_ts = true :=
  ⟨⟨by decide, by decide!⟩, claim_C2 c2_ts (by decide) (by decide!)⟩

/-
Counting the priority permutations of the two exhaustive searches.
-/

/-- comment: the `generated_permutations` counter of the exhaustive searches,
written so that the kernel folds the list with an eagerly forced accumulator. -/
def llen_go (l : List prio_tuple) : Nat → Nat :=
  List.rec (motive := fun _ => Nat → Nat) (fun n => n)
    (fun _ _ ih n => cond (Nat.ble n 0) (ih (n + 1)) (ih (n + 1))) l

def llen (l : List prio_tuple) : Nat := llen_go l 0

lemma llen_go_eq : ∀ (l : List prio_tuple) (n : Nat), llen_go l n = l.length + n := by
  intro l
  induction l with
  | nil => intro n; simp [llen_go]
  | cons u l ih =>
    intro n
    show cond (Nat.ble n 0) (llen_go l (n + 1)) (llen_go l (n + 1)) = (u :: l).length + n
    cases Nat.ble n 0 <;> simp [ih, List.length_cons] <;> omega

lemma llen_eq (l : List prio_tuple) : llen l = l.length := by
  simp [llen, llen_go_eq]

set_option maxRecDepth 100000 in
lemma contains_eq_decide_mem (S : List Nat) (x : Nat) :
    S.contains x = decide (x ∈ S) := by
  induction S with
  | nil => simp
  | cons s S ih =>
    rw [List.contains_cons, ih]
    by_cases h : x = s <;> simp [h]

set_option maxRecDepth 100000 in
/-- comment: removing one occurrence of a present element from a
duplicate-free list shortens it by exactly one. -/
lemma length_filter_out {L : List Nat} {s : Nat} (hnd : L.Nodup) (hs : s ∈ L) :
    (L.filter fun x => !(x == s)).length + 1 = L.length := by
  induction L with
  | nil => cases hs
  | cons hd L ih =>
    by_cases heq : hd = s
    · subst heq
      have hnot : ∀ x ∈ L, x ≠ hd := fun x hx h2 =>
        (List.nodup_cons.mp hnd).1 (h2 ▸ hx)
      rw [List.filter_cons_of_neg (by simp)]
      rw [List.filter_eq_self.mpr fun x hx => by simp [hnot x hx]]
      simp
    · have hsL : s ∈ L := by
        rcases List.mem_cons.mp hs with h | h
        · exact absurd h.symm heq
        · exact h
      rw [List.filter_cons_of_pos (by simp [heq])]
      simp only [List.length_cons]
      have h3 := ih (List.nodup_cons.mp hnd).2 hsL
      omega

set_option maxRecDepth 100000 in
/-- comment: counting the values of a C loop `for (x = 0; x < n; x++)` that
survive a family of `if (x == taken) continue;` guards: each of the distinct
taken values below `n` removes exactly one candidate. -/
lemma length_filter_avoid :
    ∀ (S : List Nat) (p : Nat → Bool) (n : Nat),
      (∀ x, p x = !(S.contains x)) → S.Nodup → (∀ s ∈ S, s < n) →
      ((List.range n).filter p).length + S.length = n := by
  intro S
  induction S with
  | nil =>
    intro p n hp _ _
    rw [List.filter_eq_self.mpr fun a _ => by simp [hp a]]
    simp
  | cons s S ih =>
    intro p n hp hnd hlt
    have hps : ∀ x, p x = (!(S.contains x) && !(x == s)) := by
      intro x
      rw [hp x, List.contains_cons]
      cases hb : x == s <;> cases hb2 : S.contains x <;> simp [hb, hb2]
    have hff : ((List.range n).filter fun x => (!(S.contains x) && !(x == s))) =
        (((List.range n).filter fun x => !(S.contains x)).filter fun x => !(x == s)) := by
      rw [List.filter_filter]
      exact List.filter_congr fun x _ => by
        cases h1 : S.contains x <;> cases h2 : x == s <;> simp [h1, h2]
    rw [List.filter_congr fun x _ => hps x, hff]
    have hLnd : ((List.range n).filter fun x => !(S.contains x)).Nodup :=
      (List.nodup_range n).filter _
    have hsmem : s ∈ (List.range n).filter fun x => !(S.contains x) := by
      rw [List.mem_filter, List.mem_range]
      refine ⟨hlt s (List.mem_cons_self s S), ?_⟩
      rw [contains_eq_decide_mem]
      simpa using (List.nodup_cons.mp hnd).1
    have hstep := length_filter_out hLnd hsmem
    have hrec := ih (fun x => !(S.contains x)) n (fun _ => rfl)
      (List.nodup_cons.mp hnd).2 (fun x hx => hlt x (List.mem_cons_of_mem s hx))
    simp only [List.length_cons]
    omega

set_option maxRecDepth 100000 in
lemma length_filter_avoid8 (S : List Nat) (p : Nat → Bool)
    (hp : ∀ x, p x = !(S.contains x)) (hS : S.Nodup) (hlt : ∀ s ∈ S, s < 8) :
    ((List.range 8).filter p).length = 8 - S.length := by
  have := length_filter_avoid S p 8 hp hS hlt
  omega

set_option maxRecDepth 100000 in
lemma prio_perms_all_length : prio_perms_all.length = 40320 := by
  unfold prio_perms_all
  rw [length_flatMap_const _ _ 5040]
  · simp
  intro a ha
  rw [List.mem_range] at ha
  rw [length_flatMap_const _ _ 720]
  · rw [length_filter_avoid8 [a] _
      (fun x => by by_cases h1 : x = a <;> simp [List.contains_cons, bne, h1])
      (by simp)
      (by
      intro s hs
      simp only [List.mem_cons, List.not_mem_nil, or_false] at hs
      rcases hs with rfl <;> omega)]
    norm_num
  intro b hb
  rw [List.mem_filter, List.mem_range, bne_iff_ne, ne_eq] at hb
  obtain ⟨hb8, hba⟩ := hb
  rw [length_flatMap_const _ _ 120]
  · rw [length_filter_avoid8 [a, b] _
      (fun x => by by_cases h1 : x = a <;> by_cases h2 : x = b <;> simp [List.contains_cons, bne, h1, h2])
      (by
      simp only [List.nodup_cons, List.mem_cons, List.not_mem_nil, List.nodup_nil,
        or_false, not_or, not_false_eq_true, and_true, and_assoc]
      exact Ne.symm hba)
      (by
      intro s hs
      simp only [List.mem_cons, List.not_mem_nil, or_false] at hs
      rcases hs with rfl | rfl <;> omega)]
    norm_num
  intro c hc
  simp only [List.mem_filter, List.mem_range, Bool.and_eq_true, bne_iff_ne, ne_eq, and_assoc] at hc
  obtain ⟨hc8, hca, hcb⟩ := hc
  rw [length_flatMap_const _ _ 24]
  · rw [length_filter_avoid8 [a, b, c] _
      (fun x => by by_cases h1 : x = a <;> by_cases h2 : x = b <;> by_cases h3 : x = c <;> simp [List.contains_cons, bne, h1, h2, h3])
      (by
      simp only [List.nodup_cons, List.mem_cons, List.not_mem_nil, List.nodup_nil,
        or_false, not_or, not_false_eq_true, and_true, and_assoc]
      exact ⟨Ne.symm hba, Ne.symm hca, Ne.symm hcb⟩)
      (by
      intro s hs
      simp only [List.mem_cons, List.not_mem_nil, or_false] at hs
      rcases hs with rfl | rfl | rfl <;> omega)]
    norm_num
  intro d hd
  simp only [List.mem_filter, List.mem_range, Bool.and_eq_true, bne_iff_ne, ne_eq, and_assoc] at hd
  obtain ⟨hd8, hda, hdb, hdc⟩ := hd
  rw [length_flatMap_const _ _ 6]
  · rw [length_filter_avoid8 [a, b, c, d] _
      (fun x => by by_cases h1 : x = a <;> by_cases h2 : x = b <;> by_cases h3 : x = c <;> by_cases h4 : x = d <;> simp [List.contains_cons, bne, h1, h2, h3, h4])
      (by
      simp only [List.nodup_cons, List.mem_cons, List.not_mem_nil, List.nodup_nil,
        or_false, not_or, not_false_eq_true, and_true, and_assoc]
      exact ⟨Ne.symm hba, Ne.symm hca, Ne.symm hda, Ne.symm hcb, Ne.symm hdb, Ne.symm hdc⟩)
      (by
      intro s hs
      simp only [List.mem_cons, List.not_mem_nil, or_false] at hs
      rcases hs with rfl | rfl | rfl | rfl <;> omega)]
    norm_num
  intro e he
  simp only [List.mem_filter, List.mem_range, Bool.and_eq_true, bne_iff_ne, ne_eq, and_assoc] at he
  obtain ⟨he8, hea, heb, hec, hed⟩ := he
  rw [length_flatMap_const _ _ 2]
  · rw [length_filter_avoid8 [a, b, c, d, e] _
      (fun x => by by_cases h1 : x = a <;> by_cases h2 : x = b <;> by_cases h3 : x = c <;> by_cases h4 : x = d <;> by_cases h5 : x = e <;> simp [List.contains_cons, bne, h1, h2, h3, h4, h5])
      (by
      simp only [List.nodup_cons, List.mem_cons, List.not_mem_nil, List.nodup_nil,
        or_false, not_or, not_false_eq_true, and_true, and_assoc]
      exact ⟨Ne.symm hba, Ne.symm hca, Ne.symm hda, Ne.symm hea, Ne.symm hcb, Ne.symm hdb, Ne.symm heb, Ne.symm hdc, Ne.symm hec, Ne.symm hed⟩)
      (by
      intro s hs
      simp only [List.mem_cons, List.not_mem_nil, or_false] at hs
      rcases hs with rfl | rfl | rfl | rfl | rfl <;> omega)]
    norm_num
  intro f hf
  simp only [List.mem_filter, List.mem_range, Bool.and_eq_true, bne_iff_ne, ne_eq, and_assoc] at hf
  obtain ⟨hf8, hfa, hfb, hfc, hfd, hfe⟩ := hf
  rw [length_flatMap_const _ _ 1]
  · rw [length_filter_avoid8 [a, b, c, d, e, f] _
      (fun x => by by_cases h1 : x = a <;> by_cases h2 : x = b <;> by_cases h3 : x = c <;> by_cases h4 : x = d <;> by_cases h5 : x = e <;> by_cases h6 : x = f <;> simp [List.contains_cons, bne, h1, h2, h3, h4, h5, h6])
      (by
      simp only [List.nodup_cons, List.mem_cons, List.not_mem_nil, List.nodup_nil,
        or_false, not_or, not_false_eq_true, and_true, and_assoc]
      exact ⟨Ne.symm hba, Ne.symm hca, Ne.symm hda, Ne.symm hea, Ne.symm hfa, Ne.symm hcb, Ne.symm hdb, Ne.symm heb, Ne.symm hfb, Ne.symm hdc, Ne.symm hec, Ne.symm hfc, Ne.symm hed, Ne.symm hfd, Ne.symm hfe⟩)
      (by
      intro s hs
      simp only [List.mem_cons, List.not_mem_nil, or_false] at hs
      rcases hs with rfl | rfl | rfl | rfl | rfl | rfl <;> omega)]
    norm_num
  intro g hg
  simp only [List.mem_filter, List.mem_range, Bool.and_eq_true, bne_iff_ne, ne_eq, and_assoc] at hg
  obtain ⟨hg8, hga, hgb, hgc, hgd, hge, hgf⟩ := hg
  rw [List.length_map]
  rw [length_filter_avoid8 [a, b, c, d, e, f, g] _
    (fun x => by by_cases h1 : x = a <;> by_cases h2 : x = b <;> by_cases h3 : x = c <;> by_cases h4 : x = d <;> by_cases h5 : x = e <;> by_cases h6 : x = f <;> by_cases h7 : x = g <;> simp [List.contains_cons, bne, h1, h2, h3, h4, h5, h6, h7])
    (by
      simp only [List.nodup_cons, List.mem_cons, List.not_mem_nil, List.nodup_nil,
        or_false, not_or, not_false_eq_true, and_true, and_assoc]
      exact ⟨Ne.symm hba, Ne.symm hca, Ne.symm hda, Ne.symm hea, Ne.symm hfa, Ne.symm hga, Ne.symm hcb, Ne.symm hdb, Ne.symm heb, Ne.symm hfb, Ne.symm hgb, Ne.symm hdc, Ne.symm hec, Ne.symm hfc, Ne.symm hgc, Ne.symm hed, Ne.symm hfd, Ne.symm hgd, Ne.symm hfe, Ne.symm hge, Ne.symm hgf⟩)
    (by
      intro s hs
      simp only [List.mem_cons, List.not_mem_nil, or_false] at hs
      rcases hs with rfl | rfl | rfl | rfl | rfl | rfl | rfl <;> omega)]
  norm_num

set_option maxRecDepth 100000 in
lemma prio_perms_all_nodup : prio_perms_all.Nodup := by
  unfold prio_perms_all
  refine nodup_flatMap_key _ _ (fun u => u.1) (List.nodup_range 8) ?_ ?_
  · intro a _
    refine nodup_flatMap_key _ _ (fun u => u.2.1) ((List.nodup_range 8).filter _) ?_ ?_
    · intro b _
      refine nodup_flatMap_key _ _ (fun u => u.2.2.1) ((List.nodup_range 8).filter _) ?_ ?_
      · intro c _
        refine nodup_flatMap_key _ _ (fun u => u.2.2.2.1) ((List.nodup_range 8).filter _) ?_ ?_
        · intro d _
          refine nodup_flatMap_key _ _ (fun u => u.2.2.2.2.1) ((List.nodup_range 8).filter _) ?_ ?_
          · intro e _
            refine nodup_flatMap_key _ _ (fun u => u.2.2.2.2.2.1) ((List.nodup_range 8).filter _) ?_ ?_
            · intro f _
              refine nodup_flatMap_key _ _ (fun u => u.2.2.2.2.2.2.1) ((List.nodup_range 8).filter _) ?_ ?_
              · intro g _
                exact ((List.nodup_range 8).filter _).map fun x y hxy => by
                  simpa using congrArg (fun p : prio_tuple => p.2.2.2.2.2.2.2) hxy
              · intro g _ x hx
                obtain ⟨h, -, rfl⟩ := List.mem_map.mp hx
                rfl
            · intro f _ x hx
              obtain ⟨g, -, hx⟩ := List.mem_flatMap.mp hx
              obtain ⟨h, -, rfl⟩ := List.mem_map.mp hx
              rfl
          · intro e _ x hx
            obtain ⟨f, -, hx⟩ := List.mem_flatMap.mp hx
            obtain ⟨g, -, hx⟩ := List.mem_flatMap.mp hx
            obtain ⟨h, -, rfl⟩ := List.mem_map.mp hx
            rfl
        · intro d _ x hx
          obtain ⟨e, -, hx⟩ := List.mem_flatMap.mp hx
          obtain ⟨f, -, hx⟩ := List.mem_flatMap.mp hx
          obtain ⟨g, -, hx⟩ := List.mem_flatMap.mp hx
          obtain ⟨h, -, rfl⟩ := List.mem_map.mp hx
          rfl
      · intro c _ x hx
        obtain ⟨d, -, hx⟩ := List.mem_flatMap.mp hx
        obtain ⟨e, -, hx⟩ := List.mem_flatMap.mp hx
        obtain ⟨f, -, hx⟩ := List.mem_flatMap.mp hx
        obtain ⟨g, -, hx⟩ := List.mem_flatMap.mp hx
        obtain ⟨h, -, rfl⟩ := List.mem_map.mp hx
        rfl
    · intro b _ x hx
      obtain ⟨c, -, hx⟩ := List.mem_flatMap.mp hx
      obtain ⟨d, -, hx⟩ := List.mem_flatMap.mp hx
      obtain ⟨e, -, hx⟩ := List.mem_flatMap.mp hx
      obtain ⟨f, -, hx⟩ := List.mem_flatMap.mp hx
      obtain ⟨g, -, hx⟩ := List.mem_flatMap.mp hx
      obtain ⟨h, -, rfl⟩ := List.mem_map.mp hx
      rfl
  · intro a _ x hx
    obtain ⟨b, -, hx⟩ := List.mem_flatMap.mp hx
    obtain ⟨c, -, hx⟩ := List.mem_flatMap.mp hx
    obtain ⟨d, -, hx⟩ := List.mem_flatMap.mp hx
    obtain ⟨e, -, hx⟩ := List.mem_flatMap.mp hx
    obtain ⟨f, -, hx⟩ := List.mem_flatMap.mp hx
    obtain ⟨g, -, hx⟩ := List.mem_flatMap.mp hx
    obtain ⟨h, -, rfl⟩ := List.mem_map.mp hx
    rfl

set_option maxRecDepth 100000 in
lemma prio_perms_rm_nodup : prio_perms_rm.Nodup := by
  unfold prio_perms_rm
  refine nodup_flatMap_key _ _ (fun u => u.1) (List.nodup_range 8) ?_ ?_
  · intro a _
    refine nodup_flatMap_key _ _ (fun u => u.2.1) ((List.nodup_range 8).filter _) ?_ ?_
    · intro b _
      refine nodup_flatMap_key _ _ (fun u => u.2.2.1) ((List.nodup_range 8).filter _) ?_ ?_
      · intro c _
        refine nodup_flatMap_key _ _ (fun u => u.2.2.2.1) ((List.nodup_range 8).filter _) ?_ ?_
        · intro d _
          refine nodup_flatMap_key _ _ (fun u => u.2.2.2.2.1) ((List.nodup_range 8).filter _) ?_ ?_
          · intro e _
            refine nodup_flatMap_key _ _ (fun u => u.2.2.2.2.2.1) ((List.nodup_range 8).filter _) ?_ ?_
            · intro f _
              refine nodup_flatMap_key _ _ (fun u => u.2.2.2.2.2.2.1) ((List.nodup_range 8).filter _) ?_ ?_
              · intro g _
                exact ((List.nodup_range 8).filter _).map fun x y hxy => by
                  simpa using congrArg (fun p : prio_tuple => p.2.2.2.2.2.2.2) hxy
              · intro g _ x hx
                obtain ⟨h, -, rfl⟩ := List.mem_map.mp hx
                rfl
            · intro f _ x hx
              obtain ⟨g, -, hx⟩ := List.mem_flatMap.mp hx
              obtain ⟨h, -, rfl⟩ := List.mem_map.mp hx
              rfl
          · intro e _ x hx
            obtain ⟨f, -, hx⟩ := List.mem_flatMap.mp hx
            obtain ⟨g, -, hx⟩ := List.mem_flatMap.mp hx
            obtain ⟨h, -, rfl⟩ := List.mem_map.mp hx
            rfl
        · intro d _ x hx
          obtain ⟨e, -, hx⟩ := List.mem_flatMap.mp hx
          obtain ⟨f, -, hx⟩ := List.mem_flatMap.mp hx
          obtain ⟨g, -, hx⟩ := List.mem_flatMap.mp hx
          obtain ⟨h, -, rfl⟩ := List.mem_map.mp hx
          rfl
      · intro c _ x hx
        obtain ⟨d, -, hx⟩ := List.mem_flatMap.mp hx
        obtain ⟨e, -, hx⟩ := List.mem_flatMap.mp hx
        obtain ⟨f, -, hx⟩ := List.mem_flatMap.mp hx
        obtain ⟨g, -, hx⟩ := List.mem_flatMap.mp hx
        obtain ⟨h, -, rfl⟩ := List.mem_map.mp hx
        rfl
    · intro b _ x hx
      obtain ⟨c, -, hx⟩ := List.mem_flatMap.mp hx
      obtain ⟨d, -, hx⟩ := List.mem_flatMap.mp hx
      obtain ⟨e, -, hx⟩ := List.mem_flatMap.mp hx
      obtain ⟨f, -, hx⟩ := List.mem_flatMap.mp hx
      obtain ⟨g, -, hx⟩ := List.mem_flatMap.mp hx
      obtain ⟨h, -, rfl⟩ := List.mem_map.mp hx
      rfl
  · intro a _ x hx
    obtain ⟨b, -, hx⟩ := List.mem_flatMap.mp hx
    obtain ⟨c, -, hx⟩ := List.mem_flatMap.mp hx
    obtain ⟨d, -, hx⟩ := List.mem_flatMap.mp hx
    obtain ⟨e, -, hx⟩ := List.mem_flatMap.mp hx
    obtain ⟨f, -, hx⟩ := List.mem_flatMap.mp hx
    obtain ⟨g, -, hx⟩ := List.mem_flatMap.mp hx
    obtain ⟨h, -, rfl⟩ := List.mem_map.mp hx
    rfl

set_option maxRecDepth 1000000 in
lemma llen_rm : llen prio_perms_rm = 1680 := by decide!

set_option maxRecDepth 100000 in
lemma mem_prio_perms_all (a b c d e f g h : Nat) :
    (a, b, c, d, e, f, g, h) ∈ prio_perms_all ↔
      a < 8 ∧ b < 8 ∧ c < 8 ∧ d < 8 ∧ e < 8 ∧ f < 8 ∧ g < 8 ∧ h < 8 ∧
      b ≠ a ∧ c ≠ a ∧ c ≠ b ∧ d ≠ a ∧ d ≠ b ∧ d ≠ c ∧
      e ≠ a ∧ e ≠ b ∧ e ≠ c ∧ e ≠ d ∧
      f ≠ a ∧ f ≠ b ∧ f ≠ c ∧ f ≠ d ∧ f ≠ e ∧
      g ≠ a ∧ g ≠ b ∧ g ≠ c ∧ g ≠ d ∧ g ≠ e ∧ g ≠ f ∧
      h ≠ a ∧ h ≠ b ∧ h ≠ c ∧ h ≠ d ∧ h ≠ e ∧ h ≠ f ∧ h ≠ g := by
  simp only [prio_perms_all, List.mem_flatMap, List.mem_filter, List.mem_range,
    List.mem_map, Bool.and_eq_true, bne_iff_ne, ne_eq, Prod.mk.injEq, and_assoc]
  constructor
  · rintro ⟨a', ha', b', hb', hba, c', hc', hca, hcb, d', hd', hda, hdb, hdc,
      e', he', hea, heb, hec, hed, f', hf', hfa, hfb, hfc, hfd, hfe,
      g', hg', hga, hgb, hgc, hgd, hge, hgf,
      h', hh', hha, hhb, hhc, hhd, hhe, hhf, hhg,
      rfl, rfl, rfl, rfl, rfl, rfl, rfl, rfl⟩
    exact ⟨ha', hb', hc', hd', he', hf', hg', hh', hba, hca, hcb, hda, hdb, hdc,
      hea, heb, hec, hed, hfa, hfb, hfc, hfd, hfe, hga, hgb, hgc, hgd, hge, hgf,
      hha, hhb, hhc, hhd, hhe, hhf, hhg⟩
  · rintro ⟨ha, hb, hc, hd, he, hf, hg, hh, hba, hca, hcb, hda, hdb, hdc,
      hea, heb, hec, hed, hfa, hfb, hfc, hfd, hfe, hga, hgb, hgc, hgd, hge, hgf,
      hha, hhb, hhc, hhd, hhe, hhf, hhg⟩
    exact ⟨a, ha, b, hb, hba, c, hc, hca, hcb, d, hd, hda, hdb, hdc,
      e, he, hea, heb, hec, hed, f, hf, hfa, hfb, hfc, hfd, hfe,
      g, hg, hga, hgb, hgc, hgd, hge, hgf,
      h, hh, hha, hhb, hhc, hhd, hhe, hhf, hhg, rfl, rfl, rfl, rfl, rfl, rfl, rfl, rfl⟩

set_option maxRecDepth 100000 in
lemma mem_prio_perms_rm (a b c d e f g h : Nat) :
    (a, b, c, d, e, f, g, h) ∈ prio_perms_rm ↔
      a < 8 ∧ b < 8 ∧ c < 8 ∧ d < 8 ∧ e < 8 ∧ f < 8 ∧ g < 8 ∧ h < 8 ∧
      a < b ∧ b < c ∧ c < d ∧
      e ≠ a ∧ e ≠ b ∧ e ≠ c ∧ e ≠ d ∧
      f ≠ a ∧ f ≠ b ∧ f ≠ c ∧ f ≠ d ∧ f ≠ e ∧
      g ≠ a ∧ g ≠ b ∧ g ≠ c ∧ g ≠ d ∧ g ≠ e ∧ g ≠ f ∧
      h ≠ a ∧ h ≠ b ∧ h ≠ c ∧ h ≠ d ∧ h ≠ e ∧ h ≠ f ∧ h ≠ g := by
  simp only [prio_perms_rm, List.mem_flatMap, List.mem_filter, List.mem_range,
    List.mem_map, Bool.and_eq_true, bne_iff_ne, ne_eq, decide_eq_true_eq,
    Prod.mk.injEq, and_assoc]
  constructor
  · rintro ⟨a', ha', b', hb', hab, c', hc', hbc, d', hd', hcd,
      e', he', hea, heb, hec, hed, f', hf', hfa, hfb, hfc, hfd, hfe,
      g', hg', hga, hgb, hgc, hgd, hge, hgf,
      h', hh', hha, hhb, hhc, hhd, hhe, hhf, hhg,
      rfl, rfl, rfl, rfl, rfl, rfl, rfl, rfl⟩
    exact ⟨ha', hb', hc', hd', he', hf', hg', hh', hab, hbc, hcd,
      hea, heb, hec, hed, hfa, hfb, hfc, hfd, hfe, hga, hgb, hgc, hgd, hge, hgf,
      hha, hhb, hhc, hhd, hhe, hhf, hhg⟩
  · rintro ⟨ha, hb, hc, hd, he, hf, hg, hh, hab, hbc, hcd,
      hea, heb, hec, hed, hfa, hfb, hfc, hfd, hfe, hga, hgb, hgc, hgd, hge, hgf,
      hha, hhb, hhc, hhd, hhe, hhf, hhg⟩
    exact ⟨a, ha, b, hb, hab, c, hc, hbc, d, hd, hcd,
      e, he, hea, heb, hec, hed, f, hf, hfa, hfb, hfc, hfd, hfe,
      g, hg, hga, hgb, hgc, hgd, hge, hgf,
      h, hh, hha, hhb, hhc, hhd, hhe, hhf, hhg, rfl, rfl, rfl, rfl, rfl, rfl, rfl, rfl⟩

/-- C6: the unrestricted exhaustive search generates exactly 40320 priority
permutations and the RM-restricted one exactly 1680, each permutation
generated once (the lists have no duplicates), and the generated tuples are
exactly the assignments of distinct values below 8 to the eight priority
slots (with strictly increasing phase 1 priorities in the RM case); hence
the `generated_permutations == total_permutations` assertions executed
before either function returns 0 hold. -/
theorem claim_C6 :
    (prio_perms_all.length = 40320 ∧ prio_perms_all.Nodup ∧
      ∀ a b c d e f g h : Nat,
        (a, b, c, d, e, f, g, h) ∈ prio_perms_all ↔
          a < 8 ∧ b < 8 ∧ c < 8 ∧ d < 8 ∧ e < 8 ∧ f < 8 ∧ g < 8 ∧ h < 8 ∧
          b ≠ a ∧ c ≠ a ∧ c ≠ b ∧ d ≠ a ∧ d ≠ b ∧ d ≠ c ∧
          e ≠ a ∧ e ≠ b ∧ e ≠ c ∧ e ≠ d ∧
          f ≠ a ∧ f ≠ b ∧ f ≠ c ∧ f ≠ d ∧ f ≠ e ∧
          g ≠ a ∧ g ≠ b ∧ g ≠ c ∧ g ≠ d ∧ g ≠ e ∧ g ≠ f ∧
          h ≠ a ∧ h ≠ b ∧ h ≠ c ∧ h ≠ d ∧ h ≠ e ∧ h ≠ f ∧ h ≠ g) ∧
    (prio_perms_rm.length = 1680 ∧ prio_perms_rm.Nodup ∧
      ∀ a b c d e f g h : Nat,
        (a, b, c, d, e, f, g, h) ∈ prio_perms_rm ↔
          a < 8 ∧ b < 8 ∧ c < 8 ∧ d < 8 ∧ e < 8 ∧ f < 8 ∧ g < 8 ∧ h < 8 ∧
          a < b ∧ b < c ∧ c < d ∧
          e ≠ a ∧ e ≠ b ∧ e ≠ c ∧ e ≠ d ∧
          f ≠ a ∧ f ≠ b ∧ f ≠ c ∧ f ≠ d ∧ f ≠ e ∧
          g ≠ a ∧ g ≠ b ∧ g ≠ c ∧ g ≠ d ∧ g ≠ e ∧ g ≠ f ∧
          h ≠ a ∧ h ≠ b ∧ h ≠ c ∧ h ≠ d ∧ h ≠ e ∧ h ≠ f ∧ h ≠ g) := by
  refine ⟨⟨prio_perms_all_length, prio_perms_all_nodup, mem_prio_perms_all⟩,
    ⟨?_, prio_perms_rm_nodup, mem_prio_perms_rm⟩⟩
  rw [← llen_eq]
  exact llen_rm



/-
A fast, kernel-evaluable model of the simulation loop of simulate_sas for
task sets whose parameters are natural numbers, used to check the long
counterexample-3 runs. The machine state is the tuple of last release times
and remaining wcets; the abstraction fgamma maps it back to a taskset_t.
-/

structure FastSt where
  s0 : Nat
  s1 : Nat
  s2 : Nat
  s3 : Nat
  s4 : Nat
  s5 : Nat
  s6 : Nat
  s7 : Nat
deriving DecidableEq

abbrev FR := Nat ⊕ FastSt

abbrev FK := Nat → Nat → Nat → Nat → Nat → Nat → Nat → Nat → Nat → FR

/-- comment: finish one tick: if the winning key `m` is at most 31 some task
is active and the task `m % 4` executes for one time unit; then time advances. -/
def ffin (k : FK) (t l0 l1 l2 l3 r0 r1 r2 r3 m : Nat) : FR :=
  Bool.rec (motive := fun _ => FR)
    (k (t + 1) l0 l1 l2 l3 r0 r1 r2 r3)
    (Bool.rec (motive := fun _ => FR)
      (Bool.rec (motive := fun _ => FR)
        (Bool.rec (motive := fun _ => FR)
          (k (t + 1) l0 l1 l2 l3 r0 r1 r2 (r3 - 1))
          (k (t + 1) l0 l1 l2 l3 r0 r1 (r2 - 1) r3)
          (Nat.beq (Nat.mod m 4) 2))
        (k (t + 1) l0 l1 l2 l3 r0 (r1 - 1) r2 r3)
        (Nat.beq (Nat.mod m 4) 1))
      (k (t + 1) l0 l1 l2 l3 (r0 - 1) r1 r2 r3)
      (Nat.beq (Nat.mod m 4) 0))
    (Nat.ble m 31)

def fselB (k : FK) (t l0 l1 l2 l3 r0 r1 r2 r3 w01 w23 : Nat) : FR :=
  ffin k t l0 l1 l2 l3 r0 r1 r2 r3
    (Bool.rec (motive := fun _ => Nat) w23 w01 (Nat.ble w01 w23))

def fselA (k : FK) (t l0 l1 l2 l3 r0 r1 r2 r3 k0 k1 k2 k3 : Nat) : FR :=
  fselB k t l0 l1 l2 l3 r0 r1 r2 r3
    (Bool.rec (motive := fun _ => Nat) k1 k0 (Nat.ble k0 k1))
    (Bool.rec (motive := fun _ => Nat) k3 k2 (Nat.ble k2 k3))

/-- comment: the priority keys: an active task gets `4 * prio + index` (so the
minimum encodes the scan's minimal-priority-lowest-index choice), an
inactive task the sentinel `32 + index`. -/
def frun (q0 q1 q2 q3 ka0 ka1 ka2 ka3 kb0 kb1 kb2 kb3 : Nat) (k : FK)
    (t l0 l1 l2 l3 r0 r1 r2 r3 : Nat) : FR :=
  fselA k t l0 l1 l2 l3 r0 r1 r2 r3
    (Bool.rec (motive := fun _ => Nat) 32
      (Bool.rec (motive := fun _ => Nat) ka0 kb0 (Nat.ble q0 (t - l0))) (Nat.ble 1 r0))
    (Bool.rec (motive := fun _ => Nat) 33
      (Bool.rec (motive := fun _ => Nat) ka1 kb1 (Nat.ble q1 (t - l1))) (Nat.ble 1 r1))
    (Bool.rec (motive := fun _ => Nat) 34
      (Bool.rec (motive := fun _ => Nat) ka2 kb2 (Nat.ble q2 (t - l2))) (Nat.ble 1 r2))
    (Bool.rec (motive := fun _ => Nat) 35
      (Bool.rec (motive := fun _ => Nat) ka3 kb3 (Nat.ble q3 (t - l3))) (Nat.ble 1 r3))

def ftick3 (w3 p3 q0 q1 q2 q3 ka0 ka1 ka2 ka3 kb0 kb1 kb2 kb3 : Nat)
    (k : FK) (t l0 l1 l2 l3 r0 r1 r2 r3 : Nat) : FR :=
  Bool.rec (motive := fun _ => FR)
    (frun q0 q1 q2 q3 ka0 ka1 ka2 ka3 kb0 kb1 kb2 kb3 k t l0 l1 l2 l3 r0 r1 r2 r3)
    (Bool.rec (motive := fun _ => FR)
      (frun q0 q1 q2 q3 ka0 ka1 ka2 ka3 kb0 kb1 kb2 kb3 k t l0 l1 l2 t r0 r1 r2 w3)
      (.inl 3)
      (Nat.ble 1 r3))
    (Nat.ble (l3 + p3) t)

def ftick2 (w2 w3 p2 p3 q0 q1 q2 q3 ka0 ka1 ka2 ka3 kb0 kb1 kb2 kb3 : Nat)
    (k : FK) (t l0 l1 l2 l3 r0 r1 r2 r3 : Nat) : FR :=
  Bool.rec (motive := fun _ => FR)
    (ftick3 w3 p3 q0 q1 q2 q3 ka0 ka1 ka2 ka3 kb0 kb1 kb2 kb3 k t l0 l1 l2 l3 r0 r1 r2 r3)
    (Bool.rec (motive := fun _ => FR)
      (ftick3 w3 p3 q0 q1 q2 q3 ka0 ka1 ka2 ka3 kb0 kb1 kb2 kb3 k t l0 l1 t l3 r0 r1 w2 r3)
      (.inl 2)
      (Nat.ble 1 r2))
    (Nat.ble (l2 + p2) t)

def ftick1 (w1 w2 w3 p1 p2 p3 q0 q1 q2 q3 ka0 ka1 ka2 ka3 kb0 kb1 kb2 kb3 : Nat)
    (k : FK) (t l0 l1 l2 l3 r0 r1 r2 r3 : Nat) : FR :=
  Bool.rec (motive := fun _ => FR)
    (ftick2 w2 w3 p2 p3 q0 q1 q2 q3 ka0 ka1 ka2 ka3 kb0 kb1 kb2 kb3 k t l0 l1 l2 l3 r0 r1 r2 r3)
    (Bool.rec (motive := fun _ => FR)
      (ftick2 w2 w3 p2 p3 q0 q1 q2 q3 ka0 ka1 ka2 ka3 kb0 kb1 kb2 kb3 k t l0 t l2 l3 r0 w1 r2 r3)
      (.inl 1)
      (Nat.ble 1 r1))
    (Nat.ble (l1 + p1) t)

/-- comment: one loop iteration of `simulate_sas` at time `t`: per-task
deadline-miss check combined with the release, then the selection and the
execution of the winner, then the continuation at `t + 1`. -/
def ftick (w0 w1 w2 w3 p0 p1 p2 p3 q0 q1 q2 q3 ka0 ka1 ka2 ka3 kb0 kb1 kb2 kb3 : Nat)
    (k : FK) (t l0 l1 l2 l3 r0 r1 r2 r3 : Nat) : FR :=
  Bool.rec (motive := fun _ => FR)
    (ftick1 w1 w2 w3 p1 p2 p3 q0 q1 q2 q3 ka0 ka1 ka2 ka3 kb0 kb1 kb2 kb3 k t l0 l1 l2 l3 r0 r1 r2 r3)
    (Bool.rec (motive := fun _ => FR)
      (ftick1 w1 w2 w3 p1 p2 p3 q0 q1 q2 q3 ka0 ka1 ka2 ka3 kb0 kb1 kb2 kb3 k t t l1 l2 l3 w0 r1 r2 r3)
      (.inl 0)
      (Nat.ble 1 r0))
    (Nat.ble (l0 + p0) t)

def floop (w0 w1 w2 w3 p0 p1 p2 p3 q0 q1 q2 q3 ka0 ka1 ka2 ka3 kb0 kb1 kb2 kb3 : Nat)
    (fuel : Nat) : Nat → Nat → Nat → Nat → Nat → Nat → Nat → Nat → Nat → FR :=
  Nat.rec (motive := fun _ => Nat → Nat → Nat → Nat → Nat → Nat → Nat → Nat → Nat → FR)
    (fun _ l0 l1 l2 l3 r0 r1 r2 r3 => .inr ⟨l0, l1, l2, l3, r0, r1, r2, r3⟩)
    (fun _ ih t l0 l1 l2 l3 r0 r1 r2 r3 =>
      ftick w0 w1 w2 w3 p0 p1 p2 p3 q0 q1 q2 q3 ka0 ka1 ka2 ka3 kb0 kb1 kb2 kb3
        ih t l0 l1 l2 l3 r0 r1 r2 r3)
    fuel

/-- comment: the faithful simulation state described by a fast-machine state:
all task parameters are naturals and the dynamic fields are the machine's. -/
def fgamma (hp : Int) (w0 w1 w2 w3 p0 p1 p2 p3 q0 q1 q2 q3 a0 a1 a2 a3 b0 b1 b2 b3
    l0 l1 l2 l3 r0 r1 r2 r3 : Nat) : taskset_t :=
  { task0 := ⟨(w0 : Int), (p0 : Int), (a0 : Int), (b0 : Int), (q0 : Int), (l0 : Int), (r0 : Int)⟩
    task1 := ⟨(w1 : Int), (p1 : Int), (a1 : Int), (b1 : Int), (q1 : Int), (l1 : Int), (r1 : Int)⟩
    task2 := ⟨(w2 : Int), (p2 : Int), (a2 : Int), (b2 : Int), (q2 : Int), (l2 : Int), (r2 : Int)⟩
    task3 := ⟨(w3 : Int), (p3 : Int), (a3 : Int), (b3 : Int), (q3 : Int), (l3 : Int), (r3 : Int)⟩
    hyper_period := hp }

/-- comment: the current priority of a task, over naturals. -/
def nprio (q a b t l : Nat) : Nat := if t - l < q then a else b

/-- comment: the selection key of a task, over naturals. -/
def nkey (q a b i t l r : Nat) : Nat :=
  if 0 < r then 4 * nprio q a b t l + i else 32 + i

def min4 (k0 k1 k2 k3 : Nat) : Nat := min (min k0 k1) (min k2 k3)

lemma brec_ble {T : Sort _} (x y : Nat) (A B : T) :
    (Bool.rec A B (Nat.ble x y) : T) = if x ≤ y then B else A := by
  by_cases h : x ≤ y
  · rw [if_pos h, show Nat.ble x y = true from Nat.ble_eq.mpr h]
  · rw [if_neg h, show Nat.ble x y = false from by
      cases hb : Nat.ble x y
      · rfl
      · exact absurd (Nat.ble_eq.mp hb) h]

lemma brec_beq {T : Sort _} (x y : Nat) (A B : T) :
    (Bool.rec A B (Nat.beq x y) : T) = if x = y then B else A := by
  by_cases h : x = y
  · rw [if_pos h, show Nat.beq x y = true from Nat.beq_eq.mpr h]
  · rw [if_neg h, show Nat.beq x y = false from by
      cases hb : Nat.beq x y
      · rfl
      · exact absurd (Nat.beq_eq.mp hb) h]

lemma nkey_mod (q a b i t l r : Nat) (hi : i < 4) : nkey q a b i t l r % 4 = i := by
  unfold nkey nprio
  split_ifs <;> omega

lemma nprio_le (q a b t l : Nat) (ha : a ≤ 7) (hb : b ≤ 7) : nprio q a b t l ≤ 7 := by
  unfold nprio
  split_ifs <;> omega

lemma min4_le (k0 k1 k2 k3 : Nat) :
    min4 k0 k1 k2 k3 ≤ k0 ∧ min4 k0 k1 k2 k3 ≤ k1 ∧
      min4 k0 k1 k2 k3 ≤ k2 ∧ min4 k0 k1 k2 k3 ≤ k3 := by
  unfold min4
  omega

lemma min4_mem (k0 k1 k2 k3 : Nat) :
    min4 k0 k1 k2 k3 = k0 ∨ min4 k0 k1 k2 k3 = k1 ∨
      min4 k0 k1 k2 k3 = k2 ∨ min4 k0 k1 k2 k3 = k3 := by
  unfold min4
  omega

lemma hmd_mk (w p a b q l r t : Nat) :
    has_missed_deadline ⟨(w : Int), p, a, b, q, l, r⟩ ↑t =
      decide (l + p ≤ t ∧ 0 < r) := by
  unfold has_missed_deadline is_active can_release
  have hl : ¬((l : Int) < 0) := by omega
  by_cases h1 : l + p ≤ t <;> by_cases h2 : 0 < r <;>
    simp [hl, h1, h2, show ((r : Int) > 0) ↔ 0 < r from by omega,
      show ((t : Int) - l ≥ p) ↔ l + p ≤ t from by omega]

lemma gp_mk (w p a b q l r t : Nat) (hl : l ≤ t) :
    get_priority ⟨(w : Int), p, a, b, q, l, r⟩ ↑t = ↑(nprio q a b t l) := by
  unfold get_priority nprio
  by_cases h : t - l < q
  · rw [if_pos (by simp only []; omega), if_pos h]
  · rw [if_neg (by simp only []; omega), if_neg h]

lemma act_mk (w p a b q l r : Nat) :
    is_active ⟨(w : Int), p, a, b, q, l, r⟩ = decide (0 < r) := by
  unfold is_active
  simp [show ((r : Int) > 0) ↔ 0 < r from by omega]

lemma rel_mk (w p a b q l r t : Nat) :
    (if can_release ⟨(w : Int), p, a, b, q, l, r⟩ ↑t
      then release ⟨(w : Int), p, a, b, q, l, r⟩ ↑t
      else ⟨(w : Int), p, a, b, q, l, r⟩) =
    (⟨(w : Int), p, a, b, q, ((if l + p ≤ t then t else l : Nat) : Int),
      ((if l + p ≤ t then w else r : Nat) : Int)⟩ : task_t) := by
  unfold can_release release
  have hl : ¬((l : Int) < 0) := by omega
  by_cases h : l + p ≤ t
  · rw [if_pos (by simp [hl, show ((t : Int) - l ≥ p) ↔ l + p ≤ t from by omega, h])]
    simp [h]
  · rw [if_neg (by simp [hl, show ((t : Int) - l ≥ p) ↔ l + p ≤ t from by omega, h])]
    simp [h]

lemma first_miss_fgamma (hp : Int)
    (w0 w1 w2 w3 p0 p1 p2 p3 q0 q1 q2 q3 a0 a1 a2 a3 b0 b1 b2 b3
      t l0 l1 l2 l3 r0 r1 r2 r3 : Nat) :
    first_miss (fgamma hp w0 w1 w2 w3 p0 p1 p2 p3 q0 q1 q2 q3 a0 a1 a2 a3 b0 b1 b2 b3
        l0 l1 l2 l3 r0 r1 r2 r3) ↑t =
      (if l0 + p0 ≤ t ∧ 0 < r0 then some 0
       else if l1 + p1 ≤ t ∧ 0 < r1 then some 1
       else if l2 + p2 ≤ t ∧ 0 < r2 then some 2
       else if l3 + p3 ≤ t ∧ 0 < r3 then some 3
       else none) := by
  unfold first_miss fgamma
  simp only [hmd_mk, decide_eq_true_eq]

lemma release_all_fgamma (hp : Int)
    (w0 w1 w2 w3 p0 p1 p2 p3 q0 q1 q2 q3 a0 a1 a2 a3 b0 b1 b2 b3
      t l0 l1 l2 l3 r0 r1 r2 r3 : Nat) :
    release_all (fgamma hp w0 w1 w2 w3 p0 p1 p2 p3 q0 q1 q2 q3 a0 a1 a2 a3 b0 b1 b2 b3
        l0 l1 l2 l3 r0 r1 r2 r3) ↑t =
      fgamma hp w0 w1 w2 w3 p0 p1 p2 p3 q0 q1 q2 q3 a0 a1 a2 a3 b0 b1 b2 b3
        (if l0 + p0 ≤ t then t else l0) (if l1 + p1 ≤ t then t else l1)
        (if l2 + p2 ≤ t then t else l2) (if l3 + p3 ≤ t then t else l3)
        (if l0 + p0 ≤ t then w0 else r0) (if l1 + p1 ≤ t then w1 else r1)
        (if l2 + p2 ≤ t then w2 else r2) (if l3 + p3 ≤ t then w3 else r3) := by
  unfold release_all fgamma
  simp only [rel_mk]

lemma nkey_act (q a b i t l r : Nat) (h : nkey q a b i t l r ≤ 31) : 0 < r := by
  unfold nkey at h
  split_ifs at h with hc
  · exact hc
  · omega

lemma nkey_val (q a b i t l r : Nat) (h : 0 < r) :
    nkey q a b i t l r = 4 * nprio q a b t l + i := by
  unfold nkey
  rw [if_pos h]

lemma nkey_le31_of_act (q a b i t l r : Nat) (hr : 0 < r) (hi : i < 4)
    (ha : a ≤ 7) (hb : b ≤ 7) : nkey q a b i t l r ≤ 31 := by
  unfold nkey nprio
  split_ifs <;> omega

lemma ghpat_fgamma (hp : Int)
    (w0 w1 w2 w3 p0 p1 p2 p3 q0 q1 q2 q3 a0 a1 a2 a3 b0 b1 b2 b3
      t l0 l1 l2 l3 r0 r1 r2 r3 : Nat)
    (hl0 : l0 ≤ t) (hl1 : l1 ≤ t) (hl2 : l2 ≤ t) (hl3 : l3 ≤ t)
    (ha0 : a0 ≤ 7) (ha1 : a1 ≤ 7) (ha2 : a2 ≤ 7) (ha3 : a3 ≤ 7)
    (hb0 : b0 ≤ 7) (hb1 : b1 ≤ 7) (hb2 : b2 ≤ 7) (hb3 : b3 ≤ 7) :
    get_highest_prio_active_task (fgamma hp w0 w1 w2 w3 p0 p1 p2 p3 q0 q1 q2 q3 a0 a1 a2 a3 b0 b1 b2 b3 l0 l1 l2 l3 r0 r1 r2 r3) ↑t =
      (if min4 (nkey q0 a0 b0 0 t l0 r0) (nkey q1 a1 b1 1 t l1 r1)
           (nkey q2 a2 b2 2 t l2 r2) (nkey q3 a3 b3 3 t l3 r3) ≤ 31
       then some (min4 (nkey q0 a0 b0 0 t l0 r0) (nkey q1 a1 b1 1 t l1 r1)
           (nkey q2 a2 b2 2 t l2 r2) (nkey q3 a3 b3 3 t l3 r3) % 4)
       else none) := by
  have hnn : ∀ i, i < 4 → 0 ≤ ((fgamma hp w0 w1 w2 w3 p0 p1 p2 p3 q0 q1 q2 q3 a0 a1 a2 a3 b0 b1 b2 b3 l0 l1 l2 l3 r0 r1 r2 r3).task i).phase_1_prio ∧
      0 ≤ ((fgamma hp w0 w1 w2 w3 p0 p1 p2 p3 q0 q1 q2 q3 a0 a1 a2 a3 b0 b1 b2 b3 l0 l1 l2 l3 r0 r1 r2 r3).task i).phase_2_prio := by
    intro i hi
    interval_cases i <;> exact ⟨Int.natCast_nonneg _, Int.natCast_nonneg _⟩
  have hact0 : is_active ((fgamma hp w0 w1 w2 w3 p0 p1 p2 p3 q0 q1 q2 q3 a0 a1 a2 a3 b0 b1 b2 b3 l0 l1 l2 l3 r0 r1 r2 r3).task 0) = decide (0 < r0) :=
    act_mk w0 p0 a0 b0 q0 l0 r0
  have hgp0 : get_priority ((fgamma hp w0 w1 w2 w3 p0 p1 p2 p3 q0 q1 q2 q3 a0 a1 a2 a3 b0 b1 b2 b3 l0 l1 l2 l3 r0 r1 r2 r3).task 0) ↑t = ↑(nprio q0 a0 b0 t l0) :=
    gp_mk w0 p0 a0 b0 q0 l0 r0 t hl0
  have hn0 : nprio q0 a0 b0 t l0 ≤ 7 := nprio_le q0 a0 b0 t l0 ha0 hb0
  have hact1 : is_active ((fgamma hp w0 w1 w2 w3 p0 p1 p2 p3 q0 q1 q2 q3 a0 a1 a2 a3 b0 b1 b2 b3 l0 l1 l2 l3 r0 r1 r2 r3).task 1) = decide (0 < r1) :=
    act_mk w1 p1 a1 b1 q1 l1 r1
  have hgp1 : get_priority ((fgamma hp w0 w1 w2 w3 p0 p1 p2 p3 q0 q1 q2 q3 a0 a1 a2 a3 b0 b1 b2 b3 l0 l1 l2 l3 r0 r1 r2 r3).task 1) ↑t = ↑(nprio q1 a1 b1 t l1) :=
    gp_mk w1 p1 a1 b1 q1 l1 r1 t hl1
  have hn1 : nprio q1 a1 b1 t l1 ≤ 7 := nprio_le q1 a1 b1 t l1 ha1 hb1
  have hact2 : is_active ((fgamma hp w0 w1 w2 w3 p0 p1 p2 p3 q0 q1 q2 q3 a0 a1 a2 a3 b0 b1 b2 b3 l0 l1 l2 l3 r0 r1 r2 r3).task 2) = decide (0 < r2) :=
    act_mk w2 p2 a2 b2 q2 l2 r2
  have hgp2 : get_priority ((fgamma hp w0 w1 w2 w3 p0 p1 p2 p3 q0 q1 q2 q3 a0 a1 a2 a3 b0 b1 b2 b3 l0 l1 l2 l3 r0 r1 r2 r3).task 2) ↑t = ↑(nprio q2 a2 b2 t l2) :=
    gp_mk w2 p2 a2 b2 q2 l2 r2 t hl2
  have hn2 : nprio q2 a2 b2 t l2 ≤ 7 := nprio_le q2 a2 b2 t l2 ha2 hb2
  have hact3 : is_active ((fgamma hp w0 w1 w2 w3 p0 p1 p2 p3 q0 q1 q2 q3 a0 a1 a2 a3 b0 b1 b2 b3 l0 l1 l2 l3 r0 r1 r2 r3).task 3) = decide (0 < r3) :=
    act_mk w3 p3 a3 b3 q3 l3 r3
  have hgp3 : get_priority ((fgamma hp w0 w1 w2 w3 p0 p1 p2 p3 q0 q1 q2 q3 a0 a1 a2 a3 b0 b1 b2 b3 l0 l1 l2 l3 r0 r1 r2 r3).task 3) ↑t = ↑(nprio q3 a3 b3 t l3) :=
    gp_mk w3 p3 a3 b3 q3 l3 r3 t hl3
  have hn3 : nprio q3 a3 b3 t l3 ≤ 7 := nprio_le q3 a3 b3 t l3 ha3 hb3
  by_cases hm : min4 (nkey q0 a0 b0 0 t l0 r0) (nkey q1 a1 b1 1 t l1 r1) (nkey q2 a2 b2 2 t l2 r2) (nkey q3 a3 b3 3 t l3 r3) ≤ 31
  case neg =>
    rw [if_neg hm]
    apply (ghpat_none_iff _ _ hnn).mpr
    intro i hi
    have hle := min4_le (nkey q0 a0 b0 0 t l0 r0) (nkey q1 a1 b1 1 t l1 r1) (nkey q2 a2 b2 2 t l2 r2) (nkey q3 a3 b3 3 t l3 r3)
    interval_cases i
    · rw [hact0]
      simp only [decide_eq_false_iff_not]
      intro hr
      exact hm (Nat.le_trans hle.1 (nkey_le31_of_act q0 a0 b0 0 t l0 r0 hr (by omega) ha0 hb0))
    · rw [hact1]
      simp only [decide_eq_false_iff_not]
      intro hr
      exact hm (Nat.le_trans hle.2.1 (nkey_le31_of_act q1 a1 b1 1 t l1 r1 hr (by omega) ha1 hb1))
    · rw [hact2]
      simp only [decide_eq_false_iff_not]
      intro hr
      exact hm (Nat.le_trans hle.2.2.1 (nkey_le31_of_act q2 a2 b2 2 t l2 r2 hr (by omega) ha2 hb2))
    · rw [hact3]
      simp only [decide_eq_false_iff_not]
      intro hr
      exact hm (Nat.le_trans hle.2.2.2 (nkey_le31_of_act q3 a3 b3 3 t l3 r3 hr (by omega) ha3 hb3))
  case pos =>
    rw [if_pos hm]
    have hle := min4_le (nkey q0 a0 b0 0 t l0 r0) (nkey q1 a1 b1 1 t l1 r1) (nkey q2 a2 b2 2 t l2 r2) (nkey q3 a3 b3 3 t l3 r3)
    rcases min4_mem (nkey q0 a0 b0 0 t l0 r0) (nkey q1 a1 b1 1 t l1 r1) (nkey q2 a2 b2 2 t l2 r2) (nkey q3 a3 b3 3 t l3 r3) with he | he | he | he
    · rw [he] at hm hle ⊢
      rw [nkey_mod q0 a0 b0 0 t l0 r0 (by omega)]
      have hr0 : 0 < r0 := nkey_act q0 a0 b0 0 t l0 r0 hm
      have hv0 := nkey_val q0 a0 b0 0 t l0 r0 hr0
      apply (ghpat_some_iff _ _ _ hnn).mpr
      refine ⟨by omega, ?_, ?_, ?_⟩
      · rw [hact0]
        simp [hr0]
      · intro i hi hacti
        interval_cases i
        · exact le_refl _
        · rw [hact1] at hacti
          have hri : 0 < r1 := by simpa using hacti
          have hvi := nkey_val q1 a1 b1 1 t l1 r1 hri
          have hmi := hle.2.1
          rw [hgp0, hgp1]
          exact_mod_cast by omega
        · rw [hact2] at hacti
          have hri : 0 < r2 := by simpa using hacti
          have hvi := nkey_val q2 a2 b2 2 t l2 r2 hri
          have hmi := hle.2.2.1
          rw [hgp0, hgp2]
          exact_mod_cast by omega
        · rw [hact3] at hacti
          have hri : 0 < r3 := by simpa using hacti
          have hvi := nkey_val q3 a3 b3 3 t l3 r3 hri
          have hmi := hle.2.2.2
          rw [hgp0, hgp3]
          exact_mod_cast by omega
      · intro i hi hacti
        omega
    · rw [he] at hm hle ⊢
      rw [nkey_mod q1 a1 b1 1 t l1 r1 (by omega)]
      have hr1 : 0 < r1 := nkey_act q1 a1 b1 1 t l1 r1 hm
      have hv1 := nkey_val q1 a1 b1 1 t l1 r1 hr1
      apply (ghpat_some_iff _ _ _ hnn).mpr
      refine ⟨by omega, ?_, ?_, ?_⟩
      · rw [hact1]
        simp [hr1]
      · intro i hi hacti
        interval_cases i
        · rw [hact0] at hacti
          have hri : 0 < r0 := by simpa using hacti
          have hvi := nkey_val q0 a0 b0 0 t l0 r0 hri
          have hmi := hle.1
          rw [hgp1, hgp0]
          exact_mod_cast by omega
        · exact le_refl _
        · rw [hact2] at hacti
          have hri : 0 < r2 := by simpa using hacti
          have hvi := nkey_val q2 a2 b2 2 t l2 r2 hri
          have hmi := hle.2.2.1
          rw [hgp1, hgp2]
          exact_mod_cast by omega
        · rw [hact3] at hacti
          have hri : 0 < r3 := by simpa using hacti
          have hvi := nkey_val q3 a3 b3 3 t l3 r3 hri
          have hmi := hle.2.2.2
          rw [hgp1, hgp3]
          exact_mod_cast by omega
      · intro i hi hacti
        interval_cases i
        · rw [hact0] at hacti
          have hri : 0 < r0 := by simpa using hacti
          have hvi := nkey_val q0 a0 b0 0 t l0 r0 hri
          have hmi := hle.1
          rw [hgp1, hgp0]
          exact_mod_cast by omega
    · rw [he] at hm hle ⊢
      rw [nkey_mod q2 a2 b2 2 t l2 r2 (by omega)]
      have hr2 : 0 < r2 := nkey_act q2 a2 b2 2 t l2 r2 hm
      have hv2 := nkey_val q2 a2 b2 2 t l2 r2 hr2
      apply (ghpat_some_iff _ _ _ hnn).mpr
      refine ⟨by omega, ?_, ?_, ?_⟩
      · rw [hact2]
        simp [hr2]
      · intro i hi hacti
        interval_cases i
        · rw [hact0] at hacti
          have hri : 0 < r0 := by simpa using hacti
          have hvi := nkey_val q0 a0 b0 0 t l0 r0 hri
          have hmi := hle.1
          rw [hgp2, hgp0]
          exact_mod_cast by omega
        · rw [hact1] at hacti
          have hri : 0 < r1 := by simpa using hacti
          have hvi := nkey_val q1 a1 b1 1 t l1 r1 hri
          have hmi := hle.2.1
          rw [hgp2, hgp1]
          exact_mod_cast by omega
        · exact le_refl _
        · rw [hact3] at hacti
          have hri : 0 < r3 := by simpa using hacti
          have hvi := nkey_val q3 a3 b3 3 t l3 r3 hri
          have hmi := hle.2.2.2
          rw [hgp2, hgp3]
          exact_mod_cast by omega
      · intro i hi hacti
        interval_cases i
        · rw [hact0] at hacti
          have hri : 0 < r0 := by simpa using hacti
          have hvi := nkey_val q0 a0 b0 0 t l0 r0 hri
          have hmi := hle.1
          rw [hgp2, hgp0]
          exact_mod_cast by omega
        · rw [hact1] at hacti
          have hri : 0 < r1 := by simpa using hacti
          have hvi := nkey_val q1 a1 b1 1 t l1 r1 hri
          have hmi := hle.2.1
          rw [hgp2, hgp1]
          exact_mod_cast by omega
    · rw [he] at hm hle ⊢
      rw [nkey_mod q3 a3 b3 3 t l3 r3 (by omega)]
      have hr3 : 0 < r3 := nkey_act q3 a3 b3 3 t l3 r3 hm
      have hv3 := nkey_val q3 a3 b3 3 t l3 r3 hr3
      apply (ghpat_some_iff _ _ _ hnn).mpr
      refine ⟨by omega, ?_, ?_, ?_⟩
      · rw [hact3]
        simp [hr3]
      · intro i hi hacti
        interval_cases i
        · rw [hact0] at hacti
          have hri : 0 < r0 := by simpa using hacti
          have hvi := nkey_val q0 a0 b0 0 t l0 r0 hri
          have hmi := hle.1
          rw [hgp3, hgp0]
          exact_mod_cast by omega
        · rw [hact1] at hacti
          have hri : 0 < r1 := by simpa using hacti
          have hvi := nkey_val q1 a1 b1 1 t l1 r1 hri
          have hmi := hle.2.1
          rw [hgp3, hgp1]
          exact_mod_cast by omega
        · rw [hact2] at hacti
          have hri : 0 < r2 := by simpa using hacti
          have hvi := nkey_val q2 a2 b2 2 t l2 r2 hri
          have hmi := hle.2.2.1
          rw [hgp3, hgp2]
          exact_mod_cast by omega
        · exact le_refl _
      · intro i hi hacti
        interval_cases i
        · rw [hact0] at hacti
          have hri : 0 < r0 := by simpa using hacti
          have hvi := nkey_val q0 a0 b0 0 t l0 r0 hri
          have hmi := hle.1
          rw [hgp3, hgp0]
          exact_mod_cast by omega
        · rw [hact1] at hacti
          have hri : 0 < r1 := by simpa using hacti
          have hvi := nkey_val q1 a1 b1 1 t l1 r1 hri
          have hmi := hle.2.1
          rw [hgp3, hgp1]
          exact_mod_cast by omega
        · rw [hact2] at hacti
          have hri : 0 < r2 := by simpa using hacti
          have hvi := nkey_val q2 a2 b2 2 t l2 r2 hri
          have hmi := hle.2.2.1
          rw [hgp3, hgp2]
          exact_mod_cast by omega

lemma execute_fgamma (hp : Int)
    (w0 w1 w2 w3 p0 p1 p2 p3 q0 q1 q2 q3 a0 a1 a2 a3 b0 b1 b2 b3
      t l0 l1 l2 l3 r0 r1 r2 r3 : Nat)
    (hl0 : l0 ≤ t) (hl1 : l1 ≤ t) (hl2 : l2 ≤ t) (hl3 : l3 ≤ t)
    (ha0 : a0 ≤ 7) (ha1 : a1 ≤ 7) (ha2 : a2 ≤ 7) (ha3 : a3 ≤ 7)
    (hb0 : b0 ≤ 7) (hb1 : b1 ≤ 7) (hb2 : b2 ≤ 7) (hb3 : b3 ≤ 7) :
    execute_step (fgamma hp w0 w1 w2 w3 p0 p1 p2 p3 q0 q1 q2 q3 a0 a1 a2 a3 b0 b1 b2 b3
        l0 l1 l2 l3 r0 r1 r2 r3) ↑t =
      fgamma hp w0 w1 w2 w3 p0 p1 p2 p3 q0 q1 q2 q3 a0 a1 a2 a3 b0 b1 b2 b3
        l0 l1 l2 l3
        (if min4 (nkey q0 a0 b0 0 t l0 r0) (nkey q1 a1 b1 1 t l1 r1)
              (nkey q2 a2 b2 2 t l2 r2) (nkey q3 a3 b3 3 t l3 r3) ≤ 31 ∧
            min4 (nkey q0 a0 b0 0 t l0 r0) (nkey q1 a1 b1 1 t l1 r1)
              (nkey q2 a2 b2 2 t l2 r2) (nkey q3 a3 b3 3 t l3 r3) % 4 = 0
          then r0 - 1 else r0)
        (if min4 (nkey q0 a0 b0 0 t l0 r0) (nkey q1 a1 b1 1 t l1 r1)
              (nkey q2 a2 b2 2 t l2 r2) (nkey q3 a3 b3 3 t l3 r3) ≤ 31 ∧
            min4 (nkey q0 a0 b0 0 t l0 r0) (nkey q1 a1 b1 1 t l1 r1)
              (nkey q2 a2 b2 2 t l2 r2) (nkey q3 a3 b3 3 t l3 r3) % 4 = 1
          then r1 - 1 else r1)
        (if min4 (nkey q0 a0 b0 0 t l0 r0) (nkey q1 a1 b1 1 t l1 r1)
              (nkey q2 a2 b2 2 t l2 r2) (nkey q3 a3 b3 3 t l3 r3) ≤ 31 ∧
            min4 (nkey q0 a0 b0 0 t l0 r0) (nkey q1 a1 b1 1 t l1 r1)
              (nkey q2 a2 b2 2 t l2 r2) (nkey q3 a3 b3 3 t l3 r3) % 4 = 2
          then r2 - 1 else r2)
        (if min4 (nkey q0 a0 b0 0 t l0 r0) (nkey q1 a1 b1 1 t l1 r1)
              (nkey q2 a2 b2 2 t l2 r2) (nkey q3 a3 b3 3 t l3 r3) ≤ 31 ∧
            min4 (nkey q0 a0 b0 0 t l0 r0) (nkey q1 a1 b1 1 t l1 r1)
              (nkey q2 a2 b2 2 t l2 r2) (nkey q3 a3 b3 3 t l3 r3) % 4 = 3
          then r3 - 1 else r3) := by
  unfold execute_step
  rw [ghpat_fgamma hp w0 w1 w2 w3 p0 p1 p2 p3 q0 q1 q2 q3 a0 a1 a2 a3 b0 b1 b2 b3
    t l0 l1 l2 l3 r0 r1 r2 r3 hl0 hl1 hl2 hl3 ha0 ha1 ha2 ha3 hb0 hb1 hb2 hb3]
  by_cases hm : min4 (nkey q0 a0 b0 0 t l0 r0) (nkey q1 a1 b1 1 t l1 r1)
      (nkey q2 a2 b2 2 t l2 r2) (nkey q3 a3 b3 3 t l3 r3) ≤ 31
  · rw [if_pos hm]
    have hle := min4_le (nkey q0 a0 b0 0 t l0 r0) (nkey q1 a1 b1 1 t l1 r1)
      (nkey q2 a2 b2 2 t l2 r2) (nkey q3 a3 b3 3 t l3 r3)
    rcases min4_mem (nkey q0 a0 b0 0 t l0 r0) (nkey q1 a1 b1 1 t l1 r1)
      (nkey q2 a2 b2 2 t l2 r2) (nkey q3 a3 b3 3 t l3 r3) with he | he | he | he
    · have hmod : min4 (nkey q0 a0 b0 0 t l0 r0) (nkey q1 a1 b1 1 t l1 r1)
          (nkey q2 a2 b2 2 t l2 r2) (nkey q3 a3 b3 3 t l3 r3) % 4 = 0 := by
        rw [he]
        exact nkey_mod q0 a0 b0 0 t l0 r0 (by omega)
      have hr : 0 < r0 := nkey_act q0 a0 b0 0 t l0 r0 (he ▸ hm)
      rw [hmod]
      show dec_remaining _ 0 = _
      unfold dec_remaining fgamma
      simp [hm, Nat.cast_sub (show 1 ≤ r0 from hr)]
    · have hmod : min4 (nkey q0 a0 b0 0 t l0 r0) (nkey q1 a1 b1 1 t l1 r1)
          (nkey q2 a2 b2 2 t l2 r2) (nkey q3 a3 b3 3 t l3 r3) % 4 = 1 := by
        rw [he]
        exact nkey_mod q1 a1 b1 1 t l1 r1 (by omega)
      have hr : 0 < r1 := nkey_act q1 a1 b1 1 t l1 r1 (he ▸ hm)
      rw [hmod]
      show dec_remaining _ 1 = _
      unfold dec_remaining fgamma
      simp [hm, Nat.cast_sub (show 1 ≤ r1 from hr)]
    · have hmod : min4 (nkey q0 a0 b0 0 t l0 r0) (nkey q1 a1 b1 1 t l1 r1)
          (nkey q2 a2 b2 2 t l2 r2) (nkey q3 a3 b3 3 t l3 r3) % 4 = 2 := by
        rw [he]
        exact nkey_mod q2 a2 b2 2 t l2 r2 (by omega)
      have hr : 0 < r2 := nkey_act q2 a2 b2 2 t l2 r2 (he ▸ hm)
      rw [hmod]
      show dec_remaining _ 2 = _
      unfold dec_remaining fgamma
      simp [hm, Nat.cast_sub (show 1 ≤ r2 from hr)]
    · have hmod : min4 (nkey q0 a0 b0 0 t l0 r0) (nkey q1 a1 b1 1 t l1 r1)
          (nkey q2 a2 b2 2 t l2 r2) (nkey q3 a3 b3 3 t l3 r3) % 4 = 3 := by
        rw [he]
        exact nkey_mod q3 a3 b3 3 t l3 r3 (by omega)
      have hr : 0 < r3 := nkey_act q3 a3 b3 3 t l3 r3 (he ▸ hm)
      rw [hmod]
      show dec_remaining _ 3 = _
      unfold dec_remaining fgamma
      simp [hm, Nat.cast_sub (show 1 ≤ r3 from hr)]
  · rw [if_neg hm]
    show _ = _
    simp [hm]

lemma frun_eval (q0 q1 q2 q3 a0 a1 a2 a3 b0 b1 b2 b3 : Nat) (k : FK)
    (t l0 l1 l2 l3 r0 r1 r2 r3 : Nat) :
    frun q0 q1 q2 q3 (4 * a0) (4 * a1 + 1) (4 * a2 + 2) (4 * a3 + 3)
        (4 * b0) (4 * b1 + 1) (4 * b2 + 2) (4 * b3 + 3) k t l0 l1 l2 l3 r0 r1 r2 r3 =
      k (t + 1) l0 l1 l2 l3
        (if min4 (nkey q0 a0 b0 0 t l0 r0) (nkey q1 a1 b1 1 t l1 r1)
              (nkey q2 a2 b2 2 t l2 r2) (nkey q3 a3 b3 3 t l3 r3) ≤ 31 ∧
            min4 (nkey q0 a0 b0 0 t l0 r0) (nkey q1 a1 b1 1 t l1 r1)
              (nkey q2 a2 b2 2 t l2 r2) (nkey q3 a3 b3 3 t l3 r3) % 4 = 0
          then r0 - 1 else r0)
        (if min4 (nkey q0 a0 b0 0 t l0 r0) (nkey q1 a1 b1 1 t l1 r1)
              (nkey q2 a2 b2 2 t l2 r2) (nkey q3 a3 b3 3 t l3 r3) ≤ 31 ∧
            min4 (nkey q0 a0 b0 0 t l0 r0) (nkey q1 a1 b1 1 t l1 r1)
              (nkey q2 a2 b2 2 t l2 r2) (nkey q3 a3 b3 3 t l3 r3) % 4 = 1
          then r1 - 1 else r1)
        (if min4 (nkey q0 a0 b0 0 t l0 r0) (nkey q1 a1 b1 1 t l1 r1)
              (nkey q2 a2 b2 2 t l2 r2) (nkey q3 a3 b3 3 t l3 r3) ≤ 31 ∧
            min4 (nkey q0 a0 b0 0 t l0 r0) (nkey q1 a1 b1 1 t l1 r1)
              (nkey q2 a2 b2 2 t l2 r2) (nkey q3 a3 b3 3 t l3 r3) % 4 = 2
          then r2 - 1 else r2)
        (if min4 (nkey q0 a0 b0 0 t l0 r0) (nkey q1 a1 b1 1 t l1 r1)
              (nkey q2 a2 b2 2 t l2 r2) (nkey q3 a3 b3 3 t l3 r3) ≤ 31 ∧
            min4 (nkey q0 a0 b0 0 t l0 r0) (nkey q1 a1 b1 1 t l1 r1)
              (nkey q2 a2 b2 2 t l2 r2) (nkey q3 a3 b3 3 t l3 r3) % 4 = 3
          then r3 - 1 else r3) := by
  unfold frun fselA fselB ffin
  simp only [brec_ble, brec_beq]
  simp only [show ∀ m n : Nat, Nat.mod m n = m % n from fun _ _ => rfl]
  have e0 : (if 1 ≤ r0 then (if q0 ≤ t - l0 then 4 * b0 else 4 * a0) else 32) =
      nkey q0 a0 b0 0 t l0 r0 := by
    unfold nkey nprio
    split_ifs <;> omega
  have e1 : (if 1 ≤ r1 then (if q1 ≤ t - l1 then 4 * b1 + 1 else 4 * a1 + 1) else 33) =
      nkey q1 a1 b1 1 t l1 r1 := by
    unfold nkey nprio
    split_ifs <;> omega
  have e2 : (if 1 ≤ r2 then (if q2 ≤ t - l2 then 4 * b2 + 2 else 4 * a2 + 2) else 34) =
      nkey q2 a2 b2 2 t l2 r2 := by
    unfold nkey nprio
    split_ifs <;> omega
  have e3 : (if 1 ≤ r3 then (if q3 ≤ t - l3 then 4 * b3 + 3 else 4 * a3 + 3) else 35) =
      nkey q3 a3 b3 3 t l3 r3 := by
    unfold nkey nprio
    split_ifs <;> omega
  rw [e0, e1, e2, e3]
  have em : (if (if nkey q0 a0 b0 0 t l0 r0 ≤ nkey q1 a1 b1 1 t l1 r1
        then nkey q0 a0 b0 0 t l0 r0 else nkey q1 a1 b1 1 t l1 r1) ≤
          (if nkey q2 a2 b2 2 t l2 r2 ≤ nkey q3 a3 b3 3 t l3 r3
        then nkey q2 a2 b2 2 t l2 r2 else nkey q3 a3 b3 3 t l3 r3)
      then (if nkey q0 a0 b0 0 t l0 r0 ≤ nkey q1 a1 b1 1 t l1 r1
        then nkey q0 a0 b0 0 t l0 r0 else nkey q1 a1 b1 1 t l1 r1)
      else (if nkey q2 a2 b2 2 t l2 r2 ≤ nkey q3 a3 b3 3 t l3 r3
        then nkey q2 a2 b2 2 t l2 r2 else nkey q3 a3 b3 3 t l3 r3)) =
      min4 (nkey q0 a0 b0 0 t l0 r0) (nkey q1 a1 b1 1 t l1 r1)
        (nkey q2 a2 b2 2 t l2 r2) (nkey q3 a3 b3 3 t l3 r3) := by
    simp [min4, Nat.min_def]
  rw [em]
  by_cases hm : min4 (nkey q0 a0 b0 0 t l0 r0) (nkey q1 a1 b1 1 t l1 r1)
      (nkey q2 a2 b2 2 t l2 r2) (nkey q3 a3 b3 3 t l3 r3) ≤ 31
  · rw [if_pos hm]
    by_cases h0 : min4 (nkey q0 a0 b0 0 t l0 r0) (nkey q1 a1 b1 1 t l1 r1)
        (nkey q2 a2 b2 2 t l2 r2) (nkey q3 a3 b3 3 t l3 r3) % 4 = 0
    · rw [if_pos h0]
      simp [hm, h0]
    · rw [if_neg h0]
      by_cases h1 : min4 (nkey q0 a0 b0 0 t l0 r0) (nkey q1 a1 b1 1 t l1 r1)
          (nkey q2 a2 b2 2 t l2 r2) (nkey q3 a3 b3 3 t l3 r3) % 4 = 1
      · rw [if_pos h1]
        simp [hm, h0, h1]
      · rw [if_neg h1]
        by_cases h2 : min4 (nkey q0 a0 b0 0 t l0 r0) (nkey q1 a1 b1 1 t l1 r1)
            (nkey q2 a2 b2 2 t l2 r2) (nkey q3 a3 b3 3 t l3 r3) % 4 = 2
        · rw [if_pos h2]
          simp [hm, h0, h1, h2]
        · rw [if_neg h2]
          have h3 : min4 (nkey q0 a0 b0 0 t l0 r0) (nkey q1 a1 b1 1 t l1 r1)
              (nkey q2 a2 b2 2 t l2 r2) (nkey q3 a3 b3 3 t l3 r3) % 4 = 3 := by omega
          simp [hm, h0, h1, h2, h3]
  · rw [if_neg hm]
    simp [hm]
lemma ftick_miss0 (w0 w1 w2 w3 p0 p1 p2 p3 q0 q1 q2 q3 ka0 ka1 ka2 ka3 kb0 kb1 kb2 kb3 : Nat) (k : FK)
    (t l0 l1 l2 l3 r0 r1 r2 r3 : Nat) (h : l0 + p0 ≤ t ∧ 0 < r0) :
    ftick w0 w1 w2 w3 p0 p1 p2 p3 q0 q1 q2 q3 ka0 ka1 ka2 ka3 kb0 kb1 kb2 kb3 k t l0 l1 l2 l3 r0 r1 r2 r3 = .inl 0 := by
  unfold ftick
  simp only [brec_ble]
  rw [if_pos h.1, if_pos (show 1 ≤ r0 from h.2)]

lemma ftick_miss1 (w0 w1 w2 w3 p0 p1 p2 p3 q0 q1 q2 q3 ka0 ka1 ka2 ka3 kb0 kb1 kb2 kb3 : Nat) (k : FK)
    (t l0 l1 l2 l3 r0 r1 r2 r3 : Nat)
    (h0 : ¬(l0 + p0 ≤ t ∧ 0 < r0)) (h : l1 + p1 ≤ t ∧ 0 < r1) :
    ftick w0 w1 w2 w3 p0 p1 p2 p3 q0 q1 q2 q3 ka0 ka1 ka2 ka3 kb0 kb1 kb2 kb3 k t l0 l1 l2 l3 r0 r1 r2 r3 = .inl 1 := by
  unfold ftick ftick1
  simp only [brec_ble]
  by_cases hd0 : l0 + p0 ≤ t
  · rw [if_pos hd0, if_neg (show ¬1 ≤ r0 from fun hr => h0 ⟨hd0, hr⟩),
      if_pos h.1, if_pos (show 1 ≤ r1 from h.2)]
  · rw [if_neg hd0, if_pos h.1, if_pos (show 1 ≤ r1 from h.2)]

lemma ftick_miss2 (w0 w1 w2 w3 p0 p1 p2 p3 q0 q1 q2 q3 ka0 ka1 ka2 ka3 kb0 kb1 kb2 kb3 : Nat) (k : FK)
    (t l0 l1 l2 l3 r0 r1 r2 r3 : Nat)
    (h0 : ¬(l0 + p0 ≤ t ∧ 0 < r0)) (h1 : ¬(l1 + p1 ≤ t ∧ 0 < r1))
    (h : l2 + p2 ≤ t ∧ 0 < r2) :
    ftick w0 w1 w2 w3 p0 p1 p2 p3 q0 q1 q2 q3 ka0 ka1 ka2 ka3 kb0 kb1 kb2 kb3 k t l0 l1 l2 l3 r0 r1 r2 r3 = .inl 2 := by
  unfold ftick ftick1 ftick2
  simp only [brec_ble]
  by_cases hd0 : l0 + p0 ≤ t <;> by_cases hd1 : l1 + p1 ≤ t
  · rw [if_pos hd0, if_neg (show ¬1 ≤ r0 from fun hr => h0 ⟨hd0, hr⟩),
      if_pos hd1, if_neg (show ¬1 ≤ r1 from fun hr => h1 ⟨hd1, hr⟩),
      if_pos h.1, if_pos (show 1 ≤ r2 from h.2)]
  · rw [if_pos hd0, if_neg (show ¬1 ≤ r0 from fun hr => h0 ⟨hd0, hr⟩),
      if_neg hd1, if_pos h.1, if_pos (show 1 ≤ r2 from h.2)]
  · rw [if_neg hd0, if_pos hd1, if_neg (show ¬1 ≤ r1 from fun hr => h1 ⟨hd1, hr⟩),
      if_pos h.1, if_pos (show 1 ≤ r2 from h.2)]
  · rw [if_neg hd0, if_neg hd1, if_pos h.1, if_pos (show 1 ≤ r2 from h.2)]

lemma ftick_miss3 (w0 w1 w2 w3 p0 p1 p2 p3 q0 q1 q2 q3 ka0 ka1 ka2 ka3 kb0 kb1 kb2 kb3 : Nat) (k : FK)
    (t l0 l1 l2 l3 r0 r1 r2 r3 : Nat)
    (h0 : ¬(l0 + p0 ≤ t ∧ 0 < r0)) (h1 : ¬(l1 + p1 ≤ t ∧ 0 < r1))
    (h2 : ¬(l2 + p2 ≤ t ∧ 0 < r2)) (h : l3 + p3 ≤ t ∧ 0 < r3) :
    ftick w0 w1 w2 w3 p0 p1 p2 p3 q0 q1 q2 q3 ka0 ka1 ka2 ka3 kb0 kb1 kb2 kb3 k t l0 l1 l2 l3 r0 r1 r2 r3 = .inl 3 := by
  unfold ftick ftick1 ftick2 ftick3
  simp only [brec_ble]
  by_cases hd0 : l0 + p0 ≤ t <;> by_cases hd1 : l1 + p1 ≤ t <;> by_cases hd2 : l2 + p2 ≤ t
  · rw [if_pos hd0,
      if_neg (show ¬1 ≤ r0 from fun hr => h0 ⟨hd0, hr⟩),
      if_pos hd1,
      if_neg (show ¬1 ≤ r1 from fun hr => h1 ⟨hd1, hr⟩),
      if_pos hd2,
      if_neg (show ¬1 ≤ r2 from fun hr => h2 ⟨hd2, hr⟩),
      if_pos h.1,
      if_pos (show 1 ≤ r3 from h.2)]
  · rw [if_pos hd0,
      if_neg (show ¬1 ≤ r0 from fun hr => h0 ⟨hd0, hr⟩),
      if_pos hd1,
      if_neg (show ¬1 ≤ r1 from fun hr => h1 ⟨hd1, hr⟩),
      if_neg hd2,
      if_pos h.1,
      if_pos (show 1 ≤ r3 from h.2)]
  · rw [if_pos hd0,
      if_neg (show ¬1 ≤ r0 from fun hr => h0 ⟨hd0, hr⟩),
      if_neg hd1,
      if_pos hd2,
      if_neg (show ¬1 ≤ r2 from fun hr => h2 ⟨hd2, hr⟩),
      if_pos h.1,
      if_pos (show 1 ≤ r3 from h.2)]
  · rw [if_pos hd0,
      if_neg (show ¬1 ≤ r0 from fun hr => h0 ⟨hd0, hr⟩),
      if_neg hd1,
      if_neg hd2,
      if_pos h.1,
      if_pos (show 1 ≤ r3 from h.2)]
  · rw [if_neg hd0,
      if_pos hd1,
      if_neg (show ¬1 ≤ r1 from fun hr => h1 ⟨hd1, hr⟩),
      if_pos hd2,
      if_neg (show ¬1 ≤ r2 from fun hr => h2 ⟨hd2, hr⟩),
      if_pos h.1,
      if_pos (show 1 ≤ r3 from h.2)]
  · rw [if_neg hd0,
      if_pos hd1,
      if_neg (show ¬1 ≤ r1 from fun hr => h1 ⟨hd1, hr⟩),
      if_neg hd2,
      if_pos h.1,
      if_pos (show 1 ≤ r3 from h.2)]
  · rw [if_neg hd0,
      if_neg hd1,
      if_pos hd2,
      if_neg (show ¬1 ≤ r2 from fun hr => h2 ⟨hd2, hr⟩),
      if_pos h.1,
      if_pos (show 1 ≤ r3 from h.2)]
  · rw [if_neg hd0,
      if_neg hd1,
      if_neg hd2,
      if_pos h.1,
      if_pos (show 1 ≤ r3 from h.2)]

lemma ftick_nomiss (w0 w1 w2 w3 p0 p1 p2 p3 q0 q1 q2 q3 ka0 ka1 ka2 ka3 kb0 kb1 kb2 kb3 : Nat) (k : FK)
    (t l0 l1 l2 l3 r0 r1 r2 r3 : Nat)
    (h0 : ¬(l0 + p0 ≤ t ∧ 0 < r0)) (h1 : ¬(l1 + p1 ≤ t ∧ 0 < r1))
    (h2 : ¬(l2 + p2 ≤ t ∧ 0 < r2)) (h3 : ¬(l3 + p3 ≤ t ∧ 0 < r3)) :
    ftick w0 w1 w2 w3 p0 p1 p2 p3 q0 q1 q2 q3 ka0 ka1 ka2 ka3 kb0 kb1 kb2 kb3 k t l0 l1 l2 l3 r0 r1 r2 r3 =
      frun q0 q1 q2 q3 ka0 ka1 ka2 ka3 kb0 kb1 kb2 kb3 k t
        (if l0 + p0 ≤ t then t else l0) (if l1 + p1 ≤ t then t else l1)
        (if l2 + p2 ≤ t then t else l2) (if l3 + p3 ≤ t then t else l3)
        (if l0 + p0 ≤ t then w0 else r0) (if l1 + p1 ≤ t then w1 else r1)
        (if l2 + p2 ≤ t then w2 else r2) (if l3 + p3 ≤ t then w3 else r3) := by
  unfold ftick ftick1 ftick2 ftick3
  simp only [brec_ble]
  by_cases hd0 : l0 + p0 ≤ t <;> by_cases hd1 : l1 + p1 ≤ t <;>
    by_cases hd2 : l2 + p2 ≤ t <;> by_cases hd3 : l3 + p3 ≤ t
  · rw [if_pos hd0,
      if_neg (show ¬1 ≤ r0 from fun hr => h0 ⟨hd0, hr⟩),
      if_pos hd1,
      if_neg (show ¬1 ≤ r1 from fun hr => h1 ⟨hd1, hr⟩),
      if_pos hd2,
      if_neg (show ¬1 ≤ r2 from fun hr => h2 ⟨hd2, hr⟩),
      if_pos hd3,
      if_neg (show ¬1 ≤ r3 from fun hr => h3 ⟨hd3, hr⟩)]
    simp [hd0, hd1, hd2, hd3]
  · rw [if_pos hd0,
      if_neg (show ¬1 ≤ r0 from fun hr => h0 ⟨hd0, hr⟩),
      if_pos hd1,
      if_neg (show ¬1 ≤ r1 from fun hr => h1 ⟨hd1, hr⟩),
      if_pos hd2,
      if_neg (show ¬1 ≤ r2 from fun hr => h2 ⟨hd2, hr⟩),
      if_neg hd3]
    simp [hd0, hd1, hd2, hd3]
  · rw [if_pos hd0,
      if_neg (show ¬1 ≤ r0 from fun hr => h0 ⟨hd0, hr⟩),
      if_pos hd1,
      if_neg (show ¬1 ≤ r1 from fun hr => h1 ⟨hd1, hr⟩),
      if_neg hd2,
      if_pos hd3,
      if_neg (show ¬1 ≤ r3 from fun hr => h3 ⟨hd3, hr⟩)]
    simp [hd0, hd1, hd2, hd3]
  · rw [if_pos hd0,
      if_neg (show ¬1 ≤ r0 from fun hr => h0 ⟨hd0, hr⟩),
      if_pos hd1,
      if_neg (show ¬1 ≤ r1 from fun hr => h1 ⟨hd1, hr⟩),
      if_neg hd2,
      if_neg hd3]
    simp [hd0, hd1, hd2, hd3]
  · rw [if_pos hd0,
      if_neg (show ¬1 ≤ r0 from fun hr => h0 ⟨hd0, hr⟩),
      if_neg hd1,
      if_pos hd2,
      if_neg (show ¬1 ≤ r2 from fun hr => h2 ⟨hd2, hr⟩),
      if_pos hd3,
      if_neg (show ¬1 ≤ r3 from fun hr => h3 ⟨hd3, hr⟩)]
    simp [hd0, hd1, hd2, hd3]
  · rw [if_pos hd0,
      if_neg (show ¬1 ≤ r0 from fun hr => h0 ⟨hd0, hr⟩),
      if_neg hd1,
      if_pos hd2,
      if_neg (show ¬1 ≤ r2 from fun hr => h2 ⟨hd2, hr⟩),
      if_neg hd3]
    simp [hd0, hd1, hd2, hd3]
  · rw [if_pos hd0,
      if_neg (show ¬1 ≤ r0 from fun hr => h0 ⟨hd0, hr⟩),
      if_neg hd1,
      if_neg hd2,
      if_pos hd3,
      if_neg (show ¬1 ≤ r3 from fun hr => h3 ⟨hd3, hr⟩)]
    simp [hd0, hd1, hd2, hd3]
  · rw [if_pos hd0,
      if_neg (show ¬1 ≤ r0 from fun hr => h0 ⟨hd0, hr⟩),
      if_neg hd1,
      if_neg hd2,
      if_neg hd3]
    simp [hd0, hd1, hd2, hd3]
  · rw [if_neg hd0,
      if_pos hd1,
      if_neg (show ¬1 ≤ r1 from fun hr => h1 ⟨hd1, hr⟩),
      if_pos hd2,
      if_neg (show ¬1 ≤ r2 from fun hr => h2 ⟨hd2, hr⟩),
      if_pos hd3,
      if_neg (show ¬1 ≤ r3 from fun hr => h3 ⟨hd3, hr⟩)]
    simp [hd0, hd1, hd2, hd3]
  · rw [if_neg hd0,
      if_pos hd1,
      if_neg (show ¬1 ≤ r1 from fun hr => h1 ⟨hd1, hr⟩),
      if_pos hd2,
      if_neg (show ¬1 ≤ r2 from fun hr => h2 ⟨hd2, hr⟩),
      if_neg hd3]
    simp [hd0, hd1, hd2, hd3]
  · rw [if_neg hd0,
      if_pos hd1,
      if_neg (show ¬1 ≤ r1 from fun hr => h1 ⟨hd1, hr⟩),
      if_neg hd2,
      if_pos hd3,
      if_neg (show ¬1 ≤ r3 from fun hr => h3 ⟨hd3, hr⟩)]
    simp [hd0, hd1, hd2, hd3]
  · rw [if_neg hd0,
      if_pos hd1,
      if_neg (show ¬1 ≤ r1 from fun hr => h1 ⟨hd1, hr⟩),
      if_neg hd2,
      if_neg hd3]
    simp [hd0, hd1, hd2, hd3]
  · rw [if_neg hd0,
      if_neg hd1,
      if_pos hd2,
      if_neg (show ¬1 ≤ r2 from fun hr => h2 ⟨hd2, hr⟩),
      if_pos hd3,
      if_neg (show ¬1 ≤ r3 from fun hr => h3 ⟨hd3, hr⟩)]
    simp [hd0, hd1, hd2, hd3]
  · rw [if_neg hd0,
      if_neg hd1,
      if_pos hd2,
      if_neg (show ¬1 ≤ r2 from fun hr => h2 ⟨hd2, hr⟩),
      if_neg hd3]
    simp [hd0, hd1, hd2, hd3]
  · rw [if_neg hd0,
      if_neg hd1,
      if_neg hd2,
      if_pos hd3,
      if_neg (show ¬1 ≤ r3 from fun hr => h3 ⟨hd3, hr⟩)]
    simp [hd0, hd1, hd2, hd3]
  · rw [if_neg hd0,
      if_neg hd1,
      if_neg hd2,
      if_neg hd3]
    simp [hd0, hd1, hd2, hd3]

/-- comment: iterating the release-and-execute step of `simulate_sas` from a
given state and time, front first; the loop of `simulate_sas` passes through
exactly these states while no deadline is missed. -/
def sim_run : taskset_t → Int → Nat → taskset_t
  | ts, _, 0 => ts
  | ts, t, n + 1 => sim_run (sim_tick ts t) (t + 1) n

lemma sim_loop_succ (hp : Int) (fuel : Nat) (ts : taskset_t) (t : Int) :
    sim_loop hp (fuel + 1) ts t =
      if t ≤ hp then
        (match first_miss ts t with
         | some k => some k
         | none => sim_loop hp fuel (sim_tick ts t) (t + 1))
      else none := rfl

lemma sim_loop_none_of_gt (hp t : Int) (h : hp < t) (fuel : Nat) (ts : taskset_t) :
    sim_loop hp fuel ts t = none := by
  cases fuel with
  | zero => rfl
  | succ fuel =>
    rw [sim_loop_succ, if_neg (by omega)]

lemma floop_succ (w0 w1 w2 w3 p0 p1 p2 p3 q0 q1 q2 q3 ka0 ka1 ka2 ka3 kb0 kb1 kb2 kb3
    fuel t l0 l1 l2 l3 r0 r1 r2 r3 : Nat) :
    floop w0 w1 w2 w3 p0 p1 p2 p3 q0 q1 q2 q3 ka0 ka1 ka2 ka3 kb0 kb1 kb2 kb3
        (fuel + 1) t l0 l1 l2 l3 r0 r1 r2 r3 =
      ftick w0 w1 w2 w3 p0 p1 p2 p3 q0 q1 q2 q3 ka0 ka1 ka2 ka3 kb0 kb1 kb2 kb3
        (floop w0 w1 w2 w3 p0 p1 p2 p3 q0 q1 q2 q3 ka0 ka1 ka2 ka3 kb0 kb1 kb2 kb3 fuel)
        t l0 l1 l2 l3 r0 r1 r2 r3 := rfl

/-- comment: soundness of the fast machine: over any window that stays inside
the hyper period, it returns the first missing task exactly when the loop of
`simulate_sas` does, and otherwise traverses exactly the same states. -/
lemma floop_sound (hp : Int)
    (w0 w1 w2 w3 p0 p1 p2 p3 q0 q1 q2 q3 a0 a1 a2 a3 b0 b1 b2 b3 : Nat)
    (ha0 : a0 ≤ 7) (ha1 : a1 ≤ 7) (ha2 : a2 ≤ 7) (ha3 : a3 ≤ 7)
    (hb0 : b0 ≤ 7) (hb1 : b1 ≤ 7) (hb2 : b2 ≤ 7) (hb3 : b3 ≤ 7) :
    ∀ (fuel t l0 l1 l2 l3 r0 r1 r2 r3 : Nat),
      l0 ≤ t → l1 ≤ t → l2 ≤ t → l3 ≤ t →
      ((t : Int) + (fuel : Int) ≤ hp + 1) →
      (match floop w0 w1 w2 w3 p0 p1 p2 p3 q0 q1 q2 q3
          (4 * a0) (4 * a1 + 1) (4 * a2 + 2) (4 * a3 + 3)
          (4 * b0) (4 * b1 + 1) (4 * b2 + 2) (4 * b3 + 3)
          fuel t l0 l1 l2 l3 r0 r1 r2 r3 with
       | .inl j =>
           sim_loop hp fuel (fgamma hp w0 w1 w2 w3 p0 p1 p2 p3 q0 q1 q2 q3 a0 a1 a2 a3 b0 b1 b2 b3 l0 l1 l2 l3 r0 r1 r2 r3) ↑t = some j
       | .inr s =>
           sim_loop hp fuel (fgamma hp w0 w1 w2 w3 p0 p1 p2 p3 q0 q1 q2 q3 a0 a1 a2 a3 b0 b1 b2 b3 l0 l1 l2 l3 r0 r1 r2 r3) ↑t = none ∧
           sim_run (fgamma hp w0 w1 w2 w3 p0 p1 p2 p3 q0 q1 q2 q3 a0 a1 a2 a3 b0 b1 b2 b3 l0 l1 l2 l3 r0 r1 r2 r3) ↑t fuel =
             fgamma hp w0 w1 w2 w3 p0 p1 p2 p3 q0 q1 q2 q3 a0 a1 a2 a3 b0 b1 b2 b3 s.s0 s.s1 s.s2 s.s3 s.s4 s.s5 s.s6 s.s7 ∧
           s.s0 ≤ t + fuel ∧ s.s1 ≤ t + fuel ∧ s.s2 ≤ t + fuel ∧ s.s3 ≤ t + fuel) := by
  intro fuel
  induction fuel with
  | zero =>
    intro t l0 l1 l2 l3 r0 r1 r2 r3 hl0 hl1 hl2 hl3 hbound
    exact ⟨rfl, rfl, show l0 ≤ t + 0 by omega, show l1 ≤ t + 0 by omega,
      show l2 ≤ t + 0 by omega, show l3 ≤ t + 0 by omega⟩
  | succ fuel ih =>
    intro t l0 l1 l2 l3 r0 r1 r2 r3 hl0 hl1 hl2 hl3 hbound
    have htle : (t : Int) ≤ hp := by
      push_cast at hbound
      omega
    rw [floop_succ]
    by_cases h0 : l0 + p0 ≤ t ∧ 0 < r0
    · rw [ftick_miss0 _ _ _ _ _ _ _ _ _ _ _ _ _ _ _ _ _ _ _ _ _ _ _ _ _ _ _ _ _ _ h0]
      show sim_loop hp (fuel + 1) _ ↑t = some 0
      rw [sim_loop_succ, if_pos htle, first_miss_fgamma, if_pos h0]
    · by_cases h1 : l1 + p1 ≤ t ∧ 0 < r1
      · rw [ftick_miss1 _ _ _ _ _ _ _ _ _ _ _ _ _ _ _ _ _ _ _ _ _ _ _ _ _ _ _ _ _ _ h0 h1]
        show sim_loop hp (fuel + 1) _ ↑t = some 1
        rw [sim_loop_succ, if_pos htle, first_miss_fgamma, if_neg h0, if_pos h1]
      · by_cases h2 : l2 + p2 ≤ t ∧ 0 < r2
        · rw [ftick_miss2 _ _ _ _ _ _ _ _ _ _ _ _ _ _ _ _ _ _ _ _ _ _ _ _ _ _ _ _ _ _ h0 h1 h2]
          show sim_loop hp (fuel + 1) _ ↑t = some 2
          rw [sim_loop_succ, if_pos htle, first_miss_fgamma, if_neg h0, if_neg h1, if_pos h2]
        · by_cases h3 : l3 + p3 ≤ t ∧ 0 < r3
          · rw [ftick_miss3 _ _ _ _ _ _ _ _ _ _ _ _ _ _ _ _ _ _ _ _ _ _ _ _ _ _ _ _ _ _ h0 h1 h2 h3]
            show sim_loop hp (fuel + 1) _ ↑t = some 3
            rw [sim_loop_succ, if_pos htle, first_miss_fgamma, if_neg h0, if_neg h1, if_neg h2,
              if_pos h3]
          · have hfm : first_miss (fgamma hp w0 w1 w2 w3 p0 p1 p2 p3 q0 q1 q2 q3 a0 a1 a2 a3 b0 b1 b2 b3 l0 l1 l2 l3 r0 r1 r2 r3) ↑t = none := by
              rw [first_miss_fgamma, if_neg h0, if_neg h1, if_neg h2, if_neg h3]
            rw [ftick_nomiss _ _ _ _ _ _ _ _ _ _ _ _ _ _ _ _ _ _ _ _ _ _ _ _ _ _ _ _ _ _
              h0 h1 h2 h3]
            rw [frun_eval]
            generalize hL0 : (if l0 + p0 ≤ t then t else l0) = L0
            generalize hL1 : (if l1 + p1 ≤ t then t else l1) = L1
            generalize hL2 : (if l2 + p2 ≤ t then t else l2) = L2
            generalize hL3 : (if l3 + p3 ≤ t then t else l3) = L3
            generalize hW0 : (if l0 + p0 ≤ t then w0 else r0) = W0
            generalize hW1 : (if l1 + p1 ≤ t then w1 else r1) = W1
            generalize hW2 : (if l2 + p2 ≤ t then w2 else r2) = W2
            generalize hW3 : (if l3 + p3 ≤ t then w3 else r3) = W3
            generalize hR0 : (if min4 (nkey q0 a0 b0 0 t L0 W0) (nkey q1 a1 b1 1 t L1 W1)
                (nkey q2 a2 b2 2 t L2 W2) (nkey q3 a3 b3 3 t L3 W3) ≤ 31 ∧
                min4 (nkey q0 a0 b0 0 t L0 W0) (nkey q1 a1 b1 1 t L1 W1)
                (nkey q2 a2 b2 2 t L2 W2) (nkey q3 a3 b3 3 t L3 W3) % 4 = 0
              then W0 - 1 else W0) = R0
            generalize hR1 : (if min4 (nkey q0 a0 b0 0 t L0 W0) (nkey q1 a1 b1 1 t L1 W1)
                (nkey q2 a2 b2 2 t L2 W2) (nkey q3 a3 b3 3 t L3 W3) ≤ 31 ∧
                min4 (nkey q0 a0 b0 0 t L0 W0) (nkey q1 a1 b1 1 t L1 W1)
                (nkey q2 a2 b2 2 t L2 W2) (nkey q3 a3 b3 3 t L3 W3) % 4 = 1
              then W1 - 1 else W1) = R1
            generalize hR2 : (if min4 (nkey q0 a0 b0 0 t L0 W0) (nkey q1 a1 b1 1 t L1 W1)
                (nkey q2 a2 b2 2 t L2 W2) (nkey q3 a3 b3 3 t L3 W3) ≤ 31 ∧
                min4 (nkey q0 a0 b0 0 t L0 W0) (nkey q1 a1 b1 1 t L1 W1)
                (nkey q2 a2 b2 2 t L2 W2) (nkey q3 a3 b3 3 t L3 W3) % 4 = 2
              then W2 - 1 else W2) = R2
            generalize hR3 : (if min4 (nkey q0 a0 b0 0 t L0 W0) (nkey q1 a1 b1 1 t L1 W1)
                (nkey q2 a2 b2 2 t L2 W2) (nkey q3 a3 b3 3 t L3 W3) ≤ 31 ∧
                min4 (nkey q0 a0 b0 0 t L0 W0) (nkey q1 a1 b1 1 t L1 W1)
                (nkey q2 a2 b2 2 t L2 W2) (nkey q3 a3 b3 3 t L3 W3) % 4 = 3
              then W3 - 1 else W3) = R3
            have hLb0 : L0 ≤ t + 1 := by rw [← hL0]; split_ifs <;> omega
            have hLb1 : L1 ≤ t + 1 := by rw [← hL1]; split_ifs <;> omega
            have hLb2 : L2 ≤ t + 1 := by rw [← hL2]; split_ifs <;> omega
            have hLb3 : L3 ≤ t + 1 := by rw [← hL3]; split_ifs <;> omega
            have hsim : sim_tick (fgamma hp w0 w1 w2 w3 p0 p1 p2 p3 q0 q1 q2 q3 a0 a1 a2 a3 b0 b1 b2 b3 l0 l1 l2 l3 r0 r1 r2 r3) ↑t =
                fgamma hp w0 w1 w2 w3 p0 p1 p2 p3 q0 q1 q2 q3 a0 a1 a2 a3 b0 b1 b2 b3 L0 L1 L2 L3 R0 R1 R2 R3 := by
              unfold sim_tick
              rw [release_all_fgamma, hL0, hL1, hL2, hL3, hW0, hW1, hW2, hW3]
              rw [execute_fgamma hp w0 w1 w2 w3 p0 p1 p2 p3 q0 q1 q2 q3
                a0 a1 a2 a3 b0 b1 b2 b3 t L0 L1 L2 L3 W0 W1 W2 W3
                (by rw [← hL0]; split_ifs <;> omega) (by rw [← hL1]; split_ifs <;> omega)
                (by rw [← hL2]; split_ifs <;> omega) (by rw [← hL3]; split_ifs <;> omega)
                ha0 ha1 ha2 ha3 hb0 hb1 hb2 hb3]
              rw [hR0, hR1, hR2, hR3]
            have hih := ih (t + 1) L0 L1 L2 L3 R0 R1 R2 R3 hLb0 hLb1 hLb2 hLb3
              (by push_cast at hbound ⊢; omega)
            cases hF : floop w0 w1 w2 w3 p0 p1 p2 p3 q0 q1 q2 q3
                (4 * a0) (4 * a1 + 1) (4 * a2 + 2) (4 * a3 + 3)
                (4 * b0) (4 * b1 + 1) (4 * b2 + 2) (4 * b3 + 3)
                fuel (t + 1) L0 L1 L2 L3 R0 R1 R2 R3 with
            | inl j =>
              rw [hF] at hih
              show sim_loop hp (fuel + 1) _ ↑t = some j
              rw [sim_loop_succ, if_pos htle, hfm, hsim]
              rw [show ((t : Int) + 1) = ((t + 1 : Nat) : Int) by push_cast; ring]
              exact hih
            | inr s =>
              rw [hF] at hih
              obtain ⟨hihA, hihB, hq0, hq1, hq2, hq3⟩ := hih
              refine ⟨?_, ?_, by omega, by omega, by omega, by omega⟩
              · show sim_loop hp (fuel + 1) _ ↑t = none
                rw [sim_loop_succ, if_pos htle, hfm, hsim]
                rw [show ((t : Int) + 1) = ((t + 1 : Nat) : Int) by push_cast; ring]
                exact hihA
              · show sim_run _ ↑t (fuel + 1) = _
                rw [show sim_run (fgamma hp w0 w1 w2 w3 p0 p1 p2 p3 q0 q1 q2 q3 a0 a1 a2 a3 b0 b1 b2 b3 l0 l1 l2 l3 r0 r1 r2 r3) ↑t (fuel + 1) =
                  sim_run (sim_tick (fgamma hp w0 w1 w2 w3 p0 p1 p2 p3 q0 q1 q2 q3 a0 a1 a2 a3 b0 b1 b2 b3 l0 l1 l2 l3 r0 r1 r2 r3) ↑t) (↑t + 1) fuel from rfl]
                rw [hsim]
                rw [show ((t : Int) + 1) = ((t + 1 : Nat) : Int) by push_cast; ring]
                exact hihB

lemma sim_loop_append (hp : Int) :
    ∀ (m n : Nat) (ts : taskset_t) (t : Int),
      sim_loop hp m ts t = none →
      sim_loop hp (m + n) ts t = sim_loop hp n (sim_run ts t m) (t + m) := by
  intro m
  induction m with
  | zero =>
    intro n ts t _
    simp only [Nat.zero_add, Nat.cast_zero, add_zero]
    rfl
  | succ m ih =>
    intro n ts t hnone
    rw [sim_loop_succ] at hnone
    by_cases ht : t ≤ hp
    · rw [if_pos ht] at hnone
      cases hfm : first_miss ts t with
      | some k =>
        rw [hfm] at hnone
        exact absurd hnone (by simp)
      | none =>
        rw [hfm] at hnone
        have hrec := ih n (sim_tick ts t) (t + 1) hnone
        have e1 : sim_run ts t (m + 1) = sim_run (sim_tick ts t) (t + 1) m := rfl
        have e2 : t + ((m + 1 : Nat) : Int) = (t + 1) + (m : Int) := by
          push_cast
          ring
        rw [show m + 1 + n = (m + n) + 1 from by omega, sim_loop_succ, if_pos ht, hfm,
          hrec, e1, e2]
    · rw [sim_loop_none_of_gt hp t (by omega),
        sim_loop_none_of_gt hp (t + ((m + 1 : Nat) : Int)) (by push_cast; omega)]

lemma first_miss_reset (ts : taskset_t) (t : Int) :
    first_miss (reset_simulation_state ts) t = none := by
  unfold first_miss reset_simulation_state has_missed_deadline is_active
  norm_num

/-- comment: the task set built by `verify_counterexample_3`: wcets and
periods `(6,11), (6,20), (4,46), (5,74)` and the fixed RM+RM priorities
`(4,0), (5,1), (6,2), (7,3)`. The phase change points start as zero here:
`test_fdms_phase_change_points` overwrites them with the periods, and the
custom configuration check overwrites them with `5, 3, 25, 35`, so their
initial value (uninitialized in the C code) never matters. -/
def ce3_base : taskset_t :=
  { task0 := ⟨6, 11, 4, 0, 0, -1, -1⟩
    task1 := ⟨6, 20, 5, 1, 0, -1, -1⟩
    task2 := ⟨4, 46, 6, 2, 0, -1, -1⟩
    task3 := ⟨5, 74, 7, 3, 0, -1, -1⟩
    hyper_period := 0 }

/-- comment: `ts.hyper_period = hyper_period(&ts)` of `verify_counterexample_3`. -/
def ce3_ts : taskset_t := { ce3_base with hyper_period := hyper_period ce3_base }

lemma ce3_hp : ce3_ts.hyper_period = 187220 := by decide

/-- comment: `ce3_ts` with the given phase change points. -/
def ce3p (a b c d : Int) : taskset_t := set_pcps ce3_ts a b c d

lemma ce3_run_miss (c0 c1 c2 c3 : Int) (g0 g1 g2 g3 u0 u1 u2 u3 j : Nat)
    (h1 : sim_tick (reset_simulation_state (ce3p c0 c1 c2 c3)) 0 =
      fgamma 187220 6 6 4 5 11 20 46 74 g0 g1 g2 g3 4 5 6 7 0 1 2 3
        0 0 0 0 u0 u1 u2 u3)
    (h2 : floop 6 6 4 5 11 20 46 74 g0 g1 g2 g3 (4 * 4) (4 * 5 + 1) (4 * 6 + 2) (4 * 7 + 3)
      (4 * 0) (4 * 1 + 1) (4 * 2 + 2) (4 * 3 + 3)
      187220 1 0 0 0 0 u0 u1 u2 u3 = .inl j) :
    simulate_sas (ce3p c0 c1 c2 c3) = some j := by
  have hhp : (ce3p c0 c1 c2 c3).hyper_period = 187220 := ce3_hp
  unfold simulate_sas
  rw [hhp]
  rw [show (((187220 : Int)) + 1).toNat = 187220 + 1 from rfl]
  rw [sim_loop_succ, if_pos (by norm_num), first_miss_reset, h1]
  have hs := floop_sound 187220 6 6 4 5 11 20 46 74 g0 g1 g2 g3 4 5 6 7 0 1 2 3
    (by norm_num) (by norm_num) (by norm_num) (by norm_num)
    (by norm_num) (by norm_num) (by norm_num) (by norm_num)
    187220 1 0 0 0 0 u0 u1 u2 u3
    (by norm_num) (by norm_num) (by norm_num) (by norm_num) (by norm_num)
  rw [h2] at hs
  rw [show ((0 : Int) + 1) = ((1 : Nat) : Int) from by norm_num]
  exact hs
/-- comment: two-chunk variant of `ce3_run_miss` for the one FDMS iteration
whose deadline miss lies deep in the hyperperiod: the run is split at time
40001, the intermediate state being given by `h2` and the remainder of the
run, ending in a miss of task `j`, by `h3`. -/
lemma ce3_run_miss2 (c0 c1 c2 c3 : Int)
    (g0 g1 g2 g3 u0 u1 u2 u3 m0 m1 m2 m3 v0 v1 v2 v3 j : Nat)
    (h1 : sim_tick (reset_simulation_state (ce3p c0 c1 c2 c3)) 0 =
      fgamma 187220 6 6 4 5 11 20 46 74 g0 g1 g2 g3 4 5 6 7 0 1 2 3
        0 0 0 0 u0 u1 u2 u3)
    (h2 : floop 6 6 4 5 11 20 46 74 g0 g1 g2 g3 (4 * 4) (4 * 5 + 1) (4 * 6 + 2) (4 * 7 + 3)
      (4 * 0) (4 * 1 + 1) (4 * 2 + 2) (4 * 3 + 3)
      40000 1 0 0 0 0 u0 u1 u2 u3 = .inr ⟨m0, m1, m2, m3, v0, v1, v2, v3⟩)
    (h3 : floop 6 6 4 5 11 20 46 74 g0 g1 g2 g3 (4 * 4) (4 * 5 + 1) (4 * 6 + 2) (4 * 7 + 3)
      (4 * 0) (4 * 1 + 1) (4 * 2 + 2) (4 * 3 + 3)
      147220 40001 m0 m1 m2 m3 v0 v1 v2 v3 = .inl j) :
    simulate_sas (ce3p c0 c1 c2 c3) = some j := by
  have hhp : (ce3p c0 c1 c2 c3).hyper_period = 187220 := ce3_hp
  unfold simulate_sas
  rw [hhp]
  rw [show (((187220 : Int)) + 1).toNat = 187220 + 1 from rfl]
  rw [sim_loop_succ, if_pos (by norm_num), first_miss_reset, h1]
  rw [show ((0 : Int) + 1) = ((1 : Nat) : Int) from by norm_num]
  have hsA := floop_sound 187220 6 6 4 5 11 20 46 74 g0 g1 g2 g3 4 5 6 7 0 1 2 3
    (by norm_num) (by norm_num) (by norm_num) (by norm_num)
    (by norm_num) (by norm_num) (by norm_num) (by norm_num)
    40000 1 0 0 0 0 u0 u1 u2 u3
    (by norm_num) (by norm_num) (by norm_num) (by norm_num) (by norm_num)
  rw [h2] at hsA
  obtain ⟨hn, hrun, hq0, hq1, hq2, hq3⟩ := hsA
  have hm0 : m0 ≤ 40001 := hq0
  have hm1 : m1 ≤ 40001 := hq1
  have hm2 : m2 ≤ 40001 := hq2
  have hm3 : m3 ≤ 40001 := hq3
  rw [show (187220 : Nat) = 40000 + 147220 from rfl]
  rw [sim_loop_append 187220 40000 147220 _ _ hn]
  rw [hrun]
  rw [show ((1 : Nat) : Int) + ((40000 : Nat) : Int) = ((40001 : Nat) : Int) from by norm_num]
  have hsB := floop_sound 187220 6 6 4 5 11 20 46 74 g0 g1 g2 g3 4 5 6 7 0 1 2 3
    (by norm_num) (by norm_num) (by norm_num) (by norm_num)
    (by norm_num) (by norm_num) (by norm_num) (by norm_num)
    147220 40001 m0 m1 m2 m3 v0 v1 v2 v3
    hm0 hm1 hm2 hm3 (by norm_num)
  rw [h3] at hsB
  exact hsB

/-- comment: five-chunk driver showing that a whole hyperperiod of
`simulate_sas` passes without a deadline miss: the simulation is cut at
times 40001, 80001, 120001 and 160001, the intermediate states being
given by `h2`–`h5` and the final stretch by `h6`. -/
lemma ce3_run_none5 (c0 c1 c2 c3 : Int)
    (g0 g1 g2 g3 u0 u1 u2 u3 : Nat)
    (m0 m1 m2 m3 v0 v1 v2 v3 : Nat)
    (n0 n1 n2 n3 w0 w1 w2 w3 : Nat)
    (o0 o1 o2 o3 x0 x1 x2 x3 : Nat)
    (s0 s1 s2 s3 y0 y1 y2 y3 : Nat)
    (f0 f1 f2 f3 z0 z1 z2 z3 : Nat)
    (h1 : sim_tick (reset_simulation_state (ce3p c0 c1 c2 c3)) 0 =
      fgamma 187220 6 6 4 5 11 20 46 74 g0 g1 g2 g3 4 5 6 7 0 1 2 3
        0 0 0 0 u0 u1 u2 u3)
    (h2 : floop 6 6 4 5 11 20 46 74 g0 g1 g2 g3 (4 * 4) (4 * 5 + 1) (4 * 6 + 2) (4 * 7 + 3)
      (4 * 0) (4 * 1 + 1) (4 * 2 + 2) (4 * 3 + 3)
      40000 1 0 0 0 0 u0 u1 u2 u3 = .inr ⟨m0, m1, m2, m3, v0, v1, v2, v3⟩)
    (h3 : floop 6 6 4 5 11 20 46 74 g0 g1 g2 g3 (4 * 4) (4 * 5 + 1) (4 * 6 + 2) (4 * 7 + 3)
      (4 * 0) (4 * 1 + 1) (4 * 2 + 2) (4 * 3 + 3)
      40000 40001 m0 m1 m2 m3 v0 v1 v2 v3 = .inr ⟨n0, n1, n2, n3, w0, w1, w2, w3⟩)
    (h4 : floop 6 6 4 5 11 20 46 74 g0 g1 g2 g3 (4 * 4) (4 * 5 + 1) (4 * 6 + 2) (4 * 7 + 3)
      (4 * 0) (4 * 1 + 1) (4 * 2 + 2) (4 * 3 + 3)
      40000 80001 n0 n1 n2 n3 w0 w1 w2 w3 = .inr ⟨o0, o1, o2, o3, x0, x1, x2, x3⟩)
    (h5 : floop 6 6 4 5 11 20 46 74 g0 g1 g2 g3 (4 * 4) (4 * 5 + 1) (4 * 6 + 2) (4 * 7 + 3)
      (4 * 0) (4 * 1 + 1) (4 * 2 + 2) (4 * 3 + 3)
      40000 120001 o0 o1 o2 o3 x0 x1 x2 x3 = .inr ⟨s0, s1, s2, s3, y0, y1, y2, y3⟩)
    (h6 : floop 6 6 4 5 11 20 46 74 g0 g1 g2 g3 (4 * 4) (4 * 5 + 1) (4 * 6 + 2) (4 * 7 + 3)
      (4 * 0) (4 * 1 + 1) (4 * 2 + 2) (4 * 3 + 3)
      27220 160001 s0 s1 s2 s3 y0 y1 y2 y3 = .inr ⟨f0, f1, f2, f3, z0, z1, z2, z3⟩) :
    simulate_sas (ce3p c0 c1 c2 c3) = none := by
  have hhp : (ce3p c0 c1 c2 c3).hyper_period = 187220 := ce3_hp
  unfold simulate_sas
  rw [hhp]
  rw [show (((187220 : Int)) + 1).toNat = 187220 + 1 from rfl]
  rw [sim_loop_succ, if_pos (by norm_num), first_miss_reset, h1]
  rw [show ((0 : Int) + 1) = ((1 : Nat) : Int) from by norm_num]
  have hsA := floop_sound 187220 6 6 4 5 11 20 46 74 g0 g1 g2 g3 4 5 6 7 0 1 2 3
    (by norm_num) (by norm_num) (by norm_num) (by norm_num)
    (by norm_num) (by norm_num) (by norm_num) (by norm_num)
    40000 1 0 0 0 0 u0 u1 u2 u3
    (by norm_num) (by norm_num) (by norm_num) (by norm_num) (by norm_num)
  rw [h2] at hsA
  obtain ⟨hnA, hrunA, hqA0, hqA1, hqA2, hqA3⟩ := hsA
  have hmA0 : m0 ≤ 40001 := hqA0
  have hmA1 : m1 ≤ 40001 := hqA1
  have hmA2 : m2 ≤ 40001 := hqA2
  have hmA3 : m3 ≤ 40001 := hqA3
  rw [show (187220 : Nat) = 40000 + 147220 from rfl]
  rw [sim_loop_append 187220 40000 147220 _ _ hnA]
  rw [hrunA]
  rw [show ((1 : Nat) : Int) + ((40000 : Nat) : Int) = ((40001 : Nat) : Int) from by norm_num]
  have hsB := floop_sound 187220 6 6 4 5 11 20 46 74 g0 g1 g2 g3 4 5 6 7 0 1 2 3
    (by norm_num) (by norm_num) (by norm_num) (by norm_num)
    (by norm_num) (by norm_num) (by norm_num) (by norm_num)
    40000 40001 m0 m1 m2 m3 v0 v1 v2 v3
    hmA0 hmA1 hmA2 hmA3 (by norm_num)
  rw [h3] at hsB
  obtain ⟨hnB, hrunB, hqB0, hqB1, hqB2, hqB3⟩ := hsB
  have hmB0 : n0 ≤ 80001 := hqB0
  have hmB1 : n1 ≤ 80001 := hqB1
  have hmB2 : n2 ≤ 80001 := hqB2
  have hmB3 : n3 ≤ 80001 := hqB3
  rw [show (147220 : Nat) = 40000 + 107220 from rfl]
  rw [sim_loop_append 187220 40000 107220 _ _ hnB]
  rw [hrunB]
  rw [show ((40001 : Nat) : Int) + ((40000 : Nat) : Int) = ((80001 : Nat) : Int) from by norm_num]
  have hsC := floop_sound 187220 6 6 4 5 11 20 46 74 g0 g1 g2 g3 4 5 6 7 0 1 2 3
    (by norm_num) (by norm_num) (by norm_num) (by norm_num)
    (by norm_num) (by norm_num) (by norm_num) (by norm_num)
    40000 80001 n0 n1 n2 n3 w0 w1 w2 w3
    hmB0 hmB1 hmB2 hmB3 (by norm_num)
  rw [h4] at hsC
  obtain ⟨hnC, hrunC, hqC0, hqC1, hqC2, hqC3⟩ := hsC
  have hmC0 : o0 ≤ 120001 := hqC0
  have hmC1 : o1 ≤ 120001 := hqC1
  have hmC2 : o2 ≤ 120001 := hqC2
  have hmC3 : o3 ≤ 120001 := hqC3
  rw [show (107220 : Nat) = 40000 + 67220 from rfl]
  rw [sim_loop_append 187220 40000 67220 _ _ hnC]
  rw [hrunC]
  rw [show ((80001 : Nat) : Int) + ((40000 : Nat) : Int) = ((120001 : Nat) : Int) from by norm_num]
  have hsD := floop_sound 187220 6 6 4 5 11 20 46 74 g0 g1 g2 g3 4 5 6 7 0 1 2 3
    (by norm_num) (by norm_num) (by norm_num) (by norm_num)
    (by norm_num) (by norm_num) (by norm_num) (by norm_num)
    40000 120001 o0 o1 o2 o3 x0 x1 x2 x3
    hmC0 hmC1 hmC2 hmC3 (by norm_num)
  rw [h5] at hsD
  obtain ⟨hnD, hrunD, hqD0, hqD1, hqD2, hqD3⟩ := hsD
  have hmD0 : s0 ≤ 160001 := hqD0
  have hmD1 : s1 ≤ 160001 := hqD1
  have hmD2 : s2 ≤ 160001 := hqD2
  have hmD3 : s3 ≤ 160001 := hqD3
  rw [show (67220 : Nat) = 40000 + 27220 from rfl]
  rw [sim_loop_append 187220 40000 27220 _ _ hnD]
  rw [hrunD]
  rw [show ((120001 : Nat) : Int) + ((40000 : Nat) : Int) = ((160001 : Nat) : Int) from by norm_num]
  have hsE := floop_sound 187220 6 6 4 5 11 20 46 74 g0 g1 g2 g3 4 5 6 7 0 1 2 3
    (by norm_num) (by norm_num) (by norm_num) (by norm_num)
    (by norm_num) (by norm_num) (by norm_num) (by norm_num)
    27220 160001 s0 s1 s2 s3 y0 y1 y2 y3
    hmD0 hmD1 hmD2 hmD3 (by norm_num)
  rw [h6] at hsE
  exact hsE.1
lemma fdms_loop_succ (fuel : Nat) (ts : taskset_t) :
    fdms_loop (fuel + 1) ts =
      (match simulate_sas ts with
       | none => some true
       | some k =>
         if (ts.task k).phase_change_point > 0 then fdms_loop fuel (dec_pcp ts k)
         else some false) := rfl

lemma fdms_step (fuel : Nat) (ts : taskset_t) (k : Nat)
    (hs : simulate_sas ts = some k)
    (hpcp : (ts.task k).phase_change_point > 0) :
    fdms_loop (fuel + 1) ts = fdms_loop fuel (dec_pcp ts k) := by
  rw [fdms_loop_succ, hs]
  exact if_pos hpcp

lemma fdms_last (fuel : Nat) (ts : taskset_t) (k : Nat)
    (hs : simulate_sas ts = some k)
    (hpcp : ¬((ts.task k).phase_change_point > 0)) :
    fdms_loop (fuel + 1) ts = some false := by
  rw [fdms_loop_succ, hs]
  exact if_neg hpcp

set_option maxRecDepth 1000000 in
lemma ce3_r0 : simulate_sas (ce3p 11 20 46 74) = some 3 :=
  ce3_run_miss 11 20 46 74 11 20 46 74 5 6 4 5 3 (by decide!) (by decide!)

set_option maxRecDepth 1000000 in
lemma ce3_r1 : simulate_sas (ce3p 11 20 46 73) = some 3 :=
  ce3_run_miss 11 20 46 73 11 20 46 73 5 6 4 5 3 (by decide!) (by decide!)

set_option maxRecDepth 1000000 in
lemma ce3_r2 : simulate_sas (ce3p 11 20 46 72) = some 3 :=
  ce3_run_miss 11 20 46 72 11 20 46 72 5 6 4 5 3 (by decide!) (by decide!)

set_option maxRecDepth 1000000 in
lemma ce3_r3 : simulate_sas (ce3p 11 20 46 71) = some 3 :=
  ce3_run_miss 11 20 46 71 11 20 46 71 5 6 4 5 3 (by decide!) (by decide!)

set_option maxRecDepth 1000000 in
lemma ce3_r4 : simulate_sas (ce3p 11 20 46 70) = some 3 :=
  ce3_run_miss 11 20 46 70 11 20 46 70 5 6 4 5 3 (by decide!) (by decide!)

set_option maxRecDepth 1000000 in
lemma ce3_r5 : simulate_sas (ce3p 11 20 46 69) = some 1 :=
  ce3_run_miss 11 20 46 69 11 20 46 69 5 6 4 5 1 (by decide!) (by decide!)

set_option maxRecDepth 1000000 in
lemma ce3_r6 : simulate_sas (ce3p 11 19 46 69) = some 2 :=
  ce3_run_miss 11 19 46 69 11 19 46 69 5 6 4 5 2 (by decide!) (by decide!)

set_option maxRecDepth 1000000 in
lemma ce3_r7 : simulate_sas (ce3p 11 19 45 69) = some 1 :=
  ce3_run_miss 11 19 45 69 11 19 45 69 5 6 4 5 1 (by decide!) (by decide!)

set_option maxRecDepth 1000000 in
lemma ce3_r8 : simulate_sas (ce3p 11 18 45 69) = some 1 :=
  ce3_run_miss 11 18 45 69 11 18 45 69 5 6 4 5 1 (by decide!) (by decide!)

set_option maxRecDepth 1000000 in
lemma ce3_r9 : simulate_sas (ce3p 11 17 45 69) = some 1 :=
  ce3_run_miss 11 17 45 69 11 17 45 69 5 6 4 5 1 (by decide!) (by decide!)

set_option maxRecDepth 1000000 in
lemma ce3_r10 : simulate_sas (ce3p 11 16 45 69) = some 0 :=
  ce3_run_miss 11 16 45 69 11 16 45 69 5 6 4 5 0 (by decide!) (by decide!)

set_option maxRecDepth 1000000 in
lemma ce3_r11 : simulate_sas (ce3p 10 16 45 69) = some 2 :=
  ce3_run_miss 10 16 45 69 10 16 45 69 5 6 4 5 2 (by decide!) (by decide!)

set_option maxRecDepth 1000000 in
lemma ce3_r12 : simulate_sas (ce3p 10 16 44 69) = some 1 :=
  ce3_run_miss 10 16 44 69 10 16 44 69 5 6 4 5 1 (by decide!) (by decide!)

set_option maxRecDepth 1000000 in
lemma ce3_r13 : simulate_sas (ce3p 10 15 44 69) = some 0 :=
  ce3_run_miss 10 15 44 69 10 15 44 69 5 6 4 5 0 (by decide!) (by decide!)

set_option maxRecDepth 1000000 in
lemma ce3_r14 : simulate_sas (ce3p 9 15 44 69) = some 3 :=
  ce3_run_miss 9 15 44 69 9 15 44 69 5 6 4 5 3 (by decide!) (by decide!)

set_option maxRecDepth 1000000 in
lemma ce3_r15 : simulate_sas (ce3p 9 15 44 68) = some 0 :=
  ce3_run_miss 9 15 44 68 9 15 44 68 5 6 4 5 0 (by decide!) (by decide!)

set_option maxRecDepth 1000000 in
lemma ce3_r16 : simulate_sas (ce3p 8 15 44 68) = some 1 :=
  ce3_run_miss 8 15 44 68 8 15 44 68 5 6 4 5 1 (by decide!) (by decide!)

set_option maxRecDepth 1000000 in
lemma ce3_r17 : simulate_sas (ce3p 8 14 44 68) = some 0 :=
  ce3_run_miss 8 14 44 68 8 14 44 68 5 6 4 5 0 (by decide!) (by decide!)

set_option maxRecDepth 1000000 in
lemma ce3_r18 : simulate_sas (ce3p 7 14 44 68) = some 1 :=
  ce3_run_miss 7 14 44 68 7 14 44 68 5 6 4 5 1 (by decide!) (by decide!)

set_option maxRecDepth 1000000 in
lemma ce3_r19 : simulate_sas (ce3p 7 13 44 68) = some 3 :=
  ce3_run_miss 7 13 44 68 7 13 44 68 5 6 4 5 3 (by decide!) (by decide!)

set_option maxRecDepth 1000000 in
lemma ce3_r20 : simulate_sas (ce3p 7 13 44 67) = some 0 :=
  ce3_run_miss 7 13 44 67 7 13 44 67 5 6 4 5 0 (by decide!) (by decide!)

set_option maxRecDepth 1000000 in
lemma ce3_r21 : simulate_sas (ce3p 6 13 44 67) = some 1 :=
  ce3_run_miss 6 13 44 67 6 13 44 67 5 6 4 5 1 (by decide!) (by decide!)

set_option maxRecDepth 1000000 in
lemma ce3_r22 : simulate_sas (ce3p 6 12 44 67) = some 2 :=
  ce3_run_miss 6 12 44 67 6 12 44 67 5 6 4 5 2 (by decide!) (by decide!)

set_option maxRecDepth 1000000 in
lemma ce3_r23 : simulate_sas (ce3p 6 12 43 67) = some 3 :=
  ce3_run_miss 6 12 43 67 6 12 43 67 5 6 4 5 3 (by decide!) (by decide!)

set_option maxRecDepth 1000000 in
lemma ce3_r24 : simulate_sas (ce3p 6 12 43 66) = some 0 :=
  ce3_run_miss 6 12 43 66 6 12 43 66 5 6 4 5 0 (by decide!) (by decide!)

set_option maxRecDepth 1000000 in
lemma ce3_r25 : simulate_sas (ce3p 5 12 43 66) = some 1 :=
  ce3_run_miss 5 12 43 66 5 12 43 66 5 6 4 5 1 (by decide!) (by decide!)

set_option maxRecDepth 1000000 in
lemma ce3_r26 : simulate_sas (ce3p 5 11 43 66) = some 2 :=
  ce3_run_miss 5 11 43 66 5 11 43 66 5 6 4 5 2 (by decide!) (by decide!)

set_option maxRecDepth 1000000 in
lemma ce3_r27 : simulate_sas (ce3p 5 11 42 66) = some 3 :=
  ce3_run_miss 5 11 42 66 5 11 42 66 5 6 4 5 3 (by decide!) (by decide!)

set_option maxRecDepth 1000000 in
lemma ce3_r28 : simulate_sas (ce3p 5 11 42 65) = some 3 :=
  ce3_run_miss 5 11 42 65 5 11 42 65 5 6 4 5 3 (by decide!) (by decide!)

set_option maxRecDepth 1000000 in
lemma ce3_r29 : simulate_sas (ce3p 5 11 42 64) = some 2 :=
  ce3_run_miss 5 11 42 64 5 11 42 64 5 6 4 5 2 (by decide!) (by decide!)

set_option maxRecDepth 1000000 in
lemma ce3_r30 : simulate_sas (ce3p 5 11 41 64) = some 2 :=
  ce3_run_miss 5 11 41 64 5 11 41 64 5 6 4 5 2 (by decide!) (by decide!)

set_option maxRecDepth 1000000 in
lemma ce3_r31 : simulate_sas (ce3p 5 11 40 64) = some 3 :=
  ce3_run_miss 5 11 40 64 5 11 40 64 5 6 4 5 3 (by decide!) (by decide!)

set_option maxRecDepth 1000000 in
lemma ce3_r32 : simulate_sas (ce3p 5 11 40 63) = some 2 :=
  ce3_run_miss 5 11 40 63 5 11 40 63 5 6 4 5 2 (by decide!) (by decide!)

set_option maxRecDepth 1000000 in
lemma ce3_r33 : simulate_sas (ce3p 5 11 39 63) = some 3 :=
  ce3_run_miss 5 11 39 63 5 11 39 63 5 6 4 5 3 (by decide!) (by decide!)

set_option maxRecDepth 1000000 in
lemma ce3_r34 : simulate_sas (ce3p 5 11 39 62) = some 1 :=
  ce3_run_miss 5 11 39 62 5 11 39 62 5 6 4 5 1 (by decide!) (by decide!)

set_option maxRecDepth 1000000 in
lemma ce3_r35 : simulate_sas (ce3p 5 10 39 62) = some 3 :=
  ce3_run_miss 5 10 39 62 5 10 39 62 5 6 4 5 3 (by decide!) (by decide!)

set_option maxRecDepth 1000000 in
lemma ce3_r36 : simulate_sas (ce3p 5 10 39 61) = some 2 :=
  ce3_run_miss 5 10 39 61 5 10 39 61 5 6 4 5 2 (by decide!) (by decide!)

set_option maxRecDepth 1000000 in
lemma ce3_r37 : simulate_sas (ce3p 5 10 38 61) = some 3 :=
  ce3_run_miss 5 10 38 61 5 10 38 61 5 6 4 5 3 (by decide!) (by decide!)

set_option maxRecDepth 1000000 in
lemma ce3_r38 : simulate_sas (ce3p 5 10 38 60) = some 3 :=
  ce3_run_miss 5 10 38 60 5 10 38 60 5 6 4 5 3 (by decide!) (by decide!)

set_option maxRecDepth 1000000 in
lemma ce3_r39 : simulate_sas (ce3p 5 10 38 59) = some 1 :=
  ce3_run_miss 5 10 38 59 5 10 38 59 5 6 4 5 1 (by decide!) (by decide!)

set_option maxRecDepth 1000000 in
lemma ce3_r40 : simulate_sas (ce3p 5 9 38 59) = some 3 :=
  ce3_run_miss 5 9 38 59 5 9 38 59 5 6 4 5 3 (by decide!) (by decide!)

set_option maxRecDepth 1000000 in
lemma ce3_r41 : simulate_sas (ce3p 5 9 38 58) = some 3 :=
  ce3_run_miss 5 9 38 58 5 9 38 58 5 6 4 5 3 (by decide!) (by decide!)

set_option maxRecDepth 1000000 in
lemma ce3_r42 : simulate_sas (ce3p 5 9 38 57) = some 3 :=
  ce3_run_miss 5 9 38 57 5 9 38 57 5 6 4 5 3 (by decide!) (by decide!)

set_option maxRecDepth 1000000 in
lemma ce3_r43 : simulate_sas (ce3p 5 9 38 56) = some 1 :=
  ce3_run_miss 5 9 38 56 5 9 38 56 5 6 4 5 1 (by decide!) (by decide!)

set_option maxRecDepth 1000000 in
lemma ce3_r44 : simulate_sas (ce3p 5 8 38 56) = some 3 :=
  ce3_run_miss 5 8 38 56 5 8 38 56 5 6 4 5 3 (by decide!) (by decide!)

set_option maxRecDepth 1000000 in
lemma ce3_r45 : simulate_sas (ce3p 5 8 38 55) = some 3 :=
  ce3_run_miss 5 8 38 55 5 8 38 55 5 6 4 5 3 (by decide!) (by decide!)

set_option maxRecDepth 1000000 in
lemma ce3_r46 : simulate_sas (ce3p 5 8 38 54) = some 3 :=
  ce3_run_miss 5 8 38 54 5 8 38 54 5 6 4 5 3 (by decide!) (by decide!)

set_option maxRecDepth 1000000 in
lemma ce3_r47 : simulate_sas (ce3p 5 8 38 53) = some 2 :=
  ce3_run_miss 5 8 38 53 5 8 38 53 5 6 4 5 2 (by decide!) (by decide!)

set_option maxRecDepth 1000000 in
lemma ce3_r48 : simulate_sas (ce3p 5 8 37 53) = some 1 :=
  ce3_run_miss 5 8 37 53 5 8 37 53 5 6 4 5 1 (by decide!) (by decide!)

set_option maxRecDepth 1000000 in
lemma ce3_r49 : simulate_sas (ce3p 5 7 37 53) = some 2 :=
  ce3_run_miss 5 7 37 53 5 7 37 53 5 6 4 5 2 (by decide!) (by decide!)

set_option maxRecDepth 1000000 in
lemma ce3_r50 : simulate_sas (ce3p 5 7 36 53) = some 1 :=
  ce3_run_miss 5 7 36 53 5 7 36 53 5 6 4 5 1 (by decide!) (by decide!)

set_option maxRecDepth 1000000 in
lemma ce3_r51 : simulate_sas (ce3p 5 6 36 53) = some 2 :=
  ce3_run_miss 5 6 36 53 5 6 36 53 5 6 4 5 2 (by decide!) (by decide!)

set_option maxRecDepth 1000000 in
lemma ce3_r52 : simulate_sas (ce3p 5 6 35 53) = some 1 :=
  ce3_run_miss 5 6 35 53 5 6 35 53 5 6 4 5 1 (by decide!) (by decide!)

set_option maxRecDepth 1000000 in
lemma ce3_r53 : simulate_sas (ce3p 5 5 35 53) = some 2 :=
  ce3_run_miss 5 5 35 53 5 5 35 53 5 6 4 5 2 (by decide!) (by decide!)

set_option maxRecDepth 1000000 in
lemma ce3_r54 : simulate_sas (ce3p 5 5 34 53) = some 1 :=
  ce3_run_miss 5 5 34 53 5 5 34 53 5 6 4 5 1 (by decide!) (by decide!)

set_option maxRecDepth 1000000 in
lemma ce3_r55 : simulate_sas (ce3p 5 4 34 53) = some 2 :=
  ce3_run_miss 5 4 34 53 5 4 34 53 5 6 4 5 2 (by decide!) (by decide!)

set_option maxRecDepth 1000000 in
lemma ce3_r56 : simulate_sas (ce3p 5 4 33 53) = some 2 :=
  ce3_run_miss 5 4 33 53 5 4 33 53 5 6 4 5 2 (by decide!) (by decide!)

set_option maxRecDepth 1000000 in
lemma ce3_r57 : simulate_sas (ce3p 5 4 32 53) = some 2 :=
  ce3_run_miss 5 4 32 53 5 4 32 53 5 6 4 5 2 (by decide!) (by decide!)

set_option maxRecDepth 1000000 in
lemma ce3_r58 : simulate_sas (ce3p 5 4 31 53) = some 2 :=
  ce3_run_miss 5 4 31 53 5 4 31 53 5 6 4 5 2 (by decide!) (by decide!)

set_option maxRecDepth 1000000 in
lemma ce3_r59 : simulate_sas (ce3p 5 4 30 53) = some 2 :=
  ce3_run_miss 5 4 30 53 5 4 30 53 5 6 4 5 2 (by decide!) (by decide!)

set_option maxRecDepth 1000000 in
lemma ce3_r60 : simulate_sas (ce3p 5 4 29 53) = some 2 :=
  ce3_run_miss 5 4 29 53 5 4 29 53 5 6 4 5 2 (by decide!) (by decide!)

set_option maxRecDepth 1000000 in
lemma ce3_r61 : simulate_sas (ce3p 5 4 28 53) = some 1 :=
  ce3_run_miss 5 4 28 53 5 4 28 53 5 6 4 5 1 (by decide!) (by decide!)

set_option maxRecDepth 1000000 in
lemma ce3_r62 : simulate_sas (ce3p 5 3 28 53) = some 3 :=
  ce3_run_miss 5 3 28 53 5 3 28 53 5 6 4 5 3 (by decide!) (by decide!)

set_option maxRecDepth 1000000 in
lemma ce3_r63 : simulate_sas (ce3p 5 3 28 52) = some 2 :=
  ce3_run_miss 5 3 28 52 5 3 28 52 5 6 4 5 2 (by decide!) (by decide!)

set_option maxRecDepth 1000000 in
set_option maxHeartbeats 4000000 in
lemma ce3_r64 : simulate_sas (ce3p 5 3 27 52) = some 1 :=
  ce3_run_miss2 5 3 27 52 5 3 27 52 5 6 4 5 39996 40000 39974 39960 1 6 0 5 1
    (by decide!) (by decide!) (by decide!)

set_option maxRecDepth 1000000 in
lemma ce3_r65 : simulate_sas (ce3p 5 2 27 52) = some 3 :=
  ce3_run_miss 5 2 27 52 5 2 27 52 5 6 4 5 3 (by decide!) (by decide!)

set_option maxRecDepth 1000000 in
lemma ce3_r66 : simulate_sas (ce3p 5 2 27 51) = some 3 :=
  ce3_run_miss 5 2 27 51 5 2 27 51 5 6 4 5 3 (by decide!) (by decide!)

set_option maxRecDepth 1000000 in
lemma ce3_r67 : simulate_sas (ce3p 5 2 27 50) = some 3 :=
  ce3_run_miss 5 2 27 50 5 2 27 50 5 6 4 5 3 (by decide!) (by decide!)

set_option maxRecDepth 1000000 in
lemma ce3_r68 : simulate_sas (ce3p 5 2 27 49) = some 3 :=
  ce3_run_miss 5 2 27 49 5 2 27 49 5 6 4 5 3 (by decide!) (by decide!)

set_option maxRecDepth 1000000 in
lemma ce3_r69 : simulate_sas (ce3p 5 2 27 48) = some 3 :=
  ce3_run_miss 5 2 27 48 5 2 27 48 5 6 4 5 3 (by decide!) (by decide!)

set_option maxRecDepth 1000000 in
lemma ce3_r70 : simulate_sas (ce3p 5 2 27 47) = some 3 :=
  ce3_run_miss 5 2 27 47 5 2 27 47 5 6 4 5 3 (by decide!) (by decide!)

set_option maxRecDepth 1000000 in
lemma ce3_r71 : simulate_sas (ce3p 5 2 27 46) = some 3 :=
  ce3_run_miss 5 2 27 46 5 2 27 46 5 6 4 5 3 (by decide!) (by decide!)

set_option maxRecDepth 1000000 in
lemma ce3_r72 : simulate_sas (ce3p 5 2 27 45) = some 3 :=
  ce3_run_miss 5 2 27 45 5 2 27 45 5 6 4 5 3 (by decide!) (by decide!)

set_option maxRecDepth 1000000 in
lemma ce3_r73 : simulate_sas (ce3p 5 2 27 44) = some 3 :=
  ce3_run_miss 5 2 27 44 5 2 27 44 5 6 4 5 3 (by decide!) (by decide!)

set_option maxRecDepth 1000000 in
lemma ce3_r74 : simulate_sas (ce3p 5 2 27 43) = some 3 :=
  ce3_run_miss 5 2 27 43 5 2 27 43 5 6 4 5 3 (by decide!) (by decide!)

set_option maxRecDepth 1000000 in
lemma ce3_r75 : simulate_sas (ce3p 5 2 27 42) = some 3 :=
  ce3_run_miss 5 2 27 42 5 2 27 42 5 6 4 5 3 (by decide!) (by decide!)

set_option maxRecDepth 1000000 in
lemma ce3_r76 : simulate_sas (ce3p 5 2 27 41) = some 3 :=
  ce3_run_miss 5 2 27 41 5 2 27 41 5 6 4 5 3 (by decide!) (by decide!)

set_option maxRecDepth 1000000 in
lemma ce3_r77 : simulate_sas (ce3p 5 2 27 40) = some 3 :=
  ce3_run_miss 5 2 27 40 5 2 27 40 5 6 4 5 3 (by decide!) (by decide!)

set_option maxRecDepth 1000000 in
lemma ce3_r78 : simulate_sas (ce3p 5 2 27 39) = some 2 :=
  ce3_run_miss 5 2 27 39 5 2 27 39 5 6 4 5 2 (by decide!) (by decide!)

set_option maxRecDepth 1000000 in
lemma ce3_r79 : simulate_sas (ce3p 5 2 26 39) = some 3 :=
  ce3_run_miss 5 2 26 39 5 2 26 39 5 6 4 5 3 (by decide!) (by decide!)

set_option maxRecDepth 1000000 in
lemma ce3_r80 : simulate_sas (ce3p 5 2 26 38) = some 2 :=
  ce3_run_miss 5 2 26 38 5 2 26 38 5 6 4 5 2 (by decide!) (by decide!)

set_option maxRecDepth 1000000 in
lemma ce3_r81 : simulate_sas (ce3p 5 2 25 38) = some 3 :=
  ce3_run_miss 5 2 25 38 5 2 25 38 5 6 4 5 3 (by decide!) (by decide!)

set_option maxRecDepth 1000000 in
lemma ce3_r82 : simulate_sas (ce3p 5 2 25 37) = some 2 :=
  ce3_run_miss 5 2 25 37 5 2 25 37 5 6 4 5 2 (by decide!) (by decide!)

set_option maxRecDepth 1000000 in
lemma ce3_r83 : simulate_sas (ce3p 5 2 24 37) = some 2 :=
  ce3_run_miss 5 2 24 37 5 2 24 37 5 6 4 5 2 (by decide!) (by decide!)

set_option maxRecDepth 1000000 in
lemma ce3_r84 : simulate_sas (ce3p 5 2 23 37) = some 2 :=
  ce3_run_miss 5 2 23 37 5 2 23 37 5 6 4 5 2 (by decide!) (by decide!)

set_option maxRecDepth 1000000 in
lemma ce3_r85 : simulate_sas (ce3p 5 2 22 37) = some 2 :=
  ce3_run_miss 5 2 22 37 5 2 22 37 5 6 4 5 2 (by decide!) (by decide!)

set_option maxRecDepth 1000000 in
lemma ce3_r86 : simulate_sas (ce3p 5 2 21 37) = some 2 :=
  ce3_run_miss 5 2 21 37 5 2 21 37 5 6 4 5 2 (by decide!) (by decide!)

set_option maxRecDepth 1000000 in
lemma ce3_r87 : simulate_sas (ce3p 5 2 20 37) = some 2 :=
  ce3_run_miss 5 2 20 37 5 2 20 37 5 6 4 5 2 (by decide!) (by decide!)

set_option maxRecDepth 1000000 in
lemma ce3_r88 : simulate_sas (ce3p 5 2 19 37) = some 2 :=
  ce3_run_miss 5 2 19 37 5 2 19 37 5 6 4 5 2 (by decide!) (by decide!)

set_option maxRecDepth 1000000 in
lemma ce3_r89 : simulate_sas (ce3p 5 2 18 37) = some 2 :=
  ce3_run_miss 5 2 18 37 5 2 18 37 5 6 4 5 2 (by decide!) (by decide!)

set_option maxRecDepth 1000000 in
lemma ce3_r90 : simulate_sas (ce3p 5 2 17 37) = some 2 :=
  ce3_run_miss 5 2 17 37 5 2 17 37 5 6 4 5 2 (by decide!) (by decide!)

set_option maxRecDepth 1000000 in
lemma ce3_r91 : simulate_sas (ce3p 5 2 16 37) = some 2 :=
  ce3_run_miss 5 2 16 37 5 2 16 37 5 6 4 5 2 (by decide!) (by decide!)

set_option maxRecDepth 1000000 in
lemma ce3_r92 : simulate_sas (ce3p 5 2 15 37) = some 3 :=
  ce3_run_miss 5 2 15 37 5 2 15 37 5 6 4 5 3 (by decide!) (by decide!)

set_option maxRecDepth 1000000 in
lemma ce3_r93 : simulate_sas (ce3p 5 2 15 36) = some 3 :=
  ce3_run_miss 5 2 15 36 5 2 15 36 5 6 4 5 3 (by decide!) (by decide!)

set_option maxRecDepth 1000000 in
lemma ce3_r94 : simulate_sas (ce3p 5 2 15 35) = some 3 :=
  ce3_run_miss 5 2 15 35 5 2 15 35 5 6 4 5 3 (by decide!) (by decide!)

set_option maxRecDepth 1000000 in
lemma ce3_r95 : simulate_sas (ce3p 5 2 15 34) = some 3 :=
  ce3_run_miss 5 2 15 34 5 2 15 34 5 6 4 5 3 (by decide!) (by decide!)

set_option maxRecDepth 1000000 in
lemma ce3_r96 : simulate_sas (ce3p 5 2 15 33) = some 3 :=
  ce3_run_miss 5 2 15 33 5 2 15 33 5 6 4 5 3 (by decide!) (by decide!)

set_option maxRecDepth 1000000 in
lemma ce3_r97 : simulate_sas (ce3p 5 2 15 32) = some 3 :=
  ce3_run_miss 5 2 15 32 5 2 15 32 5 6 4 5 3 (by decide!) (by decide!)

set_option maxRecDepth 1000000 in
lemma ce3_r98 : simulate_sas (ce3p 5 2 15 31) = some 3 :=
  ce3_run_miss 5 2 15 31 5 2 15 31 5 6 4 5 3 (by decide!) (by decide!)

set_option maxRecDepth 1000000 in
lemma ce3_r99 : simulate_sas (ce3p 5 2 15 30) = some 3 :=
  ce3_run_miss 5 2 15 30 5 2 15 30 5 6 4 5 3 (by decide!) (by decide!)

set_option maxRecDepth 1000000 in
lemma ce3_r100 : simulate_sas (ce3p 5 2 15 29) = some 3 :=
  ce3_run_miss 5 2 15 29 5 2 15 29 5 6 4 5 3 (by decide!) (by decide!)

set_option maxRecDepth 1000000 in
lemma ce3_r101 : simulate_sas (ce3p 5 2 15 28) = some 3 :=
  ce3_run_miss 5 2 15 28 5 2 15 28 5 6 4 5 3 (by decide!) (by decide!)

set_option maxRecDepth 1000000 in
lemma ce3_r102 : simulate_sas (ce3p 5 2 15 27) = some 3 :=
  ce3_run_miss 5 2 15 27 5 2 15 27 5 6 4 5 3 (by decide!) (by decide!)

set_option maxRecDepth 1000000 in
lemma ce3_r103 : simulate_sas (ce3p 5 2 15 26) = some 3 :=
  ce3_run_miss 5 2 15 26 5 2 15 26 5 6 4 5 3 (by decide!) (by decide!)

set_option maxRecDepth 1000000 in
lemma ce3_r104 : simulate_sas (ce3p 5 2 15 25) = some 3 :=
  ce3_run_miss 5 2 15 25 5 2 15 25 5 6 4 5 3 (by decide!) (by decide!)

set_option maxRecDepth 1000000 in
lemma ce3_r105 : simulate_sas (ce3p 5 2 15 24) = some 3 :=
  ce3_run_miss 5 2 15 24 5 2 15 24 5 6 4 5 3 (by decide!) (by decide!)

set_option maxRecDepth 1000000 in
lemma ce3_r106 : simulate_sas (ce3p 5 2 15 23) = some 3 :=
  ce3_run_miss 5 2 15 23 5 2 15 23 5 6 4 5 3 (by decide!) (by decide!)

set_option maxRecDepth 1000000 in
lemma ce3_r107 : simulate_sas (ce3p 5 2 15 22) = some 3 :=
  ce3_run_miss 5 2 15 22 5 2 15 22 5 6 4 5 3 (by decide!) (by decide!)

set_option maxRecDepth 1000000 in
lemma ce3_r108 : simulate_sas (ce3p 5 2 15 21) = some 3 :=
  ce3_run_miss 5 2 15 21 5 2 15 21 5 6 4 5 3 (by decide!) (by decide!)

set_option maxRecDepth 1000000 in
lemma ce3_r109 : simulate_sas (ce3p 5 2 15 20) = some 3 :=
  ce3_run_miss 5 2 15 20 5 2 15 20 5 6 4 5 3 (by decide!) (by decide!)

set_option maxRecDepth 1000000 in
lemma ce3_r110 : simulate_sas (ce3p 5 2 15 19) = some 3 :=
  ce3_run_miss 5 2 15 19 5 2 15 19 5 6 4 5 3 (by decide!) (by decide!)

set_option maxRecDepth 1000000 in
lemma ce3_r111 : simulate_sas (ce3p 5 2 15 18) = some 3 :=
  ce3_run_miss 5 2 15 18 5 2 15 18 5 6 4 5 3 (by decide!) (by decide!)

set_option maxRecDepth 1000000 in
lemma ce3_r112 : simulate_sas (ce3p 5 2 15 17) = some 3 :=
  ce3_run_miss 5 2 15 17 5 2 15 17 5 6 4 5 3 (by decide!) (by decide!)

set_option maxRecDepth 1000000 in
lemma ce3_r113 : simulate_sas (ce3p 5 2 15 16) = some 3 :=
  ce3_run_miss 5 2 15 16 5 2 15 16 5 6 4 5 3 (by decide!) (by decide!)

set_option maxRecDepth 1000000 in
lemma ce3_r114 : simulate_sas (ce3p 5 2 15 15) = some 2 :=
  ce3_run_miss 5 2 15 15 5 2 15 15 5 6 4 5 2 (by decide!) (by decide!)

set_option maxRecDepth 1000000 in
lemma ce3_r115 : simulate_sas (ce3p 5 2 14 15) = some 3 :=
  ce3_run_miss 5 2 14 15 5 2 14 15 5 6 4 5 3 (by decide!) (by decide!)

set_option maxRecDepth 1000000 in
lemma ce3_r116 : simulate_sas (ce3p 5 2 14 14) = some 3 :=
  ce3_run_miss 5 2 14 14 5 2 14 14 5 6 4 5 3 (by decide!) (by decide!)

set_option maxRecDepth 1000000 in
lemma ce3_r117 : simulate_sas (ce3p 5 2 14 13) = some 3 :=
  ce3_run_miss 5 2 14 13 5 2 14 13 5 6 4 5 3 (by decide!) (by decide!)

set_option maxRecDepth 1000000 in
lemma ce3_r118 : simulate_sas (ce3p 5 2 14 12) = some 2 :=
  ce3_run_miss 5 2 14 12 5 2 14 12 5 6 4 5 2 (by decide!) (by decide!)

set_option maxRecDepth 1000000 in
lemma ce3_r119 : simulate_sas (ce3p 5 2 13 12) = some 2 :=
  ce3_run_miss 5 2 13 12 5 2 13 12 5 6 4 5 2 (by decide!) (by decide!)

set_option maxRecDepth 1000000 in
lemma ce3_r120 : simulate_sas (ce3p 5 2 12 12) = some 3 :=
  ce3_run_miss 5 2 12 12 5 2 12 12 5 6 4 5 3 (by decide!) (by decide!)

set_option maxRecDepth 1000000 in
lemma ce3_r121 : simulate_sas (ce3p 5 2 12 11) = some 3 :=
  ce3_run_miss 5 2 12 11 5 2 12 11 5 6 4 5 3 (by decide!) (by decide!)

set_option maxRecDepth 1000000 in
lemma ce3_r122 : simulate_sas (ce3p 5 2 12 10) = some 3 :=
  ce3_run_miss 5 2 12 10 5 2 12 10 5 6 4 5 3 (by decide!) (by decide!)

set_option maxRecDepth 1000000 in
lemma ce3_r123 : simulate_sas (ce3p 5 2 12 9) = some 3 :=
  ce3_run_miss 5 2 12 9 5 2 12 9 5 6 4 5 3 (by decide!) (by decide!)

set_option maxRecDepth 1000000 in
lemma ce3_r124 : simulate_sas (ce3p 5 2 12 8) = some 3 :=
  ce3_run_miss 5 2 12 8 5 2 12 8 5 6 4 5 3 (by decide!) (by decide!)

set_option maxRecDepth 1000000 in
lemma ce3_r125 : simulate_sas (ce3p 5 2 12 7) = some 3 :=
  ce3_run_miss 5 2 12 7 5 2 12 7 5 6 4 5 3 (by decide!) (by decide!)

set_option maxRecDepth 1000000 in
lemma ce3_r126 : simulate_sas (ce3p 5 2 12 6) = some 3 :=
  ce3_run_miss 5 2 12 6 5 2 12 6 5 6 4 5 3 (by decide!) (by decide!)

set_option maxRecDepth 1000000 in
lemma ce3_r127 : simulate_sas (ce3p 5 2 12 5) = some 3 :=
  ce3_run_miss 5 2 12 5 5 2 12 5 5 6 4 5 3 (by decide!) (by decide!)

set_option maxRecDepth 1000000 in
lemma ce3_r128 : simulate_sas (ce3p 5 2 12 4) = some 3 :=
  ce3_run_miss 5 2 12 4 5 2 12 4 5 6 4 5 3 (by decide!) (by decide!)

set_option maxRecDepth 1000000 in
lemma ce3_r129 : simulate_sas (ce3p 5 2 12 3) = some 3 :=
  ce3_run_miss 5 2 12 3 5 2 12 3 5 6 4 5 3 (by decide!) (by decide!)

set_option maxRecDepth 1000000 in
lemma ce3_r130 : simulate_sas (ce3p 5 2 12 2) = some 3 :=
  ce3_run_miss 5 2 12 2 5 2 12 2 5 6 4 5 3 (by decide!) (by decide!)

set_option maxRecDepth 1000000 in
lemma ce3_r131 : simulate_sas (ce3p 5 2 12 1) = some 3 :=
  ce3_run_miss 5 2 12 1 5 2 12 1 5 6 4 5 3 (by decide!) (by decide!)

set_option maxRecDepth 1000000 in
lemma ce3_r132 : simulate_sas (ce3p 5 2 12 0) = some 3 :=
  ce3_run_miss 5 2 12 0 5 2 12 0 6 6 4 4 3 (by decide!) (by decide!)

set_option maxRecDepth 1000000 in
set_option maxHeartbeats 8000000 in
lemma ce3_sched : simulate_sas (ce3p 5 3 25 35) = none :=
  ce3_run_none5 5 3 25 35 5 3 25 35 5 6 4 5
    39996 40000 39974 39960 6 6 0 0
    79992 80000 79994 79994 0 5 4 5
    119999 120000 119968 119954 6 6 0 1
    159995 160000 159988 159988 0 6 4 5
    187220 187220 187220 187220 5 6 4 5
    (by decide!) (by decide!) (by decide!) (by decide!) (by decide!) (by decide!)

set_option maxRecDepth 1000000 in
set_option maxHeartbeats 8000000 in
lemma ce3_fdms : test_fdms_phase_change_points ce3_ts = some false := by
  rw [show test_fdms_phase_change_points ce3_ts = fdms_loop 152 (fdms_init ce3_ts) from rfl]
  rw [show fdms_init ce3_ts = ce3p 11 20 46 74 from by decide!]
  rw [show (152 : Nat) = 151 + 1 from rfl,
    fdms_step 151 _ 3 ce3_r0 (by decide),
    show dec_pcp (ce3p 11 20 46 74) 3 = ce3p 11 20 46 73 from by decide!]
  rw [show (151 : Nat) = 150 + 1 from rfl,
    fdms_step 150 _ 3 ce3_r1 (by decide),
    show dec_pcp (ce3p 11 20 46 73) 3 = ce3p 11 20 46 72 from by decide!]
  rw [show (150 : Nat) = 149 + 1 from rfl,
    fdms_step 149 _ 3 ce3_r2 (by decide),
    show dec_pcp (ce3p 11 20 46 72) 3 = ce3p 11 20 46 71 from by decide!]
  rw [show (149 : Nat) = 148 + 1 from rfl,
    fdms_step 148 _ 3 ce3_r3 (by decide),
    show dec_pcp (ce3p 11 20 46 71) 3 = ce3p 11 20 46 70 from by decide!]
  rw [show (148 : Nat) = 147 + 1 from rfl,
    fdms_step 147 _ 3 ce3_r4 (by decide),
    show dec_pcp (ce3p 11 20 46 70) 3 = ce3p 11 20 46 69 from by decide!]
  rw [show (147 : Nat) = 146 + 1 from rfl,
    fdms_step 146 _ 1 ce3_r5 (by decide),
    show dec_pcp (ce3p 11 20 46 69) 1 = ce3p 11 19 46 69 from by decide!]
  rw [show (146 : Nat) = 145 + 1 from rfl,
    fdms_step 145 _ 2 ce3_r6 (by decide),
    show dec_pcp (ce3p 11 19 46 69) 2 = ce3p 11 19 45 69 from by decide!]
  rw [show (145 : Nat) = 144 + 1 from rfl,
    fdms_step 144 _ 1 ce3_r7 (by decide),
    show dec_pcp (ce3p 11 19 45 69) 1 = ce3p 11 18 45 69 from by decide!]
  rw [show (144 : Nat) = 143 + 1 from rfl,
    fdms_step 143 _ 1 ce3_r8 (by decide),
    show dec_pcp (ce3p 11 18 45 69) 1 = ce3p 11 17 45 69 from by decide!]
  rw [show (143 : Nat) = 142 + 1 from rfl,
    fdms_step 142 _ 1 ce3_r9 (by decide),
    show dec_pcp (ce3p 11 17 45 69) 1 = ce3p 11 16 45 69 from by decide!]
  rw [show (142 : Nat) = 141 + 1 from rfl,
    fdms_step 141 _ 0 ce3_r10 (by decide),
    show dec_pcp (ce3p 11 16 45 69) 0 = ce3p 10 16 45 69 from by decide!]
  rw [show (141 : Nat) = 140 + 1 from rfl,
    fdms_step 140 _ 2 ce3_r11 (by decide),
    show dec_pcp (ce3p 10 16 45 69) 2 = ce3p 10 16 44 69 from by decide!]
  rw [show (140 : Nat) = 139 + 1 from rfl,
    fdms_step 139 _ 1 ce3_r12 (by decide),
    show dec_pcp (ce3p 10 16 44 69) 1 = ce3p 10 15 44 69 from by decide!]
  rw [show (139 : Nat) = 138 + 1 from rfl,
    fdms_step 138 _ 0 ce3_r13 (by decide),
    show dec_pcp (ce3p 10 15 44 69) 0 = ce3p 9 15 44 69 from by decide!]
  rw [show (138 : Nat) = 137 + 1 from rfl,
    fdms_step 137 _ 3 ce3_r14 (by decide),
    show dec_pcp (ce3p 9 15 44 69) 3 = ce3p 9 15 44 68 from by decide!]
  rw [show (137 : Nat) = 136 + 1 from rfl,
    fdms_step 136 _ 0 ce3_r15 (by decide),
    show dec_pcp (ce3p 9 15 44 68) 0 = ce3p 8 15 44 68 from by decide!]
  rw [show (136 : Nat) = 135 + 1 from rfl,
    fdms_step 135 _ 1 ce3_r16 (by decide),
    show dec_pcp (ce3p 8 15 44 68) 1 = ce3p 8 14 44 68 from by decide!]
  rw [show (135 : Nat) = 134 + 1 from rfl,
    fdms_step 134 _ 0 ce3_r17 (by decide),
    show dec_pcp (ce3p 8 14 44 68) 0 = ce3p 7 14 44 68 from by decide!]
  rw [show (134 : Nat) = 133 + 1 from rfl,
    fdms_step 133 _ 1 ce3_r18 (by decide),
    show dec_pcp (ce3p 7 14 44 68) 1 = ce3p 7 13 44 68 from by decide!]
  rw [show (133 : Nat) = 132 + 1 from rfl,
    fdms_step 132 _ 3 ce3_r19 (by decide),
    show dec_pcp (ce3p 7 13 44 68) 3 = ce3p 7 13 44 67 from by decide!]
  rw [show (132 : Nat) = 131 + 1 from rfl,
    fdms_step 131 _ 0 ce3_r20 (by decide),
    show dec_pcp (ce3p 7 13 44 67) 0 = ce3p 6 13 44 67 from by decide!]
  rw [show (131 : Nat) = 130 + 1 from rfl,
    fdms_step 130 _ 1 ce3_r21 (by decide),
    show dec_pcp (ce3p 6 13 44 67) 1 = ce3p 6 12 44 67 from by decide!]
  rw [show (130 : Nat) = 129 + 1 from rfl,
    fdms_step 129 _ 2 ce3_r22 (by decide),
    show dec_pcp (ce3p 6 12 44 67) 2 = ce3p 6 12 43 67 from by decide!]
  rw [show (129 : Nat) = 128 + 1 from rfl,
    fdms_step 128 _ 3 ce3_r23 (by decide),
    show dec_pcp (ce3p 6 12 43 67) 3 = ce3p 6 12 43 66 from by decide!]
  rw [show (128 : Nat) = 127 + 1 from rfl,
    fdms_step 127 _ 0 ce3_r24 (by decide),
    show dec_pcp (ce3p 6 12 43 66) 0 = ce3p 5 12 43 66 from by decide!]
  rw [show (127 : Nat) = 126 + 1 from rfl,
    fdms_step 126 _ 1 ce3_r25 (by decide),
    show dec_pcp (ce3p 5 12 43 66) 1 = ce3p 5 11 43 66 from by decide!]
  rw [show (126 : Nat) = 125 + 1 from rfl,
    fdms_step 125 _ 2 ce3_r26 (by decide),
    show dec_pcp (ce3p 5 11 43 66) 2 = ce3p 5 11 42 66 from by decide!]
  rw [show (125 : Nat) = 124 + 1 from rfl,
    fdms_step 124 _ 3 ce3_r27 (by decide),
    show dec_pcp (ce3p 5 11 42 66) 3 = ce3p 5 11 42 65 from by decide!]
  rw [show (124 : Nat) = 123 + 1 from rfl,
    fdms_step 123 _ 3 ce3_r28 (by decide),
    show dec_pcp (ce3p 5 11 42 65) 3 = ce3p 5 11 42 64 from by decide!]
  rw [show (123 : Nat) = 122 + 1 from rfl,
    fdms_step 122 _ 2 ce3_r29 (by decide),
    show dec_pcp (ce3p 5 11 42 64) 2 = ce3p 5 11 41 64 from by decide!]
  rw [show (122 : Nat) = 121 + 1 from rfl,
    fdms_step 121 _ 2 ce3_r30 (by decide),
    show dec_pcp (ce3p 5 11 41 64) 2 = ce3p 5 11 40 64 from by decide!]
  rw [show (121 : Nat) = 120 + 1 from rfl,
    fdms_step 120 _ 3 ce3_r31 (by decide),
    show dec_pcp (ce3p 5 11 40 64) 3 = ce3p 5 11 40 63 from by decide!]
  rw [show (120 : Nat) = 119 + 1 from rfl,
    fdms_step 119 _ 2 ce3_r32 (by decide),
    show dec_pcp (ce3p 5 11 40 63) 2 = ce3p 5 11 39 63 from by decide!]
  rw [show (119 : Nat) = 118 + 1 from rfl,
    fdms_step 118 _ 3 ce3_r33 (by decide),
    show dec_pcp (ce3p 5 11 39 63) 3 = ce3p 5 11 39 62 from by decide!]
  rw [show (118 : Nat) = 117 + 1 from rfl,
    fdms_step 117 _ 1 ce3_r34 (by decide),
    show dec_pcp (ce3p 5 11 39 62) 1 = ce3p 5 10 39 62 from by decide!]
  rw [show (117 : Nat) = 116 + 1 from rfl,
    fdms_step 116 _ 3 ce3_r35 (by decide),
    show dec_pcp (ce3p 5 10 39 62) 3 = ce3p 5 10 39 61 from by decide!]
  rw [show (116 : Nat) = 115 + 1 from rfl,
    fdms_step 115 _ 2 ce3_r36 (by decide),
    show dec_pcp (ce3p 5 10 39 61) 2 = ce3p 5 10 38 61 from by decide!]
  rw [show (115 : Nat) = 114 + 1 from rfl,
    fdms_step 114 _ 3 ce3_r37 (by decide),
    show dec_pcp (ce3p 5 10 38 61) 3 = ce3p 5 10 38 60 from by decide!]
  rw [show (114 : Nat) = 113 + 1 from rfl,
    fdms_step 113 _ 3 ce3_r38 (by decide),
    show dec_pcp (ce3p 5 10 38 60) 3 = ce3p 5 10 38 59 from by decide!]
  rw [show (113 : Nat) = 112 + 1 from rfl,
    fdms_step 112 _ 1 ce3_r39 (by decide),
    show dec_pcp (ce3p 5 10 38 59) 1 = ce3p 5 9 38 59 from by decide!]
  rw [show (112 : Nat) = 111 + 1 from rfl,
    fdms_step 111 _ 3 ce3_r40 (by decide),
    show dec_pcp (ce3p 5 9 38 59) 3 = ce3p 5 9 38 58 from by decide!]
  rw [show (111 : Nat) = 110 + 1 from rfl,
    fdms_step 110 _ 3 ce3_r41 (by decide),
    show dec_pcp (ce3p 5 9 38 58) 3 = ce3p 5 9 38 57 from by decide!]
  rw [show (110 : Nat) = 109 + 1 from rfl,
    fdms_step 109 _ 3 ce3_r42 (by decide),
    show dec_pcp (ce3p 5 9 38 57) 3 = ce3p 5 9 38 56 from by decide!]
  rw [show (109 : Nat) = 108 + 1 from rfl,
    fdms_step 108 _ 1 ce3_r43 (by decide),
    show dec_pcp (ce3p 5 9 38 56) 1 = ce3p 5 8 38 56 from by decide!]
  rw [show (108 : Nat) = 107 + 1 from rfl,
    fdms_step 107 _ 3 ce3_r44 (by decide),
    show dec_pcp (ce3p 5 8 38 56) 3 = ce3p 5 8 38 55 from by decide!]
  rw [show (107 : Nat) = 106 + 1 from rfl,
    fdms_step 106 _ 3 ce3_r45 (by decide),
    show dec_pcp (ce3p 5 8 38 55) 3 = ce3p 5 8 38 54 from by decide!]
  rw [show (106 : Nat) = 105 + 1 from rfl,
    fdms_step 105 _ 3 ce3_r46 (by decide),
    show dec_pcp (ce3p 5 8 38 54) 3 = ce3p 5 8 38 53 from by decide!]
  rw [show (105 : Nat) = 104 + 1 from rfl,
    fdms_step 104 _ 2 ce3_r47 (by decide),
    show dec_pcp (ce3p 5 8 38 53) 2 = ce3p 5 8 37 53 from by decide!]
  rw [show (104 : Nat) = 103 + 1 from rfl,
    fdms_step 103 _ 1 ce3_r48 (by decide),
    show dec_pcp (ce3p 5 8 37 53) 1 = ce3p 5 7 37 53 from by decide!]
  rw [show (103 : Nat) = 102 + 1 from rfl,
    fdms_step 102 _ 2 ce3_r49 (by decide),
    show dec_pcp (ce3p 5 7 37 53) 2 = ce3p 5 7 36 53 from by decide!]
  rw [show (102 : Nat) = 101 + 1 from rfl,
    fdms_step 101 _ 1 ce3_r50 (by decide),
    show dec_pcp (ce3p 5 7 36 53) 1 = ce3p 5 6 36 53 from by decide!]
  rw [show (101 : Nat) = 100 + 1 from rfl,
    fdms_step 100 _ 2 ce3_r51 (by decide),
    show dec_pcp (ce3p 5 6 36 53) 2 = ce3p 5 6 35 53 from by decide!]
  rw [show (100 : Nat) = 99 + 1 from rfl,
    fdms_step 99 _ 1 ce3_r52 (by decide),
    show dec_pcp (ce3p 5 6 35 53) 1 = ce3p 5 5 35 53 from by decide!]
  rw [show (99 : Nat) = 98 + 1 from rfl,
    fdms_step 98 _ 2 ce3_r53 (by decide),
    show dec_pcp (ce3p 5 5 35 53) 2 = ce3p 5 5 34 53 from by decide!]
  rw [show (98 : Nat) = 97 + 1 from rfl,
    fdms_step 97 _ 1 ce3_r54 (by decide),
    show dec_pcp (ce3p 5 5 34 53) 1 = ce3p 5 4 34 53 from by decide!]
  rw [show (97 : Nat) = 96 + 1 from rfl,
    fdms_step 96 _ 2 ce3_r55 (by decide),
    show dec_pcp (ce3p 5 4 34 53) 2 = ce3p 5 4 33 53 from by decide!]
  rw [show (96 : Nat) = 95 + 1 from rfl,
    fdms_step 95 _ 2 ce3_r56 (by decide),
    show dec_pcp (ce3p 5 4 33 53) 2 = ce3p 5 4 32 53 from by decide!]
  rw [show (95 : Nat) = 94 + 1 from rfl,
    fdms_step 94 _ 2 ce3_r57 (by decide),
    show dec_pcp (ce3p 5 4 32 53) 2 = ce3p 5 4 31 53 from by decide!]
  rw [show (94 : Nat) = 93 + 1 from rfl,
    fdms_step 93 _ 2 ce3_r58 (by decide),
    show dec_pcp (ce3p 5 4 31 53) 2 = ce3p 5 4 30 53 from by decide!]
  rw [show (93 : Nat) = 92 + 1 from rfl,
    fdms_step 92 _ 2 ce3_r59 (by decide),
    show dec_pcp (ce3p 5 4 30 53) 2 = ce3p 5 4 29 53 from by decide!]
  rw [show (92 : Nat) = 91 + 1 from rfl,
    fdms_step 91 _ 2 ce3_r60 (by decide),
    show dec_pcp (ce3p 5 4 29 53) 2 = ce3p 5 4 28 53 from by decide!]
  rw [show (91 : Nat) = 90 + 1 from rfl,
    fdms_step 90 _ 1 ce3_r61 (by decide),
    show dec_pcp (ce3p 5 4 28 53) 1 = ce3p 5 3 28 53 from by decide!]
  rw [show (90 : Nat) = 89 + 1 from rfl,
    fdms_step 89 _ 3 ce3_r62 (by decide),
    show dec_pcp (ce3p 5 3 28 53) 3 = ce3p 5 3 28 52 from by decide!]
  rw [show (89 : Nat) = 88 + 1 from rfl,
    fdms_step 88 _ 2 ce3_r63 (by decide),
    show dec_pcp (ce3p 5 3 28 52) 2 = ce3p 5 3 27 52 from by decide!]
  rw [show (88 : Nat) = 87 + 1 from rfl,
    fdms_step 87 _ 1 ce3_r64 (by decide),
    show dec_pcp (ce3p 5 3 27 52) 1 = ce3p 5 2 27 52 from by decide!]
  rw [show (87 : Nat) = 86 + 1 from rfl,
    fdms_step 86 _ 3 ce3_r65 (by decide),
    show dec_pcp (ce3p 5 2 27 52) 3 = ce3p 5 2 27 51 from by decide!]
  rw [show (86 : Nat) = 85 + 1 from rfl,
    fdms_step 85 _ 3 ce3_r66 (by decide),
    show dec_pcp (ce3p 5 2 27 51) 3 = ce3p 5 2 27 50 from by decide!]
  rw [show (85 : Nat) = 84 + 1 from rfl,
    fdms_step 84 _ 3 ce3_r67 (by decide),
    show dec_pcp (ce3p 5 2 27 50) 3 = ce3p 5 2 27 49 from by decide!]
  rw [show (84 : Nat) = 83 + 1 from rfl,
    fdms_step 83 _ 3 ce3_r68 (by decide),
    show dec_pcp (ce3p 5 2 27 49) 3 = ce3p 5 2 27 48 from by decide!]
  rw [show (83 : Nat) = 82 + 1 from rfl,
    fdms_step 82 _ 3 ce3_r69 (by decide),
    show dec_pcp (ce3p 5 2 27 48) 3 = ce3p 5 2 27 47 from by decide!]
  rw [show (82 : Nat) = 81 + 1 from rfl,
    fdms_step 81 _ 3 ce3_r70 (by decide),
    show dec_pcp (ce3p 5 2 27 47) 3 = ce3p 5 2 27 46 from by decide!]
  rw [show (81 : Nat) = 80 + 1 from rfl,
    fdms_step 80 _ 3 ce3_r71 (by decide),
    show dec_pcp (ce3p 5 2 27 46) 3 = ce3p 5 2 27 45 from by decide!]
  rw [show (80 : Nat) = 79 + 1 from rfl,
    fdms_step 79 _ 3 ce3_r72 (by decide),
    show dec_pcp (ce3p 5 2 27 45) 3 = ce3p 5 2 27 44 from by decide!]
  rw [show (79 : Nat) = 78 + 1 from rfl,
    fdms_step 78 _ 3 ce3_r73 (by decide),
    show dec_pcp (ce3p 5 2 27 44) 3 = ce3p 5 2 27 43 from by decide!]
  rw [show (78 : Nat) = 77 + 1 from rfl,
    fdms_step 77 _ 3 ce3_r74 (by decide),
    show dec_pcp (ce3p 5 2 27 43) 3 = ce3p 5 2 27 42 from by decide!]
  rw [show (77 : Nat) = 76 + 1 from rfl,
    fdms_step 76 _ 3 ce3_r75 (by decide),
    show dec_pcp (ce3p 5 2 27 42) 3 = ce3p 5 2 27 41 from by decide!]
  rw [show (76 : Nat) = 75 + 1 from rfl,
    fdms_step 75 _ 3 ce3_r76 (by decide),
    show dec_pcp (ce3p 5 2 27 41) 3 = ce3p 5 2 27 40 from by decide!]
  rw [show (75 : Nat) = 74 + 1 from rfl,
    fdms_step 74 _ 3 ce3_r77 (by decide),
    show dec_pcp (ce3p 5 2 27 40) 3 = ce3p 5 2 27 39 from by decide!]
  rw [show (74 : Nat) = 73 + 1 from rfl,
    fdms_step 73 _ 2 ce3_r78 (by decide),
    show dec_pcp (ce3p 5 2 27 39) 2 = ce3p 5 2 26 39 from by decide!]
  rw [show (73 : Nat) = 72 + 1 from rfl,
    fdms_step 72 _ 3 ce3_r79 (by decide),
    show dec_pcp (ce3p 5 2 26 39) 3 = ce3p 5 2 26 38 from by decide!]
  rw [show (72 : Nat) = 71 + 1 from rfl,
    fdms_step 71 _ 2 ce3_r80 (by decide),
    show dec_pcp (ce3p 5 2 26 38) 2 = ce3p 5 2 25 38 from by decide!]
  rw [show (71 : Nat) = 70 + 1 from rfl,
    fdms_step 70 _ 3 ce3_r81 (by decide),
    show dec_pcp (ce3p 5 2 25 38) 3 = ce3p 5 2 25 37 from by decide!]
  rw [show (70 : Nat) = 69 + 1 from rfl,
    fdms_step 69 _ 2 ce3_r82 (by decide),
    show dec_pcp (ce3p 5 2 25 37) 2 = ce3p 5 2 24 37 from by decide!]
  rw [show (69 : Nat) = 68 + 1 from rfl,
    fdms_step 68 _ 2 ce3_r83 (by decide),
    show dec_pcp (ce3p 5 2 24 37) 2 = ce3p 5 2 23 37 from by decide!]
  rw [show (68 : Nat) = 67 + 1 from rfl,
    fdms_step 67 _ 2 ce3_r84 (by decide),
    show dec_pcp (ce3p 5 2 23 37) 2 = ce3p 5 2 22 37 from by decide!]
  rw [show (67 : Nat) = 66 + 1 from rfl,
    fdms_step 66 _ 2 ce3_r85 (by decide),
    show dec_pcp (ce3p 5 2 22 37) 2 = ce3p 5 2 21 37 from by decide!]
  rw [show (66 : Nat) = 65 + 1 from rfl,
    fdms_step 65 _ 2 ce3_r86 (by decide),
    show dec_pcp (ce3p 5 2 21 37) 2 = ce3p 5 2 20 37 from by decide!]
  rw [show (65 : Nat) = 64 + 1 from rfl,
    fdms_step 64 _ 2 ce3_r87 (by decide),
    show dec_pcp (ce3p 5 2 20 37) 2 = ce3p 5 2 19 37 from by decide!]
  rw [show (64 : Nat) = 63 + 1 from rfl,
    fdms_step 63 _ 2 ce3_r88 (by decide),
    show dec_pcp (ce3p 5 2 19 37) 2 = ce3p 5 2 18 37 from by decide!]
  rw [show (63 : Nat) = 62 + 1 from rfl,
    fdms_step 62 _ 2 ce3_r89 (by decide),
    show dec_pcp (ce3p 5 2 18 37) 2 = ce3p 5 2 17 37 from by decide!]
  rw [show (62 : Nat) = 61 + 1 from rfl,
    fdms_step 61 _ 2 ce3_r90 (by decide),
    show dec_pcp (ce3p 5 2 17 37) 2 = ce3p 5 2 16 37 from by decide!]
  rw [show (61 : Nat) = 60 + 1 from rfl,
    fdms_step 60 _ 2 ce3_r91 (by decide),
    show dec_pcp (ce3p 5 2 16 37) 2 = ce3p 5 2 15 37 from by decide!]
  rw [show (60 : Nat) = 59 + 1 from rfl,
    fdms_step 59 _ 3 ce3_r92 (by decide),
    show dec_pcp (ce3p 5 2 15 37) 3 = ce3p 5 2 15 36 from by decide!]
  rw [show (59 : Nat) = 58 + 1 from rfl,
    fdms_step 58 _ 3 ce3_r93 (by decide),
    show dec_pcp (ce3p 5 2 15 36) 3 = ce3p 5 2 15 35 from by decide!]
  rw [show (58 : Nat) = 57 + 1 from rfl,
    fdms_step 57 _ 3 ce3_r94 (by decide),
    show dec_pcp (ce3p 5 2 15 35) 3 = ce3p 5 2 15 34 from by decide!]
  rw [show (57 : Nat) = 56 + 1 from rfl,
    fdms_step 56 _ 3 ce3_r95 (by decide),
    show dec_pcp (ce3p 5 2 15 34) 3 = ce3p 5 2 15 33 from by decide!]
  rw [show (56 : Nat) = 55 + 1 from rfl,
    fdms_step 55 _ 3 ce3_r96 (by decide),
    show dec_pcp (ce3p 5 2 15 33) 3 = ce3p 5 2 15 32 from by decide!]
  rw [show (55 : Nat) = 54 + 1 from rfl,
    fdms_step 54 _ 3 ce3_r97 (by decide),
    show dec_pcp (ce3p 5 2 15 32) 3 = ce3p 5 2 15 31 from by decide!]
  rw [show (54 : Nat) = 53 + 1 from rfl,
    fdms_step 53 _ 3 ce3_r98 (by decide),
    show dec_pcp (ce3p 5 2 15 31) 3 = ce3p 5 2 15 30 from by decide!]
  rw [show (53 : Nat) = 52 + 1 from rfl,
    fdms_step 52 _ 3 ce3_r99 (by decide),
    show dec_pcp (ce3p 5 2 15 30) 3 = ce3p 5 2 15 29 from by decide!]
  rw [show (52 : Nat) = 51 + 1 from rfl,
    fdms_step 51 _ 3 ce3_r100 (by decide),
    show dec_pcp (ce3p 5 2 15 29) 3 = ce3p 5 2 15 28 from by decide!]
  rw [show (51 : Nat) = 50 + 1 from rfl,
    fdms_step 50 _ 3 ce3_r101 (by decide),
    show dec_pcp (ce3p 5 2 15 28) 3 = ce3p 5 2 15 27 from by decide!]
  rw [show (50 : Nat) = 49 + 1 from rfl,
    fdms_step 49 _ 3 ce3_r102 (by decide),
    show dec_pcp (ce3p 5 2 15 27) 3 = ce3p 5 2 15 26 from by decide!]
  rw [show (49 : Nat) = 48 + 1 from rfl,
    fdms_step 48 _ 3 ce3_r103 (by decide),
    show dec_pcp (ce3p 5 2 15 26) 3 = ce3p 5 2 15 25 from by decide!]
  rw [show (48 : Nat) = 47 + 1 from rfl,
    fdms_step 47 _ 3 ce3_r104 (by decide),
    show dec_pcp (ce3p 5 2 15 25) 3 = ce3p 5 2 15 24 from by decide!]
  rw [show (47 : Nat) = 46 + 1 from rfl,
    fdms_step 46 _ 3 ce3_r105 (by decide),
    show dec_pcp (ce3p 5 2 15 24) 3 = ce3p 5 2 15 23 from by decide!]
  rw [show (46 : Nat) = 45 + 1 from rfl,
    fdms_step 45 _ 3 ce3_r106 (by decide),
    show dec_pcp (ce3p 5 2 15 23) 3 = ce3p 5 2 15 22 from by decide!]
  rw [show (45 : Nat) = 44 + 1 from rfl,
    fdms_step 44 _ 3 ce3_r107 (by decide),
    show dec_pcp (ce3p 5 2 15 22) 3 = ce3p 5 2 15 21 from by decide!]
  rw [show (44 : Nat) = 43 + 1 from rfl,
    fdms_step 43 _ 3 ce3_r108 (by decide),
    show dec_pcp (ce3p 5 2 15 21) 3 = ce3p 5 2 15 20 from by decide!]
  rw [show (43 : Nat) = 42 + 1 from rfl,
    fdms_step 42 _ 3 ce3_r109 (by decide),
    show dec_pcp (ce3p 5 2 15 20) 3 = ce3p 5 2 15 19 from by decide!]
  rw [show (42 : Nat) = 41 + 1 from rfl,
    fdms_step 41 _ 3 ce3_r110 (by decide),
    show dec_pcp (ce3p 5 2 15 19) 3 = ce3p 5 2 15 18 from by decide!]
  rw [show (41 : Nat) = 40 + 1 from rfl,
    fdms_step 40 _ 3 ce3_r111 (by decide),
    show dec_pcp (ce3p 5 2 15 18) 3 = ce3p 5 2 15 17 from by decide!]
  rw [show (40 : Nat) = 39 + 1 from rfl,
    fdms_step 39 _ 3 ce3_r112 (by decide),
    show dec_pcp (ce3p 5 2 15 17) 3 = ce3p 5 2 15 16 from by decide!]
  rw [show (39 : Nat) = 38 + 1 from rfl,
    fdms_step 38 _ 3 ce3_r113 (by decide),
    show dec_pcp (ce3p 5 2 15 16) 3 = ce3p 5 2 15 15 from by decide!]
  rw [show (38 : Nat) = 37 + 1 from rfl,
    fdms_step 37 _ 2 ce3_r114 (by decide),
    show dec_pcp (ce3p 5 2 15 15) 2 = ce3p 5 2 14 15 from by decide!]
  rw [show (37 : Nat) = 36 + 1 from rfl,
    fdms_step 36 _ 3 ce3_r115 (by decide),
    show dec_pcp (ce3p 5 2 14 15) 3 = ce3p 5 2 14 14 from by decide!]
  rw [show (36 : Nat) = 35 + 1 from rfl,
    fdms_step 35 _ 3 ce3_r116 (by decide),
    show dec_pcp (ce3p 5 2 14 14) 3 = ce3p 5 2 14 13 from by decide!]
  rw [show (35 : Nat) = 34 + 1 from rfl,
    fdms_step 34 _ 3 ce3_r117 (by decide),
    show dec_pcp (ce3p 5 2 14 13) 3 = ce3p 5 2 14 12 from by decide!]
  rw [show (34 : Nat) = 33 + 1 from rfl,
    fdms_step 33 _ 2 ce3_r118 (by decide),
    show dec_pcp (ce3p 5 2 14 12) 2 = ce3p 5 2 13 12 from by decide!]
  rw [show (33 : Nat) = 32 + 1 from rfl,
    fdms_step 32 _ 2 ce3_r119 (by decide),
    show dec_pcp (ce3p 5 2 13 12) 2 = ce3p 5 2 12 12 from by decide!]
  rw [show (32 : Nat) = 31 + 1 from rfl,
    fdms_step 31 _ 3 ce3_r120 (by decide),
    show dec_pcp (ce3p 5 2 12 12) 3 = ce3p 5 2 12 11 from by decide!]
  rw [show (31 : Nat) = 30 + 1 from rfl,
    fdms_step 30 _ 3 ce3_r121 (by decide),
    show dec_pcp (ce3p 5 2 12 11) 3 = ce3p 5 2 12 10 from by decide!]
  rw [show (30 : Nat) = 29 + 1 from rfl,
    fdms_step 29 _ 3 ce3_r122 (by decide),
    show dec_pcp (ce3p 5 2 12 10) 3 = ce3p 5 2 12 9 from by decide!]
  rw [show (29 : Nat) = 28 + 1 from rfl,
    fdms_step 28 _ 3 ce3_r123 (by decide),
    show dec_pcp (ce3p 5 2 12 9) 3 = ce3p 5 2 12 8 from by decide!]
  rw [show (28 : Nat) = 27 + 1 from rfl,
    fdms_step 27 _ 3 ce3_r124 (by decide),
    show dec_pcp (ce3p 5 2 12 8) 3 = ce3p 5 2 12 7 from by decide!]
  rw [show (27 : Nat) = 26 + 1 from rfl,
    fdms_step 26 _ 3 ce3_r125 (by decide),
    show dec_pcp (ce3p 5 2 12 7) 3 = ce3p 5 2 12 6 from by decide!]
  rw [show (26 : Nat) = 25 + 1 from rfl,
    fdms_step 25 _ 3 ce3_r126 (by decide),
    show dec_pcp (ce3p 5 2 12 6) 3 = ce3p 5 2 12 5 from by decide!]
  rw [show (25 : Nat) = 24 + 1 from rfl,
    fdms_step 24 _ 3 ce3_r127 (by decide),
    show dec_pcp (ce3p 5 2 12 5) 3 = ce3p 5 2 12 4 from by decide!]
  rw [show (24 : Nat) = 23 + 1 from rfl,
    fdms_step 23 _ 3 ce3_r128 (by decide),
    show dec_pcp (ce3p 5 2 12 4) 3 = ce3p 5 2 12 3 from by decide!]
  rw [show (23 : Nat) = 22 + 1 from rfl,
    fdms_step 22 _ 3 ce3_r129 (by decide),
    show dec_pcp (ce3p 5 2 12 3) 3 = ce3p 5 2 12 2 from by decide!]
  rw [show (22 : Nat) = 21 + 1 from rfl,
    fdms_step 21 _ 3 ce3_r130 (by decide),
    show dec_pcp (ce3p 5 2 12 2) 3 = ce3p 5 2 12 1 from by decide!]
  rw [show (21 : Nat) = 20 + 1 from rfl,
    fdms_step 20 _ 3 ce3_r131 (by decide),
    show dec_pcp (ce3p 5 2 12 1) 3 = ce3p 5 2 12 0 from by decide!]
  rw [show (20 : Nat) = 19 + 1 from rfl]
  exact fdms_last 19 _ 3 ce3_r132 (by decide)

/-- C8: for the counterexample-3 task set with wcets and periods
`(6,11), (6,20), (4,46), (5,74)` and fixed priorities `(4,0), (5,1),
`(6,2), (7,3)`, the FDMS policy fails (`test_fdms_phase_change_points`
returns 0), yet the same task set with phase change points `5, 3, 25, 35`
is schedulable: `simulate_sas` reports no deadline miss over the whole
hyper period of 187220 ticks. -/
theorem claim_C8 :
    test_fdms_phase_change_points ce3_ts = some false ∧
      simulate_sas (set_pcps ce3_ts 5 3 25 35) = none :=
  ⟨ce3_fdms, ce3_sched⟩
